import Mathlib

/-!
# logiTrack-server: a shallow embedding of `src/server.js`

The server is a set of Express handlers, each of which builds one parameterised SQL
statement, sends it to a PostgreSQL pool and maps the result to an HTTP response.

* Request text fields (`req.body.x`) are `Option String`: `none` is JavaScript `undefined`.
* A row identifier (`req.params.id`) is a natural number, the type of the `id` column.
* The relational store is an external collaborator.  It is modelled by `execUpdate`,
  `execInsert`, `execDelete`, `execSelectAll` on a list of rows, and a call of `pool.query`
  either executes the statement or throws (`Env.fault`), which the handler catches.
* `NOW()` is `Env.now`.
-/

namespace LogiTrack

/-! ## Values -/

/-- Contents of a `Buffer`. -/
abbrev Bytes := List Nat

/-- A point in time as PostgreSQL stores it in a `timestamp` column. -/
structure Timestamp where
  year : Nat
  month : Nat
  day : Nat
  secondOfDay : Nat
deriving DecidableEq, Repr

/-- JavaScript values that handlers bind as parameters, read from result rows and send. -/
inductive Val where
  | undefined
  | null
  | bool (b : Bool)
  | num (n : Nat)
  | str (s : String)
  | buffer (b : Bytes)
  | date (t : Timestamp)
deriving DecidableEq, Repr

/-- The file that `upload.single("file_data")` leaves in `req.file`. -/
structure UploadedFile where
  originalname : String
  buffer : Bytes
deriving DecidableEq, Repr

/-- JavaScript truthiness of a text field: `undefined` and `""` are falsy. -/
def truthy : Option String → Bool
  | none => false
  | some s => s != ""

/-- JavaScript `a || b` on text fields. -/
def jsOr (a b : Option String) : Option String :=
  if truthy a then a else b

/-- The value of a text field as a JavaScript value. -/
def fieldVal : Option String → Val
  | none => Val.undefined
  | some s => Val.str s

/-! ## The seven document entities -/

inductive Entity where
  | shipments
  | dispatchOutputs
  | deliveryForwards
  | customers
  | summary
  | itemSnapshots
  | itemActivityLogs
deriving DecidableEq, Repr

/-- Table name used in the SQL text of the entity's handlers. -/
def Entity.table : Entity → String
  | .shipments => "shipments"
  | .dispatchOutputs => "dispatch_outputs"
  | .deliveryForwards => "delivery_forwards"
  | .customers => "customers"
  | .summary => "summary"
  | .itemSnapshots => "item_snapshots"
  | .itemActivityLogs => "item_activity_logs"

/-- The `error` text of the 404 answer of `PUT /api/E/:id`. -/
def Entity.updateNotFound : Entity → String
  | .shipments => "Shipment not found"
  | .dispatchOutputs => "Dispatch output not found"
  | .deliveryForwards => "Delivery forward not found"
  | .customers => "customers not found"
  | .summary => "Summary not found"
  | .itemSnapshots => "Item snapshot not found"
  | .itemActivityLogs => "Item activity log not found"

/-- The `error` text of the 500 answer of `PUT /api/E/:id`. -/
def Entity.updateFailed : Entity → String
  | .shipments => "Failed to update shipment"
  | .dispatchOutputs => "Failed to update dispatch output"
  | .deliveryForwards => "Failed to update delivery forward"
  | .customers => "Failed to update customers"
  | .summary => "Failed to update summary"
  | .itemSnapshots => "Failed to update item snapshot"
  | .itemActivityLogs => "Failed to update item activity log"

/-- The `message` text of the 404 answer of `DELETE /api/E/:id`. -/
def Entity.deleteNotFound : Entity → String
  | .shipments => "Shipment not found"
  | .dispatchOutputs => "Dispatch output not found"
  | .deliveryForwards => "Delivery forward not found"
  | .customers => "Customer not found"
  | .summary => "Summary not found"
  | .itemSnapshots => "Item snapshot not found"
  | .itemActivityLogs => "Item activity log not found"

/-- The `message` text of the 200 answer of `DELETE /api/E/:id`. -/
def Entity.deleted : Entity → String
  | .shipments => "Shipment deleted successfully"
  | .dispatchOutputs => "Dispatch output deleted successfully"
  | .deliveryForwards => "Delivery forward deleted successfully"
  | .customers => "Customer deleted successfully"
  | .summary => "Summary deleted successfully"
  | .itemSnapshots => "Item snapshot deleted successfully"
  | .itemActivityLogs => "Item activity log deleted successfully"

/-- The `error` text of the 500 answer of `POST /api/E`. -/
def Entity.createFailed : Entity → String
  | .shipments => "Failed to create shipment"
  | .dispatchOutputs => "Failed to create dispatch output"
  | .deliveryForwards => "Failed to create delivery forward"
  | .customers => "Failed to create customer"
  | .summary => "Failed to create summary"
  | .itemSnapshots => "Failed to create item snapshot"
  | .itemActivityLogs => "Failed to create item activity log"

/-- The `error` text of the 500 answer of `GET /api/E`. -/
def Entity.fetchFailed : Entity → String
  | .shipments => "Failed to fetch shipments"
  | .dispatchOutputs => "Failed to fetch dispatch outputs"
  | .deliveryForwards => "Failed to fetch delivery forwards"
  | .customers => "Failed to fetch shipments"
  | .summary => "Failed to fetch summary"
  | .itemSnapshots => "Failed to fetch item snapshots"
  | .itemActivityLogs => "Failed to fetch item activity logs"

/-! ## The store: document tables -/

/-- Columns of a document table. -/
inductive Col where
  | id
  | name
  | description
  | status
  | created_at
  | updated_at
  | created_by
  | updated_by
  | file_name
  | file_data
deriving DecidableEq, Repr

/-- One row of a document table.  Every column but the key holds a value or `Val.null`. -/
structure DocRow where
  id : Nat
  name : Val
  description : Val
  status : Val
  created_at : Val
  updated_at : Val
  created_by : Val
  updated_by : Val
  file_name : Val
  file_data : Val
deriving DecidableEq, Repr

/-- A document table with the sequence that generates its `id`s. -/
structure Table where
  rows : List DocRow
  nextId : Nat
deriving DecidableEq, Repr

/-- Right-hand side of a `SET` item: `NOW()` or a placeholder `$n`. -/
inductive Rhs where
  | now
  | param (n : Nat)
deriving DecidableEq, Repr

/-- One item `col = rhs` of a `SET` clause. -/
structure Assign where
  col : Col
  rhs : Rhs
deriving DecidableEq, Repr

/-- The `RETURNING` clause of a statement. -/
inductive Returning where
  | none
  | star
  | cols (cs : List Col)
deriving DecidableEq, Repr

/-- `UPDATE table SET sets WHERE id = $whereParam RETURNING returning`, with its text. -/
structure UpdateStmt where
  text : String
  table : String
  sets : List Assign
  whereParam : Nat
  returning : Returning
deriving DecidableEq, Repr

/-- `INSERT INTO table (columns) VALUES ($1, ..., $k) RETURNING returning`. -/
structure InsertStmt where
  table : String
  columns : List Col
  returning : Returning
deriving DecidableEq, Repr

/-- A statement handed to `pool.query` together with its bound values. -/
inductive Stmt where
  | update (s : UpdateStmt) (values : List Val)
  | insert (s : InsertStmt) (values : List Val)
  | delete (table : String) (values : List Val)
  | selectAll (table : String)
deriving DecidableEq, Repr

/-- The value the driver sends for a bound JavaScript value: `undefined` becomes `NULL`. -/
def toSql : Val → Val
  | Val.undefined => Val.null
  | v => v

/-- The value bound to the placeholder `$n`. -/
def param (values : List Val) (n : Nat) : Val :=
  match values[n - 1]? with
  | some v => toSql v
  | none => Val.null

/-- The value of a `SET` right-hand side. -/
def evalRhs (now : Timestamp) (values : List Val) : Rhs → Val
  | .now => Val.date now
  | .param n => param values n

/-- Store a value in a column of a row. -/
def DocRow.set (r : DocRow) (c : Col) (v : Val) : DocRow :=
  match c with
  | .id => match v with
    | Val.num n => { r with id := n }
    | _ => r
  | .name => { r with name := v }
  | .description => { r with description := v }
  | .status => { r with status := v }
  | .created_at => { r with created_at := v }
  | .updated_at => { r with updated_at := v }
  | .created_by => { r with created_by := v }
  | .updated_by => { r with updated_by := v }
  | .file_name => { r with file_name := v }
  | .file_data => { r with file_data := v }

/-- Read a column of a row. -/
def DocRow.get (r : DocRow) : Col → Val
  | .id => Val.num r.id
  | .name => r.name
  | .description => r.description
  | .status => r.status
  | .created_at => r.created_at
  | .updated_at => r.updated_at
  | .created_by => r.created_by
  | .updated_by => r.updated_by
  | .file_name => r.file_name
  | .file_data => r.file_data

/-- Name of a column as it appears as a key of a result row. -/
def Col.key : Col → String
  | .id => "id"
  | .name => "name"
  | .description => "description"
  | .status => "status"
  | .created_at => "created_at"
  | .updated_at => "updated_at"
  | .created_by => "created_by"
  | .updated_by => "updated_by"
  | .file_name => "file_name"
  | .file_data => "file_data"

/-- All columns of a document table, as `RETURNING *` lists them. -/
def allCols : List Col :=
  [.id, .name, .description, .status, .created_at, .updated_at, .created_by, .updated_by,
   .file_name, .file_data]

/-- A result row: the object `result.rows[i]`. -/
abbrev ResultRow := List (String × Val)

/-- The result row of a table row under a `RETURNING` clause. -/
def project (ret : Returning) (r : DocRow) : ResultRow :=
  match ret with
  | .none => []
  | .star => allCols.map (fun c => (c.key, r.get c))
  | .cols cs => cs.map (fun c => (c.key, r.get c))

/-- What `pool.query` resolves to. -/
structure QueryResult where
  rows : List ResultRow
  rowCount : Nat
deriving DecidableEq, Repr

/-- Apply a `SET` clause to a row. -/
def applySets (now : Timestamp) (values : List Val) (sets : List Assign) (r : DocRow) : DocRow :=
  sets.foldl (fun acc a => acc.set a.col (evalRhs now values a.rhs)) r

/-- Whether a row satisfies `WHERE id = $n`. -/
def matchesId (values : List Val) (n : Nat) (r : DocRow) : Bool :=
  decide (param values n = Val.num r.id)

/-- Execute an `UPDATE` statement. -/
def execUpdate (now : Timestamp) (t : Table) (s : UpdateStmt) (values : List Val) :
    QueryResult × Table :=
  let hit := t.rows.filter (matchesId values s.whereParam)
  let rows := t.rows.map (fun r =>
    if matchesId values s.whereParam r then applySets now values s.sets r else r)
  let out := hit.map (fun r => project s.returning (applySets now values s.sets r))
  ({ rows := match s.returning with
             | .none => []
             | _ => out,
     rowCount := hit.length },
   { t with rows := rows })

/-- The column defaults of a freshly inserted row: the key comes from the sequence and the two
timestamps default to `NOW()`. -/
def freshRow (now : Timestamp) (id : Nat) : DocRow :=
  { id := id, name := Val.null, description := Val.null, status := Val.null,
    created_at := Val.date now, updated_at := Val.date now,
    created_by := Val.null, updated_by := Val.null,
    file_name := Val.null, file_data := Val.null }

/-- Fill the listed columns of a row with `$k`, `$(k+1)`, ... in order. -/
def fillCols (values : List Val) : List Col → Nat → DocRow → DocRow
  | [], _, r => r
  | c :: cs, k, r => fillCols values cs (k + 1) (r.set c (param values k))

/-- Execute an `INSERT` statement. -/
def execInsert (now : Timestamp) (t : Table) (s : InsertStmt) (values : List Val) :
    QueryResult × Table :=
  let row := fillCols values s.columns 1 (freshRow now t.nextId)
  ({ rows := match s.returning with
             | .none => []
             | ret => [project ret row],
     rowCount := 1 },
   { rows := t.rows ++ [row], nextId := t.nextId + 1 })

/-- Execute `DELETE FROM table WHERE id = $1`. -/
def execDelete (t : Table) (values : List Val) : QueryResult × Table :=
  let hit := t.rows.filter (matchesId values 1)
  ({ rows := [], rowCount := hit.length },
   { t with rows := t.rows.filter (fun r => !matchesId values 1 r) })

/-- Decimal numeral of `n`, padded with zeros on the left to at least `w` digits. -/
def padZero (w n : Nat) : String :=
  String.mk (List.replicate (w - (toString n).length) '0') ++ toString n

/-- PostgreSQL `TO_CHAR(ts, 'YYYY-MM-DD')`. -/
def toCharDate : Val → Val
  | Val.date t => Val.str (padZero 4 t.year ++ "-" ++ padZero 2 t.month ++ "-" ++ padZero 2 t.day)
  | _ => Val.null

/-- The select list of `GET /api/E`. -/
def listRow (r : DocRow) : ResultRow :=
  [("id", Val.num r.id), ("name", r.name), ("description", r.description),
   ("createdAt", toCharDate r.created_at), ("createdBy", r.created_by),
   ("updatedAt", toCharDate r.updated_at), ("updatedBy", r.updated_by),
   ("status", r.status), ("file_name", r.file_name), ("file_data", r.file_data)]

/-- The order of `ORDER BY id DESC`. -/
def idDesc (a b : DocRow) : Prop := b.id ≤ a.id

instance : DecidableRel idDesc := fun a b => inferInstanceAs (Decidable (b.id ≤ a.id))

/-- Execute the `SELECT ... FROM table ORDER BY id DESC` of `GET /api/E`. -/
def execSelectAll (t : Table) : QueryResult × Table :=
  let rows := (t.rows.insertionSort idDesc).map listRow
  ({ rows := rows, rowCount := rows.length }, t)

/-- Execute a statement on a document table. -/
def exec (now : Timestamp) (t : Table) : Stmt → QueryResult × Table
  | .update s values => execUpdate now t s values
  | .insert s values => execInsert now t s values
  | .delete _ values => execDelete t values
  | .selectAll _ => execSelectAll t

/-- An error thrown by `pool.query`, with its `code` when the store gives one, its `message`
and its `stack`. -/
structure DbError where
  code : Option String
  message : String := ""
  stack : String := ""
deriving DecidableEq, Repr

/-- What a request finds outside the handler: the clock of the store, and whether the store
throws in place of executing the statement. -/
structure Env where
  now : Timestamp
  fault : Option DbError
deriving DecidableEq, Repr

/-- The call `await pool.query(query, values)`. -/
def poolQuery (env : Env) (t : Table) (s : Stmt) : Except DbError (QueryResult × Table) :=
  match env.fault with
  | some err => Except.error err
  | none => Except.ok (exec env.now t s)

/-! ## HTTP responses -/

/-- A member of a JSON object in a response body: a value or a flat object. -/
inductive Json1 where
  | val (v : Val)
  | obj (fields : ResultRow)
deriving DecidableEq, Repr

/-- A response body: nothing, a JSON object or a JSON array of result rows. -/
inductive Body where
  | empty
  | obj (fields : List (String × Json1))
  | arr (rows : List ResultRow)
deriving DecidableEq, Repr

structure Response where
  status : Nat
  body : Body
deriving DecidableEq, Repr

/-- The body `{ error: msg }`. -/
def errorBody (msg : String) : Body := Body.obj [("error", Json1.val (Val.str msg))]

/-- The body `{ message: msg }`. -/
def messageBody (msg : String) : Body := Body.obj [("message", Json1.val (Val.str msg))]

/-- The body `res.json(row)` of a result row. -/
def rowBody (r : ResultRow) : Body := Body.obj (r.map (fun kv => (kv.1, Json1.val kv.2)))

/-- What a handler did: its response, the table afterwards and the statements it sent. -/
structure Outcome where
  response : Response
  table : Table
  issued : List Stmt
deriving DecidableEq, Repr

/-! ## Partial update: `PUT /api/E/:id` -/

/-- The request of `PUT /api/E/:id`: `req.params.id`, the fields read from `req.body`, and
`req.file`. -/
structure UpdateReq where
  id : Nat
  name : Option String
  description : Option String
  status : Option String
  createdBy : Option String
  updatedBy : Option String
  file : Option UploadedFile
deriving DecidableEq, Repr

/-- The variables `query`, `values` and `paramCounter` of the handler, with the `SET` items that
the text of `query` holds. -/
structure Builder where
  query : String
  sets : List Assign
  values : List Val
  paramCounter : Nat
deriving DecidableEq, Repr

/-- The start of the statement: `updated_at = NOW(), updated_by = $1`, with
`values = [createdBy || req.body.updatedBy]` and `paramCounter = 2`. -/
def Builder.init (e : Entity) (req : UpdateReq) : Builder :=
  { query := "\n      UPDATE " ++ e.table ++
      " \n      SET \n        updated_at = NOW(),\n        updated_by = $1\n    ",
    sets := [⟨Col.updated_at, Rhs.now⟩, ⟨Col.updated_by, Rhs.param 1⟩],
    values := [fieldVal (jsOr req.createdBy req.updatedBy)],
    paramCounter := 2 }

/-- The body of `if (x) { query += ", x = $" + paramCounter++; values.push(x); }`. -/
def Builder.addField (b : Builder) (c : Col) (v : Val) : Builder :=
  { query := b.query ++ ", " ++ c.key ++ " = $" ++ toString b.paramCounter,
    sets := b.sets ++ [⟨c, Rhs.param b.paramCounter⟩],
    values := b.values ++ [v],
    paramCounter := b.paramCounter + 1 }

/-- The body of `if (file) { ... }`: two items and two values. -/
def Builder.addFile (b : Builder) (f : UploadedFile) : Builder :=
  { query := b.query ++ ", file_name = $" ++ toString b.paramCounter ++
      ", file_data = $" ++ toString (b.paramCounter + 1),
    sets := b.sets ++ [⟨Col.file_name, Rhs.param b.paramCounter⟩,
      ⟨Col.file_data, Rhs.param (b.paramCounter + 1)⟩],
    values := b.values ++ [Val.str f.originalname, Val.buffer f.buffer],
    paramCounter := b.paramCounter + 2 }

/-- The builder after the four `if`s of the handler. -/
def Builder.run (e : Entity) (req : UpdateReq) : Builder :=
  let b0 := Builder.init e req
  let b1 := if truthy req.name then b0.addField Col.name (fieldVal req.name) else b0
  let b2 := if truthy req.description then
    b1.addField Col.description (fieldVal req.description) else b1
  let b3 := if truthy req.status then b2.addField Col.status (fieldVal req.status) else b2
  match req.file with
  | some f => b3.addFile f
  | none => b3

/-- The statement and the bound values that the handler passes to `pool.query`. -/
def buildUpdate (e : Entity) (req : UpdateReq) : UpdateStmt × List Val :=
  let b := Builder.run e req
  ({ text := b.query ++ " WHERE id = $" ++ toString b.paramCounter ++ " RETURNING *",
     table := e.table,
     sets := b.sets,
     whereParam := b.paramCounter,
     returning := Returning.star },
   b.values ++ [Val.num req.id])

/-- The handler `app.put("/api/E/:id")`. -/
def putDocument (e : Entity) (env : Env) (t : Table) (req : UpdateReq) : Outcome :=
  let q := buildUpdate e req
  let stmt := Stmt.update q.1 q.2
  match poolQuery env t stmt with
  | Except.error _ =>
    { response := ⟨500, errorBody e.updateFailed⟩, table := t, issued := [stmt] }
  | Except.ok (result, t1) =>
    match result.rows with
    | [] => { response := ⟨404, errorBody e.updateNotFound⟩, table := t1, issued := [stmt] }
    | row :: _ => { response := ⟨200, rowBody row⟩, table := t1, issued := [stmt] }

/-! ## Create: `POST /api/E` -/

/-- The request of `POST /api/E`. -/
structure CreateReq where
  name : Option String
  createdBy : Option String
  description : Option String
  status : Option String
  file : Option UploadedFile
deriving DecidableEq, Repr

/-- The `INSERT` statement of the handler. -/
def insertStmt (e : Entity) : InsertStmt :=
  { table := e.table,
    columns := [Col.name, Col.description, Col.status, Col.created_by, Col.updated_by,
      Col.file_name, Col.file_data],
    returning := Returning.cols [Col.id, Col.name, Col.description, Col.status,
      Col.created_at, Col.updated_at, Col.created_by, Col.updated_by, Col.file_name] }

/-- The value of `x || null`. -/
def orNull (x : Option String) : Val :=
  if truthy x then fieldVal x else Val.null

/-- The value of `x || "incomplete"`. -/
def orIncomplete (x : Option String) : Val :=
  if truthy x then fieldVal x else Val.str "incomplete"

/-- The handler `app.post("/api/E")`.  The first `match` is the test
`!name || !createdBy || !file`. -/
def postDocument (e : Entity) (env : Env) (t : Table) (req : CreateReq) : Outcome :=
  match truthy req.name, truthy req.createdBy, req.file with
  | true, true, some file =>
    let values := [fieldVal req.name, orNull req.description, orIncomplete req.status,
      fieldVal req.createdBy, fieldVal req.createdBy,
      Val.str file.originalname, Val.buffer file.buffer]
    let stmt := Stmt.insert (insertStmt e) values
    match poolQuery env t stmt with
    | Except.error _ =>
      { response := ⟨500, errorBody e.createFailed⟩, table := t, issued := [stmt] }
    | Except.ok (result, t1) =>
      { response := ⟨201, match result.rows with
                          | row :: _ => rowBody row
                          | [] => Body.empty⟩,
        table := t1, issued := [stmt] }
  | _, _, _ =>
    { response := ⟨400, errorBody "Missing required fields"⟩, table := t, issued := [] }

/-! ## Delete and list -/

/-- The handler `app.delete("/api/E/:id")`. -/
def deleteDocument (e : Entity) (env : Env) (t : Table) (id : Nat) : Outcome :=
  let stmt := Stmt.delete e.table [Val.num id]
  match poolQuery env t stmt with
  | Except.error _ =>
    { response := ⟨500, messageBody "Internal server error"⟩, table := t, issued := [stmt] }
  | Except.ok (result, t1) =>
    if result.rowCount = 0 then
      { response := ⟨404, messageBody e.deleteNotFound⟩, table := t1, issued := [stmt] }
    else
      { response := ⟨200, messageBody e.deleted⟩, table := t1, issued := [stmt] }

/-- The handler `app.get("/api/E")`. -/
def listDocuments (e : Entity) (env : Env) (t : Table) : Outcome :=
  let stmt := Stmt.selectAll e.table
  match poolQuery env t stmt with
  | Except.error _ =>
    { response := ⟨500, errorBody e.fetchFailed⟩, table := t, issued := [stmt] }
  | Except.ok (result, t1) =>
    { response := ⟨200, Body.arr result.rows⟩, table := t1, issued := [stmt] }

/-! ## Login: `POST /api/auth/login` -/

/-- One row of the `users` table. -/
structure UserRow where
  id : Nat
  email : Val
  password : Val
  role : Val
  full_name : Val
deriving DecidableEq, Repr

/-- The request of `POST /api/auth/login`. -/
structure LoginReq where
  email : Option String
  password : Option String
deriving DecidableEq, Repr

/-- Rows of `SELECT id, email, password, role, full_name FROM users WHERE email = $1`: a `NULL`
parameter equals no email. -/
def selectByEmail (users : List UserRow) (email : Val) : List UserRow :=
  users.filter (fun u => decide (toSql email ≠ Val.null ∧ toSql email = u.email))

/-- The call `bcrypt.compare(data, hash)`: it answers with the verdict `verdict data hash` of the
hashing library on two strings, and throws on an argument that is not a string. -/
def bcryptCompare (verdict : String → String → Bool) : Val → Val → Except Unit Bool
  | Val.str data, Val.str hash => Except.ok (verdict data hash)
  | _, _ => Except.error ()

/-- The body `{ success, message, user }` of the login answers. -/
def loginBody (success : Bool) (message : String) (user : Json1) : Body :=
  Body.obj [("success", Json1.val (Val.bool success)), ("message", Json1.val (Val.str message)),
    ("user", user)]

/-- The handler `app.post("/api/auth/login")`. -/
def login (verdict : String → String → Bool) (env : Env) (users : List UserRow)
    (req : LoginReq) : Response :=
  match env.fault with
  | some _ => ⟨500, loginBody false "Server error" (Json1.val Val.null)⟩
  | none =>
    match selectByEmail users (fieldVal req.email) with
    | [] => ⟨401, loginBody false "Invalid credentials" (Json1.val Val.null)⟩
    | user :: _ =>
      match bcryptCompare verdict (fieldVal req.password) user.password with
      | Except.error _ => ⟨500, loginBody false "Server error" (Json1.val Val.null)⟩
      | Except.ok validPassword =>
        if !validPassword then
          ⟨401, loginBody false "Invalid credentials" (Json1.val Val.null)⟩
        else
          ⟨200, loginBody true "Login successful" (Json1.obj [("id", Val.num user.id),
            ("email", user.email), ("role", user.role), ("fullName", user.full_name)])⟩

/-! ## File-only replace: `PUT /api/E/:id/excel` -/

/-- The request of `PUT /api/E/:id/excel`: `req.params.id`, `req.body.file_name`, `req.file`. -/
structure ExcelReq where
  id : Nat
  file_name : Option String
  file : Option UploadedFile
deriving DecidableEq, Repr

/-- The text of the `UPDATE` of the file-only replace; the handler of `summary` indents it by
two more blanks. -/
def excelText (e : Entity) : String :=
  match e with
  | .summary =>
    "\n        UPDATE summary \n        SET \n          file_name = $1,\n" ++
    "          file_data = $2,\n          updated_at = NOW()\n        WHERE id = $3\n" ++
    "        RETURNING id, file_name\n      "
  | _ =>
    "\n      UPDATE " ++ e.table ++ " \n      SET \n        file_name = $1,\n" ++
    "        file_data = $2,\n        updated_at = NOW()\n      WHERE id = $3\n" ++
    "      RETURNING id, file_name\n    "

/-- The `UPDATE` statement of the file-only replace. -/
def excelStmt (e : Entity) : UpdateStmt :=
  { text := excelText e,
    table := e.table,
    sets := [⟨Col.file_name, Rhs.param 1⟩, ⟨Col.file_data, Rhs.param 2⟩,
      ⟨Col.updated_at, Rhs.now⟩],
    whereParam := 3,
    returning := Returning.cols [Col.id, Col.file_name] }

/-- The handler `app.put("/api/E/:id/excel")`.  The answer to a result without rows is
`res.json(undefined)`, a 200 without a body. -/
def putExcel (e : Entity) (env : Env) (t : Table) (req : ExcelReq) : Outcome :=
  match req.file with
  | none => { response := ⟨400, errorBody "No file uploaded"⟩, table := t, issued := [] }
  | some file =>
    let values := [fieldVal (jsOr req.file_name (some file.originalname)),
      Val.buffer file.buffer, Val.num req.id]
    let stmt := Stmt.update (excelStmt e) values
    match poolQuery env t stmt with
    | Except.error _ =>
      { response := ⟨500, errorBody "Failed to update Excel file"⟩, table := t,
        issued := [stmt] }
    | Except.ok (result, t1) =>
      { response := ⟨200, match result.rows with
                          | row :: _ => rowBody row
                          | [] => Body.empty⟩,
        table := t1, issued := [stmt] }

/-! ## Sequences of operations on a document table -/

/-- An operation of the API on a document entity. -/
inductive DocOp where
  | create (req : CreateReq)
  | update (req : UpdateReq)
  | replaceFile (req : ExcelReq)
  | delete (id : Nat)
deriving DecidableEq, Repr

/-- The handler that serves an operation. -/
def DocOp.handle (e : Entity) (env : Env) (t : Table) : DocOp → Outcome
  | .create req => postDocument e env t req
  | .update req => putDocument e env t req
  | .replaceFile req => putExcel e env t req
  | .delete id => deleteDocument e env t id

/-- The table after a sequence of operations, each served in its own environment. -/
def runOps (e : Entity) (t : Table) : List (Env × DocOp) → Table
  | [] => t
  | (env, op) :: rest => runOps e (op.handle e env t).table rest

/-- An empty table whose sequence stands at `n`. -/
def emptyTable (n : Nat) : Table := { rows := [], nextId := n }

/-! ## Users: list, role update, delete, register -/

/-- A statement of a handler outside the document entities, as `pool.query` receives it: the
SQL text and the bound values. -/
structure Sent where
  text : String
  values : List Val
deriving DecidableEq, Repr

/-- What such a handler did: its response, the table afterwards and the statements it sent. -/
structure Handled (T : Type) where
  response : Response
  table : T
  issued : List Sent

/-- The call `await pool.query(...)` on a store whose verdict on the statement is `run`: the
call throws when the environment says so, and otherwise gives that verdict. -/
def guarded {R : Type} (env : Env) (run : Except DbError R) : Except DbError R :=
  match env.fault with
  | some err => Except.error err
  | none => run

/-- The `users` table with the sequence that generates its `id`s. -/
structure UserTable where
  rows : List UserRow
  nextId : Nat
deriving DecidableEq, Repr

/-- The error of a unique-constraint violation. -/
def uniqueViolation : DbError := { code := some "23505" }

/-- The result row of `SELECT id,full_name, email, role` and of
`RETURNING id, full_name, email, role`. -/
def userPublicRow (u : UserRow) : ResultRow :=
  [("id", Val.num u.id), ("full_name", u.full_name), ("email", u.email), ("role", u.role)]

/-- Execute `SELECT id,full_name, email, role FROM users`. -/
def execSelectUsers (t : UserTable) : Except DbError (QueryResult × UserTable) :=
  Except.ok ({ rows := t.rows.map userPublicRow, rowCount := t.rows.length }, t)

/-- Execute `UPDATE users SET role = $1 WHERE id = $2 RETURNING id, full_name, email, role`. -/
def execUpdateRole (t : UserTable) (values : List Val) :
    Except DbError (QueryResult × UserTable) :=
  let hit := t.rows.filter (fun u => decide (param values 2 = Val.num u.id))
  let rows := t.rows.map (fun u =>
    if param values 2 = Val.num u.id then { u with role := param values 1 } else u)
  Except.ok ({ rows := hit.map (fun u => userPublicRow { u with role := param values 1 }),
               rowCount := hit.length },
             { t with rows := rows })

/-- Execute `DELETE FROM users WHERE id = $1`. -/
def execDeleteUser (t : UserTable) (values : List Val) :
    Except DbError (QueryResult × UserTable) :=
  let hit := t.rows.filter (fun u => decide (param values 1 = Val.num u.id))
  Except.ok ({ rows := [], rowCount := hit.length },
             { t with rows := t.rows.filter (fun u => !decide (param values 1 = Val.num u.id)) })

/-- Execute `INSERT INTO users (email, password, role, full_name) VALUES ($1, $2, $3, $4)
RETURNING id, email, role, full_name`.  The column `email` is unique: the store refuses an
email that a row already has. -/
def execInsertUser (t : UserTable) (values : List Val) :
    Except DbError (QueryResult × UserTable) :=
  if param values 1 ≠ Val.null ∧ ∃ u ∈ t.rows, u.email = param values 1 then
    Except.error uniqueViolation
  else
    let row : UserRow :=
      { id := t.nextId, email := param values 1, password := param values 2,
        role := param values 3, full_name := param values 4 }
    Except.ok ({ rows := [[("id", Val.num row.id), ("email", row.email), ("role", row.role),
                           ("full_name", row.full_name)]],
                 rowCount := 1 },
               { rows := t.rows ++ [row], nextId := t.nextId + 1 })

/-- The handler `app.get("/api/users")`. -/
def getUsers (env : Env) (t : UserTable) : Handled UserTable :=
  let stmt : Sent := ⟨"\n      SELECT id,full_name, email, role  \n      FROM users\n    ", []⟩
  match guarded env (execSelectUsers t) with
  | Except.error _ =>
    { response := ⟨500, errorBody "Failed to fetch users"⟩, table := t, issued := [stmt] }
  | Except.ok (result, t1) =>
    { response := ⟨200, Body.arr result.rows⟩, table := t1, issued := [stmt] }

/-- The request of `PATCH /api/users/secrets/:id/role`. -/
structure RoleReq where
  id : Nat
  role : Option String
deriving DecidableEq, Repr

/-- The test `["admin", "coordinator", "driver"].includes(role)`. -/
def roleAllowed (role : Option String) : Bool :=
  match role with
  | some r => ["admin", "coordinator", "driver"].contains r
  | none => false

/-- The handler `app.patch("/api/users/secrets/:id/role")`. -/
def patchRole (env : Env) (t : UserTable) (req : RoleReq) : Handled UserTable :=
  if !roleAllowed req.role then
    { response := ⟨400, errorBody "Invalid role"⟩, table := t, issued := [] }
  else
    let stmt : Sent :=
      ⟨"UPDATE users SET role = $1 WHERE id = $2 RETURNING id, full_name, email, role",
       [fieldVal req.role, Val.num req.id]⟩
    match guarded env (execUpdateRole t stmt.values) with
    | Except.error _ =>
      { response := ⟨500, errorBody "Database error"⟩, table := t, issued := [stmt] }
    | Except.ok (result, t1) =>
      if result.rowCount = 0 then
        { response := ⟨404, errorBody "User not found"⟩, table := t1, issued := [stmt] }
      else
        { response := ⟨200, messageBody "Role updated successfully"⟩, table := t1,
          issued := [stmt] }

/-- The handler `app.delete("/api/users/secrets/:id")`. -/
def deleteUser (env : Env) (t : UserTable) (id : Nat) : Handled UserTable :=
  let stmt : Sent := ⟨"DELETE FROM users WHERE id = $1", [Val.num id]⟩
  match guarded env (execDeleteUser t stmt.values) with
  | Except.error _ =>
    { response := ⟨500, errorBody "Database error"⟩, table := t, issued := [stmt] }
  | Except.ok (result, t1) =>
    if result.rowCount = 0 then
      { response := ⟨404, errorBody "User not found"⟩, table := t1, issued := [stmt] }
    else
      { response := ⟨200, messageBody "User deleted successfully"⟩, table := t1,
        issued := [stmt] }

/-- The request of `POST /api/auth/register`. -/
structure RegisterReq where
  email : Option String
  password : Option String
  role : Option String
  fullName : Option String
deriving DecidableEq, Repr

/-- The call `bcrypt.hash(data, 10)`: it answers with the hash `hash data` that the hashing
library makes of a string, and throws on an argument that is not a string. -/
def bcryptHash (hash : String → String) : Val → Except Unit Val
  | Val.str data => Except.ok (Val.str (hash data))
  | _ => Except.error ()

/-- The handler `app.post("/api/auth/register")`.  An error of the hashing library carries no
`code`. -/
def register (hash : String → String) (env : Env) (t : UserTable) (req : RegisterReq) :
    Handled UserTable :=
  match bcryptHash hash (fieldVal req.password) with
  | Except.error _ =>
    { response := ⟨500, messageBody "Server error"⟩, table := t, issued := [] }
  | Except.ok hashedPassword =>
    let stmt : Sent :=
      ⟨"INSERT INTO users (email, password, role, full_name)\n" ++
       "       VALUES ($1, $2, $3, $4)\n       RETURNING id, email, role, full_name",
       [fieldVal req.email, hashedPassword, fieldVal req.role, fieldVal req.fullName]⟩
    match guarded env (execInsertUser t stmt.values) with
    | Except.error err =>
      if err.code = some "23505" then
        { response := ⟨400, messageBody "Email already exists"⟩, table := t, issued := [stmt] }
      else
        { response := ⟨500, messageBody "Server error"⟩, table := t, issued := [stmt] }
    | Except.ok (result, t1) =>
      { response := ⟨201, Body.obj [("user", match result.rows with
                                              | row :: _ => Json1.obj row
                                              | [] => Json1.val Val.undefined)]⟩,
        table := t1, issued := [stmt] }

/-! ## Drivers, vehicles and routes -/

/-- One row of the `drivers` table. -/
structure DriverRow where
  id : Nat
  name : Val
  license_number : Val
  vehicle_assigned : Val
  status : Val
deriving DecidableEq, Repr

/-- The `drivers` table with the sequence that generates its `id`s. -/
structure DriverTable where
  rows : List DriverRow
  nextId : Nat
deriving DecidableEq, Repr

/-- The body of `POST /api/drivers`. -/
structure DriverReq where
  name : Option String
  licenseNumber : Option String
  vehicleAssigned : Option String
  status : Option String
deriving DecidableEq, Repr

/-- The result row `id, name, license_number AS "licenseNumber",
vehicle_assigned AS "vehicleAssigned", status` of a driver. -/
def driverRow (d : DriverRow) : ResultRow :=
  [("id", Val.num d.id), ("name", d.name), ("licenseNumber", d.license_number),
   ("vehicleAssigned", d.vehicle_assigned), ("status", d.status)]

/-- Execute `INSERT INTO drivers (name, license_number, vehicle_assigned, status)
VALUES ($1, $2, $3, $4) RETURNING ...`. -/
def execInsertDriver (t : DriverTable) (values : List Val) :
    Except DbError (QueryResult × DriverTable) :=
  let row : DriverRow :=
    { id := t.nextId, name := param values 1, license_number := param values 2,
      vehicle_assigned := param values 3, status := param values 4 }
  Except.ok ({ rows := [driverRow row], rowCount := 1 },
             { rows := t.rows ++ [row], nextId := t.nextId + 1 })

/-- The order of `ORDER BY id`. -/
def driverIdAsc (a b : DriverRow) : Prop := a.id ≤ b.id

instance : DecidableRel driverIdAsc := fun a b => inferInstanceAs (Decidable (a.id ≤ b.id))

/-- Execute the `SELECT ... FROM drivers ORDER BY id` of `GET /api/drivers`. -/
def execSelectDrivers (t : DriverTable) : Except DbError (QueryResult × DriverTable) :=
  Except.ok ({ rows := (t.rows.insertionSort driverIdAsc).map driverRow,
               rowCount := t.rows.length }, t)

/-- The handler `app.post("/api/drivers")`. -/
def postDriver (env : Env) (t : DriverTable) (req : DriverReq) : Handled DriverTable :=
  let stmt : Sent :=
    ⟨"INSERT INTO drivers (name, license_number, vehicle_assigned, status) \n" ++
     "       VALUES ($1, $2, $3, $4) \n" ++
     "       RETURNING id, name, license_number AS \"licenseNumber\", " ++
     "vehicle_assigned AS \"vehicleAssigned\", status",
     [fieldVal req.name, fieldVal req.licenseNumber, fieldVal req.vehicleAssigned,
      fieldVal req.status]⟩
  match guarded env (execInsertDriver t stmt.values) with
  | Except.error _ =>
    { response := ⟨500, errorBody "Failed to add driver"⟩, table := t, issued := [stmt] }
  | Except.ok (result, t1) =>
    { response := ⟨201, match result.rows with
                        | row :: _ => rowBody row
                        | [] => Body.empty⟩,
      table := t1, issued := [stmt] }

/-- The handler `app.get("/api/drivers")`. -/
def getDrivers (env : Env) (t : DriverTable) : Handled DriverTable :=
  let stmt : Sent :=
    ⟨"\n      SELECT \n        id,\n        name,\n" ++
     "        license_number AS \"licenseNumber\",\n" ++
     "        vehicle_assigned AS \"vehicleAssigned\",\n        status\n" ++
     "      FROM drivers \n      ORDER BY id\n    ", []⟩
  match guarded env (execSelectDrivers t) with
  | Except.error _ =>
    { response := ⟨500, errorBody "Failed to fetch drivers"⟩, table := t, issued := [stmt] }
  | Except.ok (result, t1) =>
    { response := ⟨200, Body.arr result.rows⟩, table := t1, issued := [stmt] }

/-- One row of the `vehicles` table; the `id` is the one the client supplied. -/
structure VehicleRow where
  id : Val
  type : Val
  plate_number : Val
  status : Val
deriving DecidableEq, Repr

/-- The body of `POST /api/vehicles`. -/
structure VehicleReq where
  id : Option String
  type : Option String
  plateNumber : Option String
  status : Option String
deriving DecidableEq, Repr

/-- Execute `INSERT INTO vehicles (id, type, plate_number, status) VALUES ($1, $2, $3, $4)
RETURNING id, type, plate_number AS "plateNumber", status`.  The column `id` is the key: the
store refuses an id that a row already has. -/
def execInsertVehicle (rows : List VehicleRow) (values : List Val) :
    Except DbError (QueryResult × List VehicleRow) :=
  if ∃ v ∈ rows, v.id = param values 1 then
    Except.error uniqueViolation
  else
    let row : VehicleRow :=
      { id := param values 1, type := param values 2, plate_number := param values 3,
        status := param values 4 }
    Except.ok ({ rows := [[("id", row.id), ("type", row.type),
                           ("plateNumber", row.plate_number), ("status", row.status)]],
                 rowCount := 1 },
               rows ++ [row])

/-- The destructuring default `status = "Active"`: it applies to `undefined` only. -/
def orActive : Option String → Val
  | none => Val.str "Active"
  | some s => Val.str s

/-- The handler `app.post("/api/vehicles")`. -/
def postVehicle (env : Env) (rows : List VehicleRow) (req : VehicleReq) :
    Handled (List VehicleRow) :=
  if !truthy req.id || !truthy req.type || !truthy req.plateNumber then
    { response := ⟨400, errorBody "Missing required fields"⟩, table := rows, issued := [] }
  else
    let stmt : Sent :=
      ⟨"INSERT INTO vehicles (id, type, plate_number, status)\n" ++
       "       VALUES ($1, $2, $3, $4)\n" ++
       "       RETURNING id, type, plate_number AS \"plateNumber\", status",
       [fieldVal req.id, fieldVal req.type, fieldVal req.plateNumber, orActive req.status]⟩
    match guarded env (execInsertVehicle rows stmt.values) with
    | Except.error err =>
      if err.code = some "23505" then
        { response := ⟨409, errorBody "Vehicle ID already exists"⟩, table := rows,
          issued := [stmt] }
      else
        { response := ⟨500, errorBody "Failed to add vehicle"⟩, table := rows,
          issued := [stmt] }
    | Except.ok (result, rows1) =>
      { response := ⟨201, match result.rows with
                          | row :: _ => rowBody row
                          | [] => Body.empty⟩,
        table := rows1, issued := [stmt] }

/-- One row of the `routes` table; the `id` is the one the client supplied. -/
structure RouteRow where
  id : Val
  address : Val
  drop_point : Val
deriving DecidableEq, Repr

/-- The body of `POST /api/routes`. -/
structure RouteReq where
  id : Option String
  address : Option String
  dropPoint : Option String
deriving DecidableEq, Repr

/-- Execute `INSERT INTO routes (id, address, drop_point) VALUES ($1, $2, $3)
RETURNING id, address, drop_point AS "dropPoint"`.  The column `id` is the key: the store
refuses an id that a row already has. -/
def execInsertRoute (rows : List RouteRow) (values : List Val) :
    Except DbError (QueryResult × List RouteRow) :=
  if ∃ v ∈ rows, v.id = param values 1 then
    Except.error uniqueViolation
  else
    let row : RouteRow :=
      { id := param values 1, address := param values 2, drop_point := param values 3 }
    Except.ok ({ rows := [[("id", row.id), ("address", row.address),
                           ("dropPoint", row.drop_point)]],
                 rowCount := 1 },
               rows ++ [row])

/-- The handler `app.post("/api/routes")`. -/
def postRoute (env : Env) (rows : List RouteRow) (req : RouteReq) :
    Handled (List RouteRow) :=
  if !truthy req.id || !truthy req.address || !truthy req.dropPoint then
    { response := ⟨400, errorBody "Missing required fields"⟩, table := rows, issued := [] }
  else
    let stmt : Sent :=
      ⟨"INSERT INTO routes (id, address, drop_point)\n" ++
       "       VALUES ($1, $2, $3)\n" ++
       "       RETURNING id, address, drop_point AS \"dropPoint\"",
       [fieldVal req.id, fieldVal req.address, fieldVal req.dropPoint]⟩
    match guarded env (execInsertRoute rows stmt.values) with
    | Except.error err =>
      if err.code = some "23505" then
        { response := ⟨409, errorBody "Route code already exists"⟩, table := rows,
          issued := [stmt] }
      else
        { response := ⟨500, errorBody "Failed to add route"⟩, table := rows,
          issued := [stmt] }
    | Except.ok (result, rows1) =>
      { response := ⟨201, match result.rows with
                          | row :: _ => rowBody row
                          | [] => Body.empty⟩,
        table := rows1, issued := [stmt] }

/-! ## Drivers, vehicles and routes: update, delete and the other lists -/

/-- The request of `PUT /api/drivers/:id`. -/
structure DriverPutReq where
  id : Nat
  name : Option String
  licenseNumber : Option String
  vehicleAssigned : Option String
  status : Option String
deriving DecidableEq, Repr

/-- Execute `UPDATE drivers SET name=$1, license_number=$2, vehicle_assigned=$3, status=$4
WHERE id=$5 RETURNING ...`. -/
def execUpdateDriver (t : DriverTable) (values : List Val) :
    Except DbError (QueryResult × DriverTable) :=
  let upd : DriverRow → DriverRow := fun d =>
    { d with name := param values 1, license_number := param values 2,
             vehicle_assigned := param values 3, status := param values 4 }
  let hit := t.rows.filter (fun d => decide (param values 5 = Val.num d.id))
  Except.ok ({ rows := hit.map (fun d => driverRow (upd d)), rowCount := hit.length },
             { t with rows := t.rows.map (fun d =>
                 if param values 5 = Val.num d.id then upd d else d) })

/-- Execute `DELETE FROM drivers WHERE id=$1`. -/
def execDeleteDriver (t : DriverTable) (values : List Val) :
    Except DbError (QueryResult × DriverTable) :=
  let hit := t.rows.filter (fun d => decide (param values 1 = Val.num d.id))
  Except.ok ({ rows := [], rowCount := hit.length },
             { t with rows := t.rows.filter (fun d => !decide (param values 1 = Val.num d.id)) })

/-- The handler `app.put("/api/drivers/:id")`. -/
def putDriver (env : Env) (t : DriverTable) (req : DriverPutReq) : Handled DriverTable :=
  let stmt : Sent :=
    ⟨"UPDATE drivers \n" ++
     "       SET name=$1, license_number=$2, vehicle_assigned=$3, status=$4 \n" ++
     "       WHERE id=$5 \n" ++
     "       RETURNING id, name, license_number AS \"licenseNumber\", " ++
     "vehicle_assigned AS \"vehicleAssigned\", status",
     [fieldVal req.name, fieldVal req.licenseNumber, fieldVal req.vehicleAssigned,
      fieldVal req.status, Val.num req.id]⟩
  match guarded env (execUpdateDriver t stmt.values) with
  | Except.error _ =>
    { response := ⟨500, errorBody "Failed to update driver"⟩, table := t, issued := [stmt] }
  | Except.ok (result, t1) =>
    match result.rows with
    | [] => { response := ⟨404, errorBody "Driver not found"⟩, table := t1, issued := [stmt] }
    | row :: _ => { response := ⟨200, rowBody row⟩, table := t1, issued := [stmt] }

/-- The handler `app.delete("/api/drivers/:id")`. -/
def deleteDriver (env : Env) (t : DriverTable) (id : Nat) : Handled DriverTable :=
  let stmt : Sent := ⟨"DELETE FROM drivers WHERE id=$1", [Val.num id]⟩
  match guarded env (execDeleteDriver t stmt.values) with
  | Except.error _ =>
    { response := ⟨500, errorBody "Failed to delete driver"⟩, table := t, issued := [stmt] }
  | Except.ok (result, t1) =>
    if result.rowCount = 0 then
      { response := ⟨404, errorBody "Driver not found"⟩, table := t1, issued := [stmt] }
    else
      { response := ⟨204, Body.empty⟩, table := t1, issued := [stmt] }

/-- The order of `ORDER BY id` on client-supplied ids: numbers by size, texts by the order of
texts. -/
def valLe : Val → Val → Bool
  | Val.num a, Val.num b => decide (a ≤ b)
  | Val.str a, Val.str b => !decide (b < a)
  | _, _ => true

/-- The result row `id, type, plate_number AS "plateNumber", status` of a vehicle. -/
def vehicleRow (v : VehicleRow) : ResultRow :=
  [("id", v.id), ("type", v.type), ("plateNumber", v.plate_number), ("status", v.status)]

/-- Execute `SELECT id, type, plate_number AS "plateNumber", status FROM vehicles
ORDER BY id`. -/
def execSelectVehicles (rows : List VehicleRow) :
    Except DbError (QueryResult × List VehicleRow) :=
  Except.ok ({ rows := (rows.insertionSort (fun a b => valLe a.id b.id = true)).map vehicleRow,
               rowCount := rows.length }, rows)

/-- Execute `SELECT id, type, plate_number FROM vehicles WHERE status = $1`. -/
def execSelectByStatus (rows : List VehicleRow) (values : List Val) :
    Except DbError (QueryResult × List VehicleRow) :=
  let hit := rows.filter (fun v => decide (param values 1 ≠ Val.null ∧ v.status = param values 1))
  Except.ok ({ rows := hit.map (fun v =>
                 [("id", v.id), ("type", v.type), ("plate_number", v.plate_number)]),
               rowCount := hit.length }, rows)

/-- Execute `UPDATE vehicles SET type=$1, plate_number=$2, status=$3 WHERE id=$4
RETURNING ...`. -/
def execUpdateVehicle (rows : List VehicleRow) (values : List Val) :
    Except DbError (QueryResult × List VehicleRow) :=
  let upd : VehicleRow → VehicleRow := fun v =>
    { v with type := param values 1, plate_number := param values 2,
             status := param values 3 }
  let hit := rows.filter (fun v => decide (v.id = param values 4))
  Except.ok ({ rows := hit.map (fun v => vehicleRow (upd v)), rowCount := hit.length },
             rows.map (fun v => if v.id = param values 4 then upd v else v))

/-- Execute `DELETE FROM vehicles WHERE id=$1`. -/
def execDeleteVehicle (rows : List VehicleRow) (values : List Val) :
    Except DbError (QueryResult × List VehicleRow) :=
  let hit := rows.filter (fun v => decide (v.id = param values 1))
  Except.ok ({ rows := [], rowCount := hit.length },
             rows.filter (fun v => !decide (v.id = param values 1)))

/-- The handler `app.get("/api/vehicles-drivers")`. -/
def getVehiclesDrivers (env : Env) (rows : List VehicleRow) : Handled (List VehicleRow) :=
  let stmt : Sent :=
    ⟨"SELECT id, type, plate_number FROM vehicles WHERE status = $1", [Val.str "Active"]⟩
  match guarded env (execSelectByStatus rows stmt.values) with
  | Except.error _ =>
    { response := ⟨500, errorBody "Server error"⟩, table := rows, issued := [stmt] }
  | Except.ok (result, rows1) =>
    { response := ⟨200, Body.arr result.rows⟩, table := rows1, issued := [stmt] }

/-- The handler `app.get("/api/vehicles")`. -/
def getVehicles (env : Env) (rows : List VehicleRow) : Handled (List VehicleRow) :=
  let stmt : Sent :=
    ⟨"\n      SELECT id, type, plate_number AS \"plateNumber\", status\n" ++
     "      FROM vehicles\n      ORDER BY id\n    ", []⟩
  match guarded env (execSelectVehicles rows) with
  | Except.error _ =>
    { response := ⟨500, errorBody "Failed to fetch vehicles"⟩, table := rows, issued := [stmt] }
  | Except.ok (result, rows1) =>
    { response := ⟨200, Body.arr result.rows⟩, table := rows1, issued := [stmt] }

/-- The request of `PUT /api/vehicles/:id`. -/
structure VehiclePutReq where
  id : String
  type : Option String
  plateNumber : Option String
  status : Option String
deriving DecidableEq, Repr

/-- The handler `app.put("/api/vehicles/:id")`. -/
def putVehicle (env : Env) (rows : List VehicleRow) (req : VehiclePutReq) :
    Handled (List VehicleRow) :=
  if !truthy req.type || !truthy req.plateNumber || !truthy req.status then
    { response := ⟨400, errorBody "Missing required fields"⟩, table := rows, issued := [] }
  else
    let stmt : Sent :=
      ⟨"UPDATE vehicles\n       SET type=$1, plate_number=$2, status=$3\n" ++
       "       WHERE id=$4\n" ++
       "       RETURNING id, type, plate_number AS \"plateNumber\", status",
       [fieldVal req.type, fieldVal req.plateNumber, fieldVal req.status, Val.str req.id]⟩
    match guarded env (execUpdateVehicle rows stmt.values) with
    | Except.error _ =>
      { response := ⟨500, errorBody "Failed to update vehicle"⟩, table := rows,
        issued := [stmt] }
    | Except.ok (result, rows1) =>
      match result.rows with
      | [] =>
        { response := ⟨404, errorBody "Vehicle not found"⟩, table := rows1, issued := [stmt] }
      | row :: _ => { response := ⟨200, rowBody row⟩, table := rows1, issued := [stmt] }

/-- The handler `app.delete("/api/vehicles/:id")`. -/
def deleteVehicle (env : Env) (rows : List VehicleRow) (id : String) :
    Handled (List VehicleRow) :=
  let stmt : Sent := ⟨"DELETE FROM vehicles WHERE id=$1", [Val.str id]⟩
  match guarded env (execDeleteVehicle rows stmt.values) with
  | Except.error _ =>
    { response := ⟨500, errorBody "Failed to delete vehicle"⟩, table := rows,
      issued := [stmt] }
  | Except.ok (result, rows1) =>
    if result.rowCount = 0 then
      { response := ⟨404, errorBody "Vehicle not found"⟩, table := rows1, issued := [stmt] }
    else
      { response := ⟨204, Body.empty⟩, table := rows1, issued := [stmt] }

/-- The result row `id, address, drop_point AS "dropPoint"` of a route. -/
def routeRow (r : RouteRow) : ResultRow :=
  [("id", r.id), ("address", r.address), ("dropPoint", r.drop_point)]

/-- Execute `SELECT id, address, drop_point AS "dropPoint" FROM routes ORDER BY id`. -/
def execSelectRoutes (rows : List RouteRow) : Except DbError (QueryResult × List RouteRow) :=
  Except.ok ({ rows := (rows.insertionSort (fun a b => valLe a.id b.id = true)).map routeRow,
               rowCount := rows.length }, rows)

/-- Execute `UPDATE routes SET address=$1, drop_point=$2 WHERE id=$3 RETURNING ...`. -/
def execUpdateRoute (rows : List RouteRow) (values : List Val) :
    Except DbError (QueryResult × List RouteRow) :=
  let upd : RouteRow → RouteRow := fun r =>
    { r with address := param values 1, drop_point := param values 2 }
  let hit := rows.filter (fun r => decide (r.id = param values 3))
  Except.ok ({ rows := hit.map (fun r => routeRow (upd r)), rowCount := hit.length },
             rows.map (fun r => if r.id = param values 3 then upd r else r))

/-- Execute `DELETE FROM routes WHERE id=$1`. -/
def execDeleteRoute (rows : List RouteRow) (values : List Val) :
    Except DbError (QueryResult × List RouteRow) :=
  let hit := rows.filter (fun r => decide (r.id = param values 1))
  Except.ok ({ rows := [], rowCount := hit.length },
             rows.filter (fun r => !decide (r.id = param values 1)))

/-- The handler `app.get("/api/routes")`. -/
def getRoutes (env : Env) (rows : List RouteRow) : Handled (List RouteRow) :=
  let stmt : Sent :=
    ⟨"\n      SELECT id, address, drop_point AS \"dropPoint\"\n" ++
     "      FROM routes\n      ORDER BY id\n    ", []⟩
  match guarded env (execSelectRoutes rows) with
  | Except.error _ =>
    { response := ⟨500, errorBody "Failed to fetch routes"⟩, table := rows, issued := [stmt] }
  | Except.ok (result, rows1) =>
    { response := ⟨200, Body.arr result.rows⟩, table := rows1, issued := [stmt] }

/-- The request of `PUT /api/routes/:id`. -/
structure RoutePutReq where
  id : String
  address : Option String
  dropPoint : Option String
deriving DecidableEq, Repr

/-- The handler `app.put("/api/routes/:id")`. -/
def putRoute (env : Env) (rows : List RouteRow) (req : RoutePutReq) :
    Handled (List RouteRow) :=
  if !truthy req.address || !truthy req.dropPoint then
    { response := ⟨400, errorBody "Missing required fields"⟩, table := rows, issued := [] }
  else
    let stmt : Sent :=
      ⟨"UPDATE routes\n       SET address=$1, drop_point=$2\n       WHERE id=$3\n" ++
       "       RETURNING id, address, drop_point AS \"dropPoint\"",
       [fieldVal req.address, fieldVal req.dropPoint, Val.str req.id]⟩
    match guarded env (execUpdateRoute rows stmt.values) with
    | Except.error _ =>
      { response := ⟨500, errorBody "Failed to update route"⟩, table := rows,
        issued := [stmt] }
    | Except.ok (result, rows1) =>
      match result.rows with
      | [] =>
        { response := ⟨404, errorBody "Route not found"⟩, table := rows1, issued := [stmt] }
      | row :: _ => { response := ⟨200, rowBody row⟩, table := rows1, issued := [stmt] }

/-- The handler `app.delete("/api/routes/:id")`. -/
def deleteRoute (env : Env) (rows : List RouteRow) (id : String) :
    Handled (List RouteRow) :=
  let stmt : Sent := ⟨"DELETE FROM routes WHERE id=$1", [Val.str id]⟩
  match guarded env (execDeleteRoute rows stmt.values) with
  | Except.error _ =>
    { response := ⟨500, errorBody "Failed to delete route"⟩, table := rows,
      issued := [stmt] }
  | Except.ok (result, rows1) =>
    if result.rowCount = 0 then
      { response := ⟨404, errorBody "Route not found"⟩, table := rows1, issued := [stmt] }
    else
      { response := ⟨204, Body.empty⟩, table := rows1, issued := [stmt] }

/-! ## All routes of the server -/

/-- The tables of the store. -/
structure Db where
  users : UserTable
  drivers : DriverTable
  vehicles : List VehicleRow
  routes : List RouteRow
  docs : Entity → Table

/-- A request to one of the routes that `server.js` registers. -/
inductive Call where
  | getUsers
  | patchRole (req : RoleReq)
  | deleteUser (id : Nat)
  | login (req : LoginReq)
  | register (req : RegisterReq)
  | getDrivers
  | postDriver (req : DriverReq)
  | putDriver (req : DriverPutReq)
  | deleteDriver (id : Nat)
  | getVehiclesDrivers
  | getVehicles
  | postVehicle (req : VehicleReq)
  | putVehicle (req : VehiclePutReq)
  | deleteVehicle (id : String)
  | getRoutes
  | postRoute (req : RouteReq)
  | putRoute (req : RoutePutReq)
  | deleteRoute (id : String)
  | listDocuments (e : Entity)
  | postDocument (e : Entity) (req : CreateReq)
  | putDocument (e : Entity) (req : UpdateReq)
  | putExcel (e : Entity) (req : ExcelReq)
  | deleteDocument (e : Entity) (id : Nat)
deriving DecidableEq, Repr

/-- The response of the server to a request. -/
def answer (verdict : String → String → Bool) (hash : String → String) (env : Env) (db : Db) :
    Call → Response
  | .getUsers => (getUsers env db.users).response
  | .patchRole req => (patchRole env db.users req).response
  | .deleteUser id => (deleteUser env db.users id).response
  | .login req => login verdict env db.users.rows req
  | .register req => (register hash env db.users req).response
  | .getDrivers => (getDrivers env db.drivers).response
  | .postDriver req => (postDriver env db.drivers req).response
  | .putDriver req => (putDriver env db.drivers req).response
  | .deleteDriver id => (deleteDriver env db.drivers id).response
  | .getVehiclesDrivers => (getVehiclesDrivers env db.vehicles).response
  | .getVehicles => (getVehicles env db.vehicles).response
  | .postVehicle req => (postVehicle env db.vehicles req).response
  | .putVehicle req => (putVehicle env db.vehicles req).response
  | .deleteVehicle id => (deleteVehicle env db.vehicles id).response
  | .getRoutes => (getRoutes env db.routes).response
  | .postRoute req => (postRoute env db.routes req).response
  | .putRoute req => (putRoute env db.routes req).response
  | .deleteRoute id => (deleteRoute env db.routes id).response
  | .listDocuments e => (listDocuments e env (db.docs e)).response
  | .postDocument e req => (postDocument e env (db.docs e) req).response
  | .putDocument e req => (putDocument e env (db.docs e) req).response
  | .putExcel e req => (putExcel e env (db.docs e) req).response
  | .deleteDocument e id => (deleteDocument e env (db.docs e) id).response

/-! ## Reference definitions, written from the specification -/

/-- Spec side: what an optional text input contributes when it is present, that is, when it is
a non-empty string. -/
def Spec.present : Option String → List String
  | some s => if s = "" then [] else [s]
  | none => []

/-- Spec side: the columns of the `SET` clause of a partial update: `updated_at`, `updated_by`,
then the column of each optional input that is present. -/
def Spec.updateColumns (req : UpdateReq) : List Col :=
  [Col.updated_at, Col.updated_by]
    ++ (Spec.present req.name).map (fun _ => Col.name)
    ++ (Spec.present req.description).map (fun _ => Col.description)
    ++ (Spec.present req.status).map (fun _ => Col.status)
    ++ (match req.file with
        | some _ => [Col.file_name, Col.file_data]
        | none => [])

/-- Spec side: the bound values of a partial update: the acting user, the present values in the
order name, description, status, file name, file bytes, then the id. -/
def Spec.updateValues (req : UpdateReq) : List Val :=
  [fieldVal (jsOr req.createdBy req.updatedBy)]
    ++ (Spec.present req.name).map Val.str
    ++ (Spec.present req.description).map Val.str
    ++ (Spec.present req.status).map Val.str
    ++ (match req.file with
        | some f => [Val.str f.originalname, Val.buffer f.buffer]
        | none => [])
    ++ [Val.num req.id]

/-- Keys of a JSON object body. -/
def Body.keys : Body → List String
  | Body.obj fields => fields.map Prod.fst
  | _ => []

/-- Rows of a table that carry the id. -/
def rowsOf (id : Nat) (t : Table) : List DocRow :=
  t.rows.filter (fun r => decide (r.id = id))

/-- The acting user that the request of an operation names: `createdBy` of a create,
`createdBy || updatedBy` of a partial update.  The requests of a file-only replace and of a
delete name none. -/
def DocOp.actingUser : DocOp → Option String
  | .create req => req.createdBy
  | .update req => jsOr req.createdBy req.updatedBy
  | .replaceFile _ => none
  | .delete _ => none

/-- Whether the operation is a create or a partial update. -/
def DocOp.writesUser : DocOp → Bool
  | .create _ => true
  | .update _ => true
  | .replaceFile _ => false
  | .delete _ => false

/-- Spec side: for each id, the acting user of the most recent operation of the sequence that
mutated the rows of that id (`g` holds the answer for the operations before the sequence). -/
def Spec.lastMutatorFrom (e : Entity) :
    Table → (Nat → Option String) → List (Env × DocOp) → Nat → Option String
  | _, g, [] => g
  | t, g, (env, op) :: rest =>
    Spec.lastMutatorFrom e (op.handle e env t).table
      (fun id => if rowsOf id t ≠ rowsOf id (op.handle e env t).table then op.actingUser
        else g id) rest

/-- Spec side, amended: for each id, the acting user of the most recent create or partial update
of the sequence that mutated the rows of that id. -/
def Spec.lastWriterFrom (e : Entity) :
    Table → (Nat → Option String) → List (Env × DocOp) → Nat → Option String
  | _, g, [] => g
  | t, g, (env, op) :: rest =>
    Spec.lastWriterFrom e (op.handle e env t).table
      (fun id => if op.writesUser = true ∧ rowsOf id t ≠ rowsOf id (op.handle e env t).table
        then op.actingUser else g id) rest

/-- Spec side: the claim that `updated_by` of every row is the acting user of the most recent
operation that mutated the row. -/
def Spec.UpdatedByIsLastMutator (e : Entity) (n : Nat) (ops : List (Env × DocOp)) : Prop :=
  ∀ r ∈ (runOps e (emptyTable n) ops).rows,
    r.updated_by = toSql (fieldVal (Spec.lastMutatorFrom e (emptyTable n) (fun _ => none) ops r.id))

/-- Invariant of the reachable states: ids lie below the sequence, and `updated_by` is the user that
the tracked map names for the id, when it names one. -/
def TracksUser (t : Table) (g : Nat → Option String) : Prop :=
  (∀ r ∈ t.rows, r.id < t.nextId)
  ∧ ∀ r ∈ t.rows, ∀ u, g r.id = some u → r.updated_by = Val.str u

/-- Keys of a response body, those of nested objects and of the rows of an array included. -/
def Body.allKeys : Body → List String
  | Body.obj fields =>
    (fields.map (fun kv => kv.1 :: match kv.2 with
      | Json1.obj fs => fs.map Prod.fst
      | Json1.val _ => [])).flatten
  | Body.arr rows => (rows.map (fun r => r.map Prod.fst)).flatten
  | Body.empty => []

/-- The columns of a user other than the password. -/
def publicPart (u : UserRow) : Nat × Val × Val × Val := (u.id, u.email, u.role, u.full_name)

/-- Two `users` tables that differ at most in the stored passwords. -/
def SamePublic (t1 t2 : UserTable) : Prop :=
  t1.nextId = t2.nextId ∧ t1.rows.map publicPart = t2.rows.map publicPart

/-- Spec side: a text of the form `YYYY-MM-DD`: four digits, a dash, two digits, a dash, two
digits. -/
def Spec.IsDateText (s : String) : Prop :=
  ∃ y m d : String, s = y ++ "-" ++ m ++ "-" ++ d
    ∧ y.length = 4 ∧ m.length = 2 ∧ d.length = 2
    ∧ ∀ c ∈ y.data ++ m.data ++ d.data, c.isDigit = true

/-- Split a text into words at blanks, line ends and commas (empty words included). -/
def splitWords : List Char → List (List Char)
  | [] => [[]]
  | c :: cs =>
    if c.isWhitespace || c == ',' then [] :: splitWords cs
    else
      match splitWords cs with
      | w :: ws => (c :: w) :: ws
      | [] => [[c]]

/-- The words of a statement text. -/
def sqlWords (s : String) : List (List Char) :=
  (splitWords s.data).filter (fun w => !w.isEmpty)

/-- The number that a non-empty list of decimal digits writes. -/
def digitsValue (ds : List Char) : Option Nat :=
  if ds.isEmpty || !ds.all Char.isDigit then none
  else some (ds.foldl (fun n c => 10 * n + (c.toNat - 48)) 0)

/-- The number `k` of a word `$k`. -/
def placeholderOf : List Char → Option Nat
  | '$' :: ds => digitsValue ds
  | _ => none

/-- The placeholders of a statement text, in the order in which they occur. -/
def placeholders (s : String) : List Nat :=
  (sqlWords s).filterMap placeholderOf

/-- The pairs `column = $k` among the words of a statement text, in their order. -/
def boundColumns : List (List Char) → List (String × Nat)
  | [] => []
  | a :: rest =>
    match rest with
    | ['='] :: b :: _ =>
      match placeholderOf b with
      | some k => (String.mk a, k) :: boundColumns rest
      | none => boundColumns rest
    | _ => boundColumns rest

/-- The pairs `column = $k` of a parsed `SET` clause. -/
def setPairs (sets : List Assign) : List (String × Nat) :=
  sets.filterMap (fun a =>
    match a.rhs with
    | Rhs.param k => some (a.col.key, k)
    | Rhs.now => none)

/-- A request with the given inputs present: a name, a description, a status, a file. -/
def patternReq (n d s f : Bool) : UpdateReq :=
  { id := 0,
    name := if n then some "n" else none,
    description := if d then some "d" else none,
    status := if s then some "s" else none,
    createdBy := none, updatedBy := none,
    file := if f then some { originalname := "f", buffer := [] } else none }

/-- Spec side: the input of the request that belongs to a column name of the statement. -/
def Spec.inputFor (req : UpdateReq) (column : String) : Val :=
  if column = "updated_by" then fieldVal (jsOr req.createdBy req.updatedBy)
  else if column = "name" then fieldVal req.name
  else if column = "description" then fieldVal req.description
  else if column = "status" then fieldVal req.status
  else if column = "file_name" then
    match req.file with
    | some f => Val.str f.originalname
    | none => Val.undefined
  else if column = "file_data" then
    match req.file with
    | some f => Val.buffer f.buffer
    | none => Val.undefined
  else if column = "id" then Val.num req.id
  else Val.undefined

/-- Spec side: every role of the table is one of the closed set. -/
def Spec.RolesClosed (t : UserTable) : Prop :=
  ∀ u ∈ t.rows, u.role = Val.str "admin" ∨ u.role = Val.str "coordinator"
    ∨ u.role = Val.str "driver"

/-- Spec side: a failure body: a JSON object with an `error` text, with a `message` text, or
the login body with `success: false`, a `message` text and `user: null`. -/
def Spec.IsFailureBody (b : Body) : Prop :=
  ∃ s : String, b = errorBody s ∨ b = messageBody s
    ∨ b = loginBody false s (Json1.val Val.null)

/-! ## Sample data -/

def sampleCreated : Timestamp := ⟨2025, 3, 7, 0⟩

def sampleNow : Timestamp := ⟨2025, 4, 1, 3600⟩

def sampleRow1 : DocRow :=
  { id := 1, name := Val.str "Manifest", description := Val.str "March run",
    status := Val.str "incomplete",
    created_at := Val.date sampleCreated, updated_at := Val.date sampleCreated,
    created_by := Val.str "Jane", updated_by := Val.str "Jane",
    file_name := Val.str "manifest.xlsx", file_data := Val.buffer [80, 75, 3, 4] }

def sampleRow2 : DocRow :=
  { id := 2, name := Val.str "Returns", description := Val.null,
    status := Val.str "incomplete",
    created_at := Val.date sampleCreated, updated_at := Val.date sampleCreated,
    created_by := Val.str "Omar", updated_by := Val.str "Omar",
    file_name := Val.str "returns.xlsx", file_data := Val.buffer [80, 75, 5, 6] }

def sampleTable : Table := { rows := [sampleRow1, sampleRow2], nextId := 3 }

def sampleEnv : Env := { now := sampleNow, fault := none }

/-- The request `PUT /api/shipments/1` with `{ status: "completed", updatedBy: "bob" }`. -/
def sampleStatusReq : UpdateReq :=
  { id := 1, name := none, description := none, status := some "completed",
    createdBy := none, updatedBy := some "bob", file := none }

/-- The request `PUT /api/shipments/1` with `{ status: "completed" }` and no acting user. -/
def sampleAnonymousReq : UpdateReq :=
  { id := 1, name := none, description := none, status := some "completed",
    createdBy := none, updatedBy := none, file := none }

/-- The request `PUT /api/shipments/9` with `{ status: "completed", updatedBy: "bob" }`. -/
def sampleMissingReq : UpdateReq :=
  { id := 9, name := none, description := none, status := some "completed",
    createdBy := none, updatedBy := some "bob", file := none }

def sampleFile : UploadedFile := { originalname := "april.xlsx", buffer := [80, 75, 7, 8] }

/-- The request `POST /api/shipments` with a name, an acting user and a file. -/
def sampleCreateReq : CreateReq :=
  { name := some "April", createdBy := some "bob", description := none, status := none,
    file := some sampleFile }

/-- The request `POST /api/shipments` with a file and an acting user and no name. -/
def sampleNamelessReq : CreateReq :=
  { name := none, createdBy := some "bob", description := none, status := none,
    file := some sampleFile }

/-- The hashing library's verdict in the samples: the hash of `pw` is `"hash:" ++ pw`. -/
def sampleVerdict (pw hash : String) : Bool := hash == "hash:" ++ pw

def sampleUsers : List UserRow :=
  [{ id := 1, email := Val.str "admin@example.com", password := Val.str "hash:admin123",
     role := Val.str "admin", full_name := Val.str "Admin User" }]

/-- A login for an email that no user has. -/
def sampleUnknownLogin : LoginReq :=
  { email := some "nobody@example.com", password := some "admin123" }

/-- A login for an existing email with a wrong password. -/
def sampleWrongLogin : LoginReq :=
  { email := some "admin@example.com", password := some "letmein" }

/-- The request `PUT /api/shipments/1/excel` with a file and `file_name: "renamed.xlsx"`. -/
def sampleRenameReq : ExcelReq :=
  { id := 1, file_name := some "renamed.xlsx", file := some sampleFile }

/-- The request `PUT /api/shipments/1/excel` with a file and no `file_name`. -/
def sampleReplaceReq : ExcelReq := { id := 1, file_name := none, file := some sampleFile }

/-- The request `PUT /api/shipments/1/excel` without a file. -/
def sampleNoFileReq : ExcelReq := { id := 1, file_name := none, file := none }

/-- The environment of an earlier request. -/
def sampleEarlier : Env := { now := sampleCreated, fault := none }

/-- bob creates a shipment, then its file is replaced by a file-only replace. -/
def sampleHistory : List (Env × DocOp) :=
  [(sampleEarlier, DocOp.create sampleCreateReq), (sampleEnv, DocOp.replaceFile sampleRenameReq)]

/-- The row of the table after `sampleHistory`. -/
def sampleHistoryRow : DocRow :=
  { id := 1, name := Val.str "April", description := Val.null, status := Val.str "incomplete",
    created_at := Val.date sampleCreated, updated_at := Val.date sampleNow,
    created_by := Val.str "bob", updated_by := Val.str "bob",
    file_name := Val.str "renamed.xlsx", file_data := Val.buffer [80, 75, 7, 8] }

/-- The hashing library's hash in the samples. -/
def sampleHash (pw : String) : String := "hash:" ++ pw

def sampleUserTable : UserTable := { rows := sampleUsers, nextId := 2 }

/-- A registration with the email of the existing user. -/
def sampleDuplicateReg : RegisterReq :=
  { email := some "admin@example.com", password := some "secret", role := some "driver",
    fullName := some "Second Admin" }

/-- A role update with a role that differs from an allowed one in letter case only. -/
def sampleCaseRole : RoleReq := { id := 1, role := some "Admin" }

/-- A role update with an allowed role. -/
def sampleDriverRole : RoleReq := { id := 1, role := some "driver" }

/-- A login of the existing user with the right password. -/
def sampleGoodLogin : LoginReq :=
  { email := some "admin@example.com", password := some "admin123" }

/-- The sample `users` table after the admin changed the password. -/
def sampleRehashed : UserTable :=
  { rows := [{ id := 1, email := Val.str "admin@example.com",
               password := Val.str "hash:other", role := Val.str "admin",
               full_name := Val.str "Admin User" }],
    nextId := 2 }

def sampleDrivers : DriverTable :=
  { rows := [{ id := 1, name := Val.str "Sam Lee", license_number := Val.str "D00001",
               vehicle_assigned := Val.str "Van 2", status := Val.str "Active" }],
    nextId := 2 }

/-- The body of the end-to-end scenario of the specification. -/
def sampleDriverReq : DriverReq :=
  { name := some "Alex Turner", licenseNumber := some "D12345",
    vehicleAssigned := some "Truck 1", status := some "Active" }

/-- The body `{}` of a `POST /api/drivers`. -/
def sampleEmptyDriverReq : DriverReq :=
  { name := none, licenseNumber := none, vehicleAssigned := none, status := none }

def sampleVehicles : List VehicleRow :=
  [{ id := Val.str "V1", type := Val.str "Truck", plate_number := Val.str "ABC-1234",
     status := Val.str "Available" }]

/-- A `POST /api/vehicles` with the id of the existing vehicle. -/
def sampleVehicleReq : VehicleReq :=
  { id := some "V1", type := some "Van", plateNumber := some "XYZ-5678", status := none }

def sampleRoutes : List RouteRow :=
  [{ id := Val.str "R1", address := Val.str "12 Dock Road", drop_point := Val.str "Gate 4" }]

/-- A `POST /api/routes` with the id of the existing route. -/
def sampleRouteReq : RouteReq :=
  { id := some "R1", address := some "7 Mill Lane", dropPoint := some "Bay 2" }

def sampleFleet : List VehicleRow :=
  [{ id := Val.str "V1", type := Val.str "Truck", plate_number := Val.str "ABC-1234",
     status := Val.str "Active" },
   { id := Val.str "V2", type := Val.str "Van", plate_number := Val.str "XYZ-5678",
     status := Val.str "Maintenance" },
   { id := Val.str "V3", type := Val.str "Pickup", plate_number := Val.str "LMN-9012",
     status := Val.str "active" }]

/-- A registration of a new user. -/
def sampleNewReg : RegisterReq :=
  { email := some "dana@example.com", password := some "s3cret", role := some "driver",
    fullName := some "Dana Cruz" }

/-- A registration that asks for a role outside the closed set. -/
def sampleRootReg : RegisterReq :=
  { email := some "mallory@example.com", password := some "pw", role := some "superuser",
    fullName := some "Mallory" }

/-- The request `PUT /api/shipments/9/excel` with a file; no row has the id 9. -/
def sampleLostReplaceReq : ExcelReq := { id := 9, file_name := none, file := some sampleFile }

/-- The request `PUT /api/customers/7/excel` with a file. -/
def sampleCustomerReplace : ExcelReq := { id := 7, file_name := none, file := some sampleFile }

/-- A store with the sample tables; the document tables other than `shipments` are empty. -/
def sampleDb : Db :=
  { users := sampleUserTable, drivers := sampleDrivers, vehicles := sampleFleet,
    routes := sampleRoutes,
    docs := fun e =>
      match e with
      | Entity.shipments => sampleTable
      | _ => emptyTable 1 }

/-- An environment in which the store throws a connection error. -/
def sampleDown : Env :=
  { now := sampleNow,
    fault := some { code := some "ECONNREFUSED", message := "connect ECONNREFUSED 127.0.0.1:5432",
                    stack := "Error: connect ECONNREFUSED 127.0.0.1:5432 at TCPConnectWrap" } }

/-- A login without a password for an email that no user has. -/
def sampleUnknownNoPassword : LoginReq :=
  { email := some "nobody@example.com", password := none }

/-- A login without a password for the email of the admin. -/
def sampleKnownNoPassword : LoginReq :=
  { email := some "admin@example.com", password := none }

/-! ## The built statement -/

theorem run_length (e : Entity) (req : UpdateReq) :
    (Builder.run e req).values.length + 1 = (Builder.run e req).paramCounter := by
  unfold Builder.run
  cases req.file <;> cases truthy req.name <;> cases truthy req.description <;>
    cases truthy req.status <;> simp [Builder.init, Builder.addField, Builder.addFile]

theorem param_where (e : Entity) (req : UpdateReq) :
    param (buildUpdate e req).2 (buildUpdate e req).1.whereParam = Val.num req.id := by
  have h := run_length e req
  simp only [buildUpdate, param]
  rw [← h]
  simp [toSql]

theorem matchesId_build (e : Entity) (req : UpdateReq) (r : DocRow) :
    matchesId (buildUpdate e req).2 (buildUpdate e req).1.whereParam r
      = decide (r.id = req.id) := by
  unfold matchesId
  rw [param_where]
  by_cases h : r.id = req.id
  · simp [h]
  · have : ¬ req.id = r.id := fun h2 => h h2.symm
    simp [h, this]

theorem truthy_cases (x : Option String) :
    (truthy x = false ∧ Spec.present x = []) ∨
    (∃ s, truthy x = true ∧ fieldVal x = Val.str s ∧ Spec.present x = [s]) := by
  cases x with
  | none => left; simp [truthy, Spec.present]
  | some s =>
    by_cases h : s = ""
    · left; simp [truthy, Spec.present, h]
    · right; exact ⟨s, by simp [truthy, h], rfl, by simp [Spec.present, h]⟩

theorem build_columns (e : Entity) (req : UpdateReq) :
    (buildUpdate e req).1.sets.map Assign.col = Spec.updateColumns req := by
  rcases truthy_cases req.name with ⟨hn, pn⟩ | ⟨n, hn, vn, pn⟩ <;>
  rcases truthy_cases req.description with ⟨hd, pd⟩ | ⟨d, hd, vd, pd⟩ <;>
  rcases truthy_cases req.status with ⟨hs, ps⟩ | ⟨s, hs, vs, ps⟩ <;>
  cases hf : req.file <;>
  simp [buildUpdate, Builder.run, Builder.init, Builder.addField, Builder.addFile,
    Spec.updateColumns, *]

theorem build_values (e : Entity) (req : UpdateReq) :
    (buildUpdate e req).2 = Spec.updateValues req := by
  rcases truthy_cases req.name with ⟨hn, pn⟩ | ⟨n, hn, vn, pn⟩ <;>
  rcases truthy_cases req.description with ⟨hd, pd⟩ | ⟨d, hd, vd, pd⟩ <;>
  rcases truthy_cases req.status with ⟨hs, ps⟩ | ⟨s, hs, vs, ps⟩ <;>
  cases hf : req.file <;>
  simp [buildUpdate, Builder.run, Builder.init, Builder.addField, Builder.addFile,
    Spec.updateValues, *]

theorem build_head (e : Entity) (req : UpdateReq) :
    (buildUpdate e req).1.sets.take 2
      = [⟨Col.updated_at, Rhs.now⟩, ⟨Col.updated_by, Rhs.param 1⟩] := by
  cases hf : req.file <;> cases hn : truthy req.name <;> cases hd : truthy req.description <;>
    cases hs : truthy req.status <;>
    simp [buildUpdate, Builder.run, Builder.init, Builder.addField, Builder.addFile, *]

/-! ## The store under a partial update -/

theorem set_get_ne (r : DocRow) (c d : Col) (v : Val) (h : d ≠ c) :
    (r.set d v).get c = r.get c := by
  cases c <;> cases d <;> first | exact absurd rfl h | (cases v <;> rfl)

theorem applySets_get (now : Timestamp) (values : List Val) (c : Col) :
    ∀ (sets : List Assign) (r : DocRow), (∀ a ∈ sets, a.col ≠ c) →
      (applySets now values sets r).get c = r.get c := by
  intro sets
  induction sets with
  | nil => intro r _; rfl
  | cons a l ih =>
    intro r h
    have h1 : a.col ≠ c := h a (List.mem_cons_self a l)
    have h2 : ∀ b ∈ l, b.col ≠ c := fun b hb => h b (List.mem_cons_of_mem a hb)
    have := ih (r.set a.col (evalRhs now values a.rhs)) h2
    simp only [applySets, List.foldl_cons] at this ⊢
    rw [this, set_get_ne r c a.col _ h1]

theorem put_keeps (e : Entity) (now : Timestamp) (req : UpdateReq) (c : Col)
    (h : c ∉ Spec.updateColumns req) (r : DocRow) :
    (applySets now (buildUpdate e req).2 (buildUpdate e req).1.sets r).get c = r.get c := by
  apply applySets_get
  intro a ha hc
  apply h
  rw [← build_columns e req, ← hc]
  exact List.mem_map_of_mem _ ha

theorem id_not_updated (req : UpdateReq) : Col.id ∉ Spec.updateColumns req := by
  unfold Spec.updateColumns
  cases req.file <;> simp

theorem put_keeps_id (e : Entity) (now : Timestamp) (req : UpdateReq) (r : DocRow) :
    (applySets now (buildUpdate e req).2 (buildUpdate e req).1.sets r).id = r.id := by
  have := put_keeps e now req Col.id (id_not_updated req) r
  simpa [DocRow.get] using this

theorem put_table (e : Entity) (env : Env) (t : Table) (req : UpdateReq)
    (hexec : env.fault = none) :
    (putDocument e env t req).table =
      { t with rows := t.rows.map (fun r =>
          if r.id = req.id then
            applySets env.now (buildUpdate e req).2 (buildUpdate e req).1.sets r
          else r) } := by
  have hm : ∀ r, matchesId (buildUpdate e req).2 (buildUpdate e req).1.whereParam r
      = decide (r.id = req.id) := matchesId_build e req
  simp only [putDocument, poolQuery, hexec, exec, execUpdate, hm]
  split <;> simp

theorem put_response (e : Entity) (env : Env) (t : Table) (req : UpdateReq)
    (hexec : env.fault = none) :
    (putDocument e env t req).response =
      match t.rows.filter (fun r => decide (r.id = req.id)) with
      | [] => ⟨404, errorBody e.updateNotFound⟩
      | r :: _ => ⟨200, rowBody (project Returning.star
          (applySets env.now (buildUpdate e req).2 (buildUpdate e req).1.sets r))⟩ := by
  have hm : ∀ r, matchesId (buildUpdate e req).2 (buildUpdate e req).1.whereParam r
      = decide (r.id = req.id) := matchesId_build e req
  have hf : (fun r => matchesId (buildUpdate e req).2 (buildUpdate e req).1.whereParam r)
      = (fun r => decide (r.id = req.id)) := funext hm
  have hret : (buildUpdate e req).1.returning = Returning.star := rfl
  simp only [putDocument, poolQuery, hexec, exec, execUpdate, hf, hret]
  cases h : t.rows.filter (fun r => decide (r.id = req.id)) <;> simp [h]

theorem filter_id_ne_nil (rows : List DocRow) (id : Nat) (h : ∃ r ∈ rows, r.id = id) :
    ∃ a l, rows.filter (fun r => decide (r.id = id)) = a :: l ∧ a ∈ rows ∧ a.id = id := by
  obtain ⟨r, hr, hid⟩ := h
  cases hfl : rows.filter (fun r => decide (r.id = id)) with
  | nil =>
    have : r ∈ rows.filter (fun r => decide (r.id = id)) := by
      simp [List.mem_filter, hr, hid]
    rw [hfl] at this
    simp at this
  | cons a l =>
    have ha : a ∈ rows.filter (fun r => decide (r.id = id)) := by
      rw [hfl]; exact List.mem_cons_self a l
    rw [List.mem_filter] at ha
    exact ⟨a, l, rfl, ha.1, by simpa using ha.2⟩

theorem filter_id_nil (rows : List DocRow) (id : Nat) (h : ∀ r ∈ rows, r.id ≠ id) :
    rows.filter (fun r => decide (r.id = id)) = [] := by
  rw [List.filter_eq_nil_iff]
  intro r hr
  simpa using h r hr

theorem put_rows_column (e : Entity) (env : Env) (t : Table) (req : UpdateReq) (c : Col)
    (f : DocRow → Val) (hf : ∀ r, f r = r.get c) (h : c ∉ Spec.updateColumns req) :
    (putDocument e env t req).table.rows.map f = t.rows.map f := by
  cases hx : env.fault with
  | some err => simp [putDocument, poolQuery, hx]
  | none =>
    rw [put_table e env t req hx]
    simp only [List.map_map]
    apply List.map_congr_left
    intro r _
    simp only [Function.comp]
    split
    · rw [hf, hf, put_keeps e env.now req c h r]
    · rfl

theorem map_present_ne (x : Option String) (c d : Col) (h : d ≠ c) :
    c ∉ (Spec.present x).map (fun _ => d) := by
  intro hc
  rw [List.mem_map] at hc
  obtain ⟨_, _, hd⟩ := hc
  exact h hd

theorem file_cols_ne (f : Option UploadedFile) (c : Col) (h1 : c ≠ Col.file_name)
    (h2 : c ≠ Col.file_data) :
    c ∉ (match f with
         | some _ => [Col.file_name, Col.file_data]
         | none => []) := by
  cases f <;> simp [h1, h2]

theorem name_not_updated (req : UpdateReq) (h : Spec.present req.name = []) :
    Col.name ∉ Spec.updateColumns req := by
  unfold Spec.updateColumns
  rw [h]
  have h1 := map_present_ne req.description Col.name Col.description (by decide)
  have h2 := map_present_ne req.status Col.name Col.status (by decide)
  have h3 := file_cols_ne req.file Col.name (by decide) (by decide)
  simp only [List.mem_append, not_or]
  exact ⟨⟨⟨⟨by decide, by simp⟩, h1⟩, h2⟩, h3⟩

theorem description_not_updated (req : UpdateReq) (h : Spec.present req.description = []) :
    Col.description ∉ Spec.updateColumns req := by
  unfold Spec.updateColumns
  rw [h]
  have h1 := map_present_ne req.name Col.description Col.name (by decide)
  have h2 := map_present_ne req.status Col.description Col.status (by decide)
  have h3 := file_cols_ne req.file Col.description (by decide) (by decide)
  simp only [List.mem_append, not_or]
  exact ⟨⟨⟨⟨by decide, h1⟩, by simp⟩, h2⟩, h3⟩

theorem status_not_updated (req : UpdateReq) (h : Spec.present req.status = []) :
    Col.status ∉ Spec.updateColumns req := by
  unfold Spec.updateColumns
  rw [h]
  have h1 := map_present_ne req.name Col.status Col.name (by decide)
  have h2 := map_present_ne req.description Col.status Col.description (by decide)
  have h3 := file_cols_ne req.file Col.status (by decide) (by decide)
  simp only [List.mem_append, not_or]
  exact ⟨⟨⟨⟨by decide, h1⟩, h2⟩, by simp⟩, h3⟩

/-! ## Claims on the partial update -/

/-- C1: when the store executes the statement, a partial update whose only supplied fields are
`status = "completed"` and an acting user `u` rewrites every row with the addressed id to the
same row with `status = "completed"`, `updated_at = NOW()` and `updated_by = u` (so `name`,
`description`, `file_name`, `file_data` and every other column of it are unchanged), leaves
every other row as it was, and answers 200 when such a row exists. -/
theorem put_status_only_frame (e : Entity) (env : Env) (t : Table) (req : UpdateReq)
    (u : String) (hexec : env.fault = none)
    (hname : req.name = none) (hdesc : req.description = none) (hfile : req.file = none)
    (hstatus : req.status = some "completed")
    (huser : jsOr req.createdBy req.updatedBy = some u) :
    (putDocument e env t req).table.rows = t.rows.map (fun r =>
        if r.id = req.id then
          { r with status := Val.str "completed", updated_at := Val.date env.now,
                   updated_by := Val.str u }
        else r)
    ∧ (putDocument e env t req).table.nextId = t.nextId
    ∧ ((∃ r ∈ t.rows, r.id = req.id) → (putDocument e env t req).response.status = 200) := by
  have hsets : (buildUpdate e req).1.sets = [⟨Col.updated_at, Rhs.now⟩,
      ⟨Col.updated_by, Rhs.param 1⟩, ⟨Col.status, Rhs.param 2⟩] := by
    simp [buildUpdate, Builder.run, Builder.init, Builder.addField, hname, hdesc, hfile,
      hstatus, truthy]
  have hvals : (buildUpdate e req).2 = [Val.str u, Val.str "completed", Val.num req.id] := by
    simp [buildUpdate, Builder.run, Builder.init, Builder.addField, hname, hdesc, hfile,
      hstatus, huser, truthy, fieldVal]
  have happ : ∀ r, applySets env.now (buildUpdate e req).2 (buildUpdate e req).1.sets r =
      { r with status := Val.str "completed", updated_at := Val.date env.now,
               updated_by := Val.str u } := by
    intro r
    rw [hsets, hvals]
    simp [applySets, evalRhs, param, toSql, DocRow.set]
  refine ⟨?_, ?_, ?_⟩
  · rw [put_table e env t req hexec]
    simp only [happ]
  · rw [put_table e env t req hexec]
  · intro h
    obtain ⟨a, l, hfl, _, _⟩ := filter_id_ne_nil t.rows req.id h
    rw [put_response e env t req hexec, hfl]

/-- Witness of C1 on the sample table: row 1 is completed by bob, row 2 is untouched. -/
theorem put_status_only_frame_witness :
    (putDocument Entity.shipments sampleEnv sampleTable sampleStatusReq).table.rows
      = [{ sampleRow1 with status := Val.str "completed", updated_at := Val.date sampleNow,
                           updated_by := Val.str "bob" }, sampleRow2]
    ∧ (putDocument Entity.shipments sampleEnv sampleTable sampleStatusReq).response.status
      = 200 :=
  ⟨(put_status_only_frame Entity.shipments sampleEnv sampleTable sampleStatusReq "bob"
      rfl rfl rfl rfl rfl rfl).1,
   (put_status_only_frame Entity.shipments sampleEnv sampleTable sampleStatusReq "bob"
      rfl rfl rfl rfl rfl rfl).2.2 ⟨sampleRow1, List.mem_cons_self _ _, rfl⟩⟩

/-- C2: the statement built for a partial update starts with `updated_at = NOW()` and
`updated_by = $1`, its `SET` clause names exactly the columns the specification lists (those of
the inputs that are present, in the order name, description, status, file_name, file_data), and
its bound values are the acting user, the present values in that order, then the id; this
statement with these values is the one statement the handler sends. -/
theorem buildUpdate_sets_present_inputs (e : Entity) (env : Env) (t : Table)
    (req : UpdateReq) :
    (buildUpdate e req).1.sets.map Assign.col = Spec.updateColumns req
    ∧ (buildUpdate e req).1.sets.take 2
        = [⟨Col.updated_at, Rhs.now⟩, ⟨Col.updated_by, Rhs.param 1⟩]
    ∧ (buildUpdate e req).2 = Spec.updateValues req
    ∧ (putDocument e env t req).issued
        = [Stmt.update (buildUpdate e req).1 (buildUpdate e req).2] :=
  ⟨build_columns e req, build_head e req, build_values e req, by
    simp only [putDocument]
    split <;> (try split) <;> rfl⟩

/-- C3: an empty string for `name`, `description` or `status` gives the same statement, the same
bound values and the same outcome of the handler as the request without that field, and the
stored values of that column are the ones from before the request. -/
theorem empty_string_is_absent (e : Entity) (env : Env) (t : Table) (req : UpdateReq) :
    (buildUpdate e { req with name := some "" } = buildUpdate e { req with name := none }
      ∧ putDocument e env t { req with name := some "" }
          = putDocument e env t { req with name := none }
      ∧ (putDocument e env t { req with name := some "" }).table.rows.map DocRow.name
          = t.rows.map DocRow.name)
    ∧ (buildUpdate e { req with description := some "" }
          = buildUpdate e { req with description := none }
      ∧ putDocument e env t { req with description := some "" }
          = putDocument e env t { req with description := none }
      ∧ (putDocument e env t { req with description := some "" }).table.rows.map
            DocRow.description
          = t.rows.map DocRow.description)
    ∧ (buildUpdate e { req with status := some "" } = buildUpdate e { req with status := none }
      ∧ putDocument e env t { req with status := some "" }
          = putDocument e env t { req with status := none }
      ∧ (putDocument e env t { req with status := some "" }).table.rows.map DocRow.status
          = t.rows.map DocRow.status) := by
  have h1 : buildUpdate e { req with name := some "" }
      = buildUpdate e { req with name := none } := by
    simp [buildUpdate, Builder.run, Builder.init, truthy]
  have h2 : buildUpdate e { req with description := some "" }
      = buildUpdate e { req with description := none } := by
    simp [buildUpdate, Builder.run, Builder.init, truthy]
  have h3 : buildUpdate e { req with status := some "" }
      = buildUpdate e { req with status := none } := by
    simp [buildUpdate, Builder.run, Builder.init, truthy]
  refine ⟨⟨h1, ?_, ?_⟩, ⟨h2, ?_, ?_⟩, ⟨h3, ?_, ?_⟩⟩
  · simp only [putDocument, h1]
  · exact put_rows_column e env t _ Col.name DocRow.name (fun _ => rfl)
      (name_not_updated _ rfl)
  · simp only [putDocument, h2]
  · exact put_rows_column e env t _ Col.description DocRow.description (fun _ => rfl)
      (description_not_updated _ rfl)
  · simp only [putDocument, h3]
  · exact put_rows_column e env t _ Col.status DocRow.status (fun _ => rfl)
      (status_not_updated _ rfl)


/-- C4: when the store executes the statement, a partial update whose id matches no row answers
404 with the entity's not-found error and leaves the table as it was; when a row matches, it
answers 200 with all ten columns of an updated row of the table that carries this id. -/
theorem put_not_found_or_row (e : Entity) (env : Env) (t : Table) (req : UpdateReq)
    (hexec : env.fault = none) :
    ((∀ r ∈ t.rows, r.id ≠ req.id) →
        (putDocument e env t req).response = ⟨404, errorBody e.updateNotFound⟩
        ∧ (putDocument e env t req).table = t)
    ∧ ((∃ r ∈ t.rows, r.id = req.id) →
        ∃ r1 ∈ (putDocument e env t req).table.rows, r1.id = req.id
          ∧ (putDocument e env t req).response
              = ⟨200, rowBody (allCols.map (fun c => (c.key, r1.get c)))⟩) := by
  constructor
  · intro hno
    constructor
    · rw [put_response e env t req hexec, filter_id_nil t.rows req.id hno]
    · rw [put_table e env t req hexec]
      have : t.rows.map (fun r =>
          if r.id = req.id then
            applySets env.now (buildUpdate e req).2 (buildUpdate e req).1.sets r
          else r) = t.rows := by
        conv => rhs; rw [← List.map_id t.rows]
        apply List.map_congr_left
        intro r hr
        simp [hno r hr]
      rw [this]
  · intro h
    obtain ⟨a, l, hfl, hmem, haid⟩ := filter_id_ne_nil t.rows req.id h
    refine ⟨applySets env.now (buildUpdate e req).2 (buildUpdate e req).1.sets a, ?_, ?_, ?_⟩
    · rw [put_table e env t req hexec]
      simp only [List.mem_map]
      exact ⟨a, hmem, by simp [haid]⟩
    · rw [put_keeps_id, haid]
    · rw [put_response e env t req hexec, hfl]
      rfl

/-- Witness of C4 on the sample table: id 9 matches no row, id 1 matches the first row. -/
theorem put_not_found_or_row_witness :
    ((putDocument Entity.shipments sampleEnv sampleTable sampleMissingReq).response
        = ⟨404, errorBody "Shipment not found"⟩
      ∧ (putDocument Entity.shipments sampleEnv sampleTable sampleMissingReq).table
        = sampleTable)
    ∧ ∃ r1 ∈ (putDocument Entity.shipments sampleEnv sampleTable sampleStatusReq).table.rows,
        r1.id = 1
        ∧ (putDocument Entity.shipments sampleEnv sampleTable sampleStatusReq).response
            = ⟨200, rowBody (allCols.map (fun c => (c.key, r1.get c)))⟩ :=
  ⟨(put_not_found_or_row Entity.shipments sampleEnv sampleTable sampleMissingReq rfl).1
      (by decide),
   (put_not_found_or_row Entity.shipments sampleEnv sampleTable sampleStatusReq rfl).2
      ⟨sampleRow1, List.mem_cons_self _ _, rfl⟩⟩

/-- C5, evaluated at a request without an acting user: `PUT /api/shipments/1` with only
`status = "completed"` is not rejected.  The handler binds `undefined` to `$1`, the store
executes the statement, the answer is 200 and `updated_by` of row 1, which was "Jane", is
`NULL` afterwards. -/
theorem put_without_acting_user_overwrites :
    (putDocument Entity.shipments sampleEnv sampleTable sampleAnonymousReq).response.status
      = 200
    ∧ (putDocument Entity.shipments sampleEnv sampleTable sampleAnonymousReq).table.rows
      = [{ sampleRow1 with status := Val.str "completed", updated_at := Val.date sampleNow,
                           updated_by := Val.null }, sampleRow2]
    ∧ sampleRow1.updated_by = Val.str "Jane"
    ∧ (buildUpdate Entity.shipments sampleAnonymousReq).2
      = [Val.undefined, Val.str "completed", Val.num 1] := by
  refine ⟨?_, ?_, rfl, ?_⟩
  · rfl
  · rfl
  · rfl

/-! ## Create -/

theorem orNull_cases (x : Option String) :
    (Spec.present x = [] ∧ orNull x = Val.null) ∨
    (∃ s, Spec.present x = [s] ∧ orNull x = Val.str s) := by
  rcases truthy_cases x with ⟨h, p⟩ | ⟨s, h, v, p⟩
  · left; exact ⟨p, by simp [orNull, h]⟩
  · right; exact ⟨s, p, by simp [orNull, h, v]⟩

theorem orIncomplete_cases (x : Option String) :
    (Spec.present x = [] ∧ orIncomplete x = Val.str "incomplete") ∨
    (∃ s, Spec.present x = [s] ∧ orIncomplete x = Val.str s) := by
  rcases truthy_cases x with ⟨h, p⟩ | ⟨s, h, v, p⟩
  · left; exact ⟨p, by simp [orIncomplete, h]⟩
  · right; exact ⟨s, p, by simp [orIncomplete, h, v]⟩

theorem toSql_orNull (x : Option String) : toSql (orNull x) = orNull x := by
  rcases orNull_cases x with ⟨_, h⟩ | ⟨s, _, h⟩ <;> rw [h] <;> rfl

theorem toSql_orIncomplete (x : Option String) : toSql (orIncomplete x) = orIncomplete x := by
  rcases orIncomplete_cases x with ⟨_, h⟩ | ⟨s, _, h⟩ <;> rw [h] <;> rfl

theorem post_accepted (e : Entity) (env : Env) (t : Table) (req : CreateReq)
    (n c : String) (f : UploadedFile) (hexec : env.fault = none)
    (hn : req.name = some n) (hn1 : n ≠ "") (hc : req.createdBy = some c) (hc1 : c ≠ "")
    (hf : req.file = some f) :
    postDocument e env t req =
      { response := ⟨201, rowBody (project (insertStmt e).returning
          { id := t.nextId, name := Val.str n, description := orNull req.description,
            status := orIncomplete req.status,
            created_at := Val.date env.now, updated_at := Val.date env.now,
            created_by := Val.str c, updated_by := Val.str c,
            file_name := Val.str f.originalname, file_data := Val.buffer f.buffer })⟩,
        table :=
          { nextId := t.nextId + 1,
            rows := t.rows ++ [
              { id := t.nextId, name := Val.str n, description := orNull req.description,
                status := orIncomplete req.status,
                created_at := Val.date env.now, updated_at := Val.date env.now,
                created_by := Val.str c, updated_by := Val.str c,
                file_name := Val.str f.originalname, file_data := Val.buffer f.buffer }] },
        issued := [Stmt.insert (insertStmt e)
          [Val.str n, orNull req.description, orIncomplete req.status, Val.str c, Val.str c,
           Val.str f.originalname, Val.buffer f.buffer]] } := by
  have ho1 := toSql_orNull req.description
  have ho2 := toSql_orIncomplete req.status
  have tn : truthy req.name = true := by simp [hn, truthy, hn1]
  have tc : truthy req.createdBy = true := by simp [hc, truthy, hc1]
  have hs : ∀ s, toSql (Val.str s) = Val.str s := fun _ => rfl
  have hb : ∀ b, toSql (Val.buffer b) = Val.buffer b := fun _ => rfl
  unfold postDocument
  rw [tn, tc, hf]
  simp [hn, hc, poolQuery, hexec, exec, execInsert, insertStmt, fillCols, freshRow,
    DocRow.set, param, fieldVal, ho1, ho2, hs, hb]


theorem post_rejected (e : Entity) (env : Env) (t : Table) (req : CreateReq)
    (h : truthy req.name = false ∨ truthy req.createdBy = false ∨ req.file = none) :
    postDocument e env t req =
      { response := ⟨400, errorBody "Missing required fields"⟩, table := t, issued := [] } := by
  unfold postDocument
  rcases h with h | h | h
  · rw [h]
  · rw [h]; cases truthy req.name <;> rfl
  · rw [h]; cases truthy req.name <;> cases truthy req.createdBy <;> rfl

/-- C6: a create request whose name is missing or empty, whose createdBy is missing or empty, or
which carries no file is answered 400, sends no statement and leaves the table as it was; a
request with a non-empty name, a non-empty createdBy and a file sends exactly one statement,
the `INSERT` of the entity. -/
theorem post_requires_name_user_file (e : Entity) (env : Env) (t : Table) (req : CreateReq) :
    ((req.name = none ∨ req.name = some "" ∨ req.createdBy = none ∨ req.createdBy = some ""
        ∨ req.file = none) →
      (postDocument e env t req).response = ⟨400, errorBody "Missing required fields"⟩
      ∧ (postDocument e env t req).issued = []
      ∧ (postDocument e env t req).table = t)
    ∧ (∀ n c f, req.name = some n → n ≠ "" → req.createdBy = some c → c ≠ "" →
        req.file = some f →
        ∃ values, (postDocument e env t req).issued = [Stmt.insert (insertStmt e) values]) := by
  constructor
  · intro h
    have h1 : truthy req.name = false ∨ truthy req.createdBy = false ∨ req.file = none := by
      rcases h with h | h | h | h | h
      · left; rw [h]; rfl
      · left; rw [h]; rfl
      · right; left; rw [h]; rfl
      · right; left; rw [h]; rfl
      · right; right; exact h
    rw [post_rejected e env t req h1]
    exact ⟨rfl, rfl, rfl⟩
  · intro n c f hn hn1 hc hc1 hf
    have tn : truthy req.name = true := by simp [hn, truthy, hn1]
    have tc : truthy req.createdBy = true := by simp [hc, truthy, hc1]
    refine ⟨[fieldVal req.name, orNull req.description, orIncomplete req.status,
      fieldVal req.createdBy, fieldVal req.createdBy,
      Val.str f.originalname, Val.buffer f.buffer], ?_⟩
    unfold postDocument
    rw [tn, tc, hf]
    simp only
    split <;> rfl

/-- Witness of C6: a create without a name is refused, a complete one sends one `INSERT`. -/
theorem post_requires_name_user_file_witness :
    ((postDocument Entity.shipments sampleEnv sampleTable sampleNamelessReq).response
        = ⟨400, errorBody "Missing required fields"⟩
      ∧ (postDocument Entity.shipments sampleEnv sampleTable sampleNamelessReq).issued = []
      ∧ (postDocument Entity.shipments sampleEnv sampleTable sampleNamelessReq).table
        = sampleTable)
    ∧ ∃ values, (postDocument Entity.shipments sampleEnv sampleTable sampleCreateReq).issued
        = [Stmt.insert (insertStmt Entity.shipments) values] :=
  ⟨(post_requires_name_user_file Entity.shipments sampleEnv sampleTable sampleNamelessReq).1
      (Or.inl rfl),
   (post_requires_name_user_file Entity.shipments sampleEnv sampleTable sampleCreateReq).2
      "April" "bob" sampleFile rfl (by decide) rfl (by decide) rfl⟩

/-- C7: an accepted create that the store executes appends one row to the table.  Its `status` is
the supplied status, or "incomplete" when the status is omitted (or empty); `created_by` and
`updated_by` both are the supplied createdBy; `description` is the supplied description, or
`NULL` when it is omitted (or empty); `file_name` and `file_data` are the original name and
the bytes of the uploaded file; `name` is the supplied name. -/
theorem post_inserted_row (e : Entity) (env : Env) (t : Table) (req : CreateReq)
    (n c : String) (f : UploadedFile) (hexec : env.fault = none)
    (hn : req.name = some n) (hn1 : n ≠ "") (hc : req.createdBy = some c) (hc1 : c ≠ "")
    (hf : req.file = some f) :
    ∃ row, (postDocument e env t req).table.rows = t.rows ++ [row]
      ∧ row.name = Val.str n
      ∧ (∀ s, req.status = some s → s ≠ "" → row.status = Val.str s)
      ∧ (req.status = none → row.status = Val.str "incomplete")
      ∧ (req.status = some "" → row.status = Val.str "incomplete")
      ∧ row.created_by = Val.str c
      ∧ row.updated_by = row.created_by
      ∧ (∀ d, req.description = some d → d ≠ "" → row.description = Val.str d)
      ∧ (req.description = none → row.description = Val.null)
      ∧ (req.description = some "" → row.description = Val.null)
      ∧ row.file_name = Val.str f.originalname
      ∧ row.file_data = Val.buffer f.buffer := by
  rw [post_accepted e env t req n c f hexec hn hn1 hc hc1 hf]
  refine ⟨_, rfl, rfl, ?_, ?_, ?_, rfl, rfl, ?_, ?_, ?_, rfl, rfl⟩
  · intro s hs hs1
    simp [orIncomplete, hs, truthy, hs1, fieldVal]
  · intro hs
    simp [orIncomplete, hs, truthy]
  · intro hs
    simp [orIncomplete, hs, truthy]
  · intro d hd hd1
    simp [orNull, hd, truthy, hd1, fieldVal]
  · intro hd
    simp [orNull, hd, truthy]
  · intro hd
    simp [orNull, hd, truthy]

/-- Witness of C7: the sample create appends row 3 with status "incomplete". -/
theorem post_inserted_row_witness :
    ∃ row, (postDocument Entity.shipments sampleEnv sampleTable sampleCreateReq).table.rows
        = sampleTable.rows ++ [row]
      ∧ row.name = Val.str "April"
      ∧ row.status = Val.str "incomplete"
      ∧ row.created_by = Val.str "bob"
      ∧ row.updated_by = row.created_by
      ∧ row.description = Val.null
      ∧ row.file_name = Val.str "april.xlsx"
      ∧ row.file_data = Val.buffer [80, 75, 7, 8] := by
  obtain ⟨row, h1, h2, _, h4, _, h6, h7, _, h9, _, h11, h12⟩ :=
    post_inserted_row Entity.shipments sampleEnv sampleTable sampleCreateReq "April" "bob"
      sampleFile rfl rfl (by decide) rfl (by decide) rfl
  exact ⟨row, h1, h2, h4 rfl, h6, h7, h9 rfl, h11, h12⟩

/-- C8: an accepted create that the store executes is answered 201 with a body that holds `id`,
`name`, `description`, `status`, `created_at`, `updated_at`, `created_by`, `updated_by` and
`file_name` of the created row, and no `file_data`. -/
theorem post_response_without_bytes (e : Entity) (env : Env) (t : Table) (req : CreateReq)
    (n c : String) (f : UploadedFile) (hexec : env.fault = none)
    (hn : req.name = some n) (hn1 : n ≠ "") (hc : req.createdBy = some c) (hc1 : c ≠ "")
    (hf : req.file = some f) :
    (postDocument e env t req).response.status = 201
    ∧ (∃ row, (postDocument e env t req).table.rows = t.rows ++ [row]
        ∧ row.id = t.nextId
        ∧ (postDocument e env t req).response.body = Body.obj
            [("id", Json1.val (Val.num row.id)), ("name", Json1.val row.name),
             ("description", Json1.val row.description), ("status", Json1.val row.status),
             ("created_at", Json1.val row.created_at), ("updated_at", Json1.val row.updated_at),
             ("created_by", Json1.val row.created_by), ("updated_by", Json1.val row.updated_by),
             ("file_name", Json1.val row.file_name)])
    ∧ "file_data" ∉ (postDocument e env t req).response.body.keys := by
  rw [post_accepted e env t req n c f hexec hn hn1 hc hc1 hf]
  refine ⟨rfl, ⟨_, rfl, rfl, rfl⟩, ?_⟩
  simp [Body.keys, rowBody, project, insertStmt, Col.key]

/-- Witness of C8: the sample create is answered 201 without `file_data`. -/
theorem post_response_without_bytes_witness :
    (postDocument Entity.shipments sampleEnv sampleTable sampleCreateReq).response.status = 201
    ∧ (postDocument Entity.shipments sampleEnv sampleTable sampleCreateReq).response.body.keys
        = ["id", "name", "description", "status", "created_at", "updated_at", "created_by",
           "updated_by", "file_name"]
    ∧ "file_data" ∉
        (postDocument Entity.shipments sampleEnv sampleTable sampleCreateReq).response.body.keys :=
  ⟨(post_response_without_bytes Entity.shipments sampleEnv sampleTable sampleCreateReq "April"
      "bob" sampleFile rfl rfl (by decide) rfl (by decide) rfl).1,
   rfl,
   (post_response_without_bytes Entity.shipments sampleEnv sampleTable sampleCreateReq "April"
      "bob" sampleFile rfl rfl (by decide) rfl (by decide) rfl).2.2⟩


/-! ## Delete and list -/

theorem matchesId_delete (id : Nat) (r : DocRow) :
    matchesId [Val.num id] 1 r = decide (r.id = id) := by
  unfold matchesId
  have : param [Val.num id] 1 = Val.num id := rfl
  rw [this]
  by_cases h : r.id = id
  · simp [h]
  · have : ¬ id = r.id := fun h2 => h h2.symm
    simp [h, this]

theorem delete_outcome (e : Entity) (env : Env) (t : Table) (id : Nat)
    (hexec : env.fault = none) :
    (deleteDocument e env t id).table
        = { t with rows := t.rows.filter (fun r => decide (r.id ≠ id)) }
    ∧ (deleteDocument e env t id).response =
        if (t.rows.filter (fun r => decide (r.id = id))).length = 0 then
          ⟨404, messageBody e.deleteNotFound⟩
        else ⟨200, messageBody e.deleted⟩ := by
  have hf : (fun r => matchesId [Val.num id] 1 r) = (fun r => decide (r.id = id)) :=
    funext (matchesId_delete id)
  have hg : (fun r : DocRow => !decide (r.id = id)) = (fun r => decide (r.id ≠ id)) := by
    funext r
    simp
  simp only [deleteDocument, poolQuery, hexec, exec, execDelete, hf]
  rw [hg]
  constructor <;> split <;> rfl

theorem list_response (e : Entity) (env : Env) (t : Table) (hexec : env.fault = none) :
    (listDocuments e env t).response
      = ⟨200, Body.arr ((t.rows.insertionSort idDesc).map listRow)⟩ := by
  simp [listDocuments, poolQuery, hexec, exec, execSelectAll]

/-- C9: when the store executes the statements, a delete whose id matches no row answers 404 and
leaves the table as it was; a delete whose id matches a row answers 200 with the entity's
success message, the table afterwards holds exactly the rows with another id, unchanged and in
their order, and no row of a subsequent list carries the deleted id. -/
theorem delete_removes_only_that_row (e : Entity) (env env2 : Env) (t : Table) (id : Nat)
    (hexec : env.fault = none) (hexec2 : env2.fault = none) :
    ((∀ r ∈ t.rows, r.id ≠ id) →
        (deleteDocument e env t id).response = ⟨404, messageBody e.deleteNotFound⟩
        ∧ (deleteDocument e env t id).table = t)
    ∧ ((∃ r ∈ t.rows, r.id = id) →
        (deleteDocument e env t id).response = ⟨200, messageBody e.deleted⟩
        ∧ (deleteDocument e env t id).table.rows = t.rows.filter (fun r => decide (r.id ≠ id))
        ∧ ∃ listed, (listDocuments e env2 (deleteDocument e env t id).table).response
              = ⟨200, Body.arr listed⟩
            ∧ ∀ row ∈ listed, ("id", Val.num id) ∉ row) := by
  obtain ⟨htab, hresp⟩ := delete_outcome e env t id hexec
  constructor
  · intro hno
    constructor
    · rw [hresp, filter_id_nil t.rows id hno]
      rfl
    · rw [htab]
      have : t.rows.filter (fun r => decide (r.id ≠ id)) = t.rows := by
        rw [List.filter_eq_self]
        intro r hr
        simpa using hno r hr
      rw [this]
  · intro h
    obtain ⟨a, l, hfl, _, _⟩ := filter_id_ne_nil t.rows id h
    refine ⟨?_, ?_, ?_⟩
    · rw [hresp, hfl]
      rfl
    · rw [htab]
    · refine ⟨_, list_response e env2 _ hexec2, ?_⟩
      intro row hrow hmem
      rw [List.mem_map] at hrow
      obtain ⟨r, hr, hrow⟩ := hrow
      have hr2 : r ∈ (deleteDocument e env t id).table.rows :=
        (List.perm_insertionSort idDesc _).mem_iff.mp hr
      rw [htab] at hr2
      have hne : r.id ≠ id := by simpa using (List.mem_filter.mp hr2).2
      rw [← hrow] at hmem
      simp [listRow] at hmem
      exact hne hmem.symm

/-- Witness of C9 on the sample table: id 9 is not there, id 1 is deleted and row 2 stays. -/
theorem delete_removes_only_that_row_witness :
    ((deleteDocument Entity.shipments sampleEnv sampleTable 9).response
        = ⟨404, messageBody "Shipment not found"⟩
      ∧ (deleteDocument Entity.shipments sampleEnv sampleTable 9).table = sampleTable)
    ∧ (deleteDocument Entity.shipments sampleEnv sampleTable 1).response
        = ⟨200, messageBody "Shipment deleted successfully"⟩
    ∧ (deleteDocument Entity.shipments sampleEnv sampleTable 1).table.rows = [sampleRow2]
    ∧ ∃ listed, (listDocuments Entity.shipments sampleEnv
          (deleteDocument Entity.shipments sampleEnv sampleTable 1).table).response
            = ⟨200, Body.arr listed⟩
        ∧ ∀ row ∈ listed, ("id", Val.num 1) ∉ row :=
  ⟨(delete_removes_only_that_row Entity.shipments sampleEnv sampleEnv sampleTable 9
      rfl rfl).1 (by decide),
   ((delete_removes_only_that_row Entity.shipments sampleEnv sampleEnv sampleTable 1
      rfl rfl).2 ⟨sampleRow1, List.mem_cons_self _ _, rfl⟩).1,
   ((delete_removes_only_that_row Entity.shipments sampleEnv sampleEnv sampleTable 1
      rfl rfl).2 ⟨sampleRow1, List.mem_cons_self _ _, rfl⟩).2.1,
   ((delete_removes_only_that_row Entity.shipments sampleEnv sampleEnv sampleTable 1
      rfl rfl).2 ⟨sampleRow1, List.mem_cons_self _ _, rfl⟩).2.2⟩

/-! ## Login -/

/-- With a password supplied, the two failures of a login get the same response: a login for an
email that no user has, and a login with a password for an email that a user has while the
hashing library rejects the password against the stored hash, are both answered 401 with the
body `{success: false, message: "Invalid credentials", user: null}`. -/
theorem login_failures_indistinguishable (verdict : String → String → Bool)
    (env1 env2 : Env) (users1 users2 : List UserRow) (req1 req2 : LoginReq)
    (em pw : String)
    (hexec1 : env1.fault = none) (hexec2 : env2.fault = none)
    (hno : ∀ u ∈ users1, u.email ≠ fieldVal req1.email)
    (hem : req2.email = some em) (hpw : req2.password = some pw)
    (hyes : ∃ u ∈ users2, u.email = Val.str em)
    (hbad : ∀ u ∈ users2, u.email = Val.str em →
      ∃ h, u.password = Val.str h ∧ verdict pw h = false) :
    login verdict env1 users1 req1 = login verdict env2 users2 req2
    ∧ login verdict env1 users1 req1
        = ⟨401, loginBody false "Invalid credentials" (Json1.val Val.null)⟩ := by
  have h1 : login verdict env1 users1 req1
      = ⟨401, loginBody false "Invalid credentials" (Json1.val Val.null)⟩ := by
    have hsel : selectByEmail users1 (fieldVal req1.email) = [] := by
      unfold selectByEmail
      rw [List.filter_eq_nil_iff]
      intro u hu
      have := hno u hu
      cases hq : req1.email with
      | none => simp [fieldVal, toSql]
      | some s =>
        rw [hq] at this
        simp only [fieldVal] at this
        have h3 : ¬ Val.str s = u.email := fun h => this h.symm
        simp [fieldVal, toSql, h3]
    simp [login, hexec1, hsel]
  have h2 : login verdict env2 users2 req2
      = ⟨401, loginBody false "Invalid credentials" (Json1.val Val.null)⟩ := by
    obtain ⟨u0, hu0, hu0e⟩ := hyes
    have hmemsel : u0 ∈ selectByEmail users2 (fieldVal req2.email) := by
      unfold selectByEmail
      rw [List.mem_filter]
      refine ⟨hu0, ?_⟩
      simp [hem, fieldVal, toSql, hu0e]
    cases hsel : selectByEmail users2 (fieldVal req2.email) with
    | nil => rw [hsel] at hmemsel; simp at hmemsel
    | cons user rest =>
      have huser : user ∈ selectByEmail users2 (fieldVal req2.email) := by
        rw [hsel]; exact List.mem_cons_self _ _
      unfold selectByEmail at huser
      rw [List.mem_filter] at huser
      have hue : user.email = Val.str em := by
        have := huser.2
        simp [hem, fieldVal, toSql] at this
        exact this.symm
      obtain ⟨h, hp, hv⟩ := hbad user huser.1 hue
      simp only [login, hexec2, hsel]
      simp [hpw, fieldVal, hp, bcryptCompare, hv]
  exact ⟨h1.trans h2.symm, h1⟩


/-- The two failures at the sample users: an unknown email, and a wrong password for the email
of the admin. -/
theorem login_failures_indistinguishable_witness :
    login sampleVerdict sampleEnv sampleUsers sampleUnknownLogin
      = login sampleVerdict sampleEnv sampleUsers sampleWrongLogin
    ∧ login sampleVerdict sampleEnv sampleUsers sampleUnknownLogin
      = ⟨401, loginBody false "Invalid credentials" (Json1.val Val.null)⟩ :=
  login_failures_indistinguishable sampleVerdict sampleEnv sampleEnv sampleUsers sampleUsers
    sampleUnknownLogin sampleWrongLogin "admin@example.com" "letmein" rfl rfl
    (by decide) rfl rfl
    ⟨_, List.mem_cons_self _ _, rfl⟩
    (by
      intro u hu _
      rw [List.mem_singleton.mp hu]
      exact ⟨"hash:admin123", rfl, by decide⟩)

/-! ## File-only replace -/

theorem excel_outcome (e : Entity) (env : Env) (t : Table) (req : ExcelReq) (f : UploadedFile)
    (hf : req.file = some f) (hexec : env.fault = none) :
    (putExcel e env t req).table = { t with rows := t.rows.map (fun r =>
        if r.id = req.id then
          { r with file_name := fieldVal (jsOr req.file_name (some f.originalname)),
                   file_data := Val.buffer f.buffer, updated_at := Val.date env.now }
        else r) } := by
  have hm : ∀ r : DocRow, matchesId [fieldVal (jsOr req.file_name (some f.originalname)),
      Val.buffer f.buffer, Val.num req.id] 3 r = decide (r.id = req.id) := by
    intro r
    unfold matchesId
    have : param [fieldVal (jsOr req.file_name (some f.originalname)),
      Val.buffer f.buffer, Val.num req.id] 3 = Val.num req.id := rfl
    rw [this]
    by_cases h : r.id = req.id
    · simp [h]
    · have : ¬ req.id = r.id := fun h2 => h h2.symm
      simp [h, this]
  have hv : toSql (fieldVal (jsOr req.file_name (some f.originalname)))
      = fieldVal (jsOr req.file_name (some f.originalname)) := by
    unfold jsOr
    split
    · cases h : req.file_name with
      | none => simp [h, truthy] at *
      | some s => rfl
    · rfl
  have happ : ∀ r : DocRow, applySets env.now
      [fieldVal (jsOr req.file_name (some f.originalname)), Val.buffer f.buffer,
        Val.num req.id] (excelStmt e).sets r
      = { r with file_name := fieldVal (jsOr req.file_name (some f.originalname)),
                 file_data := Val.buffer f.buffer, updated_at := Val.date env.now } := by
    intro r
    simp [applySets, excelStmt, evalRhs, param, DocRow.set, hv]
    rfl
  have hw : (excelStmt e).whereParam = 3 := rfl
  simp only [putExcel, hf, poolQuery, hexec, exec, execUpdate, hw, hm, happ]
  simp

theorem excel_name (x : Option String) (o : String) :
    ∃ newName, fieldVal (jsOr x (some o)) = Val.str newName
      ∧ (∀ n, x = some n → n ≠ "" → newName = n)
      ∧ (x = none ∨ x = some "" → newName = o) := by
  cases x with
  | none => exact ⟨o, rfl, fun n h => (by cases h), fun _ => rfl⟩
  | some s =>
    by_cases h : s = ""
    · subst h
      exact ⟨o, rfl, fun n hn hne => absurd (Option.some.inj hn).symm hne, fun _ => rfl⟩
    · refine ⟨s, by simp [jsOr, truthy, h, fieldVal], ?_, ?_⟩
      · intro n hn _
        exact (Option.some.inj hn)
      · intro h2
        rcases h2 with h2 | h2
        · cases h2
        · exact absurd (Option.some.inj h2) h

/-- C18, as the code has it: without a file the file-only replace answers 400, sends no
statement and leaves the table as it was.  With a file, when the store executes the statement,
the rows of the addressed id get `file_data` = the uploaded bytes, `updated_at = NOW()` and
`file_name` = the `file_name` of the request body when that is a non-empty string, otherwise
the original name of the uploaded file; every other column of them and every other row are
unchanged. -/
theorem excel_replaces_only_file (e : Entity) (env : Env) (t : Table) (req : ExcelReq) :
    (req.file = none →
        (putExcel e env t req).response = ⟨400, errorBody "No file uploaded"⟩
        ∧ (putExcel e env t req).table = t
        ∧ (putExcel e env t req).issued = [])
    ∧ (∀ f, req.file = some f → env.fault = none →
        ∃ newName,
          (∀ n, req.file_name = some n → n ≠ "" → newName = n)
          ∧ (req.file_name = none ∨ req.file_name = some "" → newName = f.originalname)
          ∧ (putExcel e env t req).table.rows = t.rows.map (fun r =>
              if r.id = req.id then
                { r with file_name := Val.str newName, file_data := Val.buffer f.buffer,
                         updated_at := Val.date env.now }
              else r)
          ∧ (putExcel e env t req).table.nextId = t.nextId) := by
  constructor
  · intro h
    simp [putExcel, h]
  · intro f hf hexec
    obtain ⟨newName, hv, h1, h2⟩ := excel_name req.file_name f.originalname
    refine ⟨newName, h1, h2, ?_, ?_⟩
    · rw [excel_outcome e env t req f hf hexec, hv]
    · rw [excel_outcome e env t req f hf hexec]

/-- Witness of C18: no file gives 400; a file without `file_name` in the body replaces the
attachment of row 1 under the original name of the upload. -/
theorem excel_replaces_only_file_witness :
    ((putExcel Entity.shipments sampleEnv sampleTable sampleNoFileReq).response
        = ⟨400, errorBody "No file uploaded"⟩
      ∧ (putExcel Entity.shipments sampleEnv sampleTable sampleNoFileReq).table = sampleTable
      ∧ (putExcel Entity.shipments sampleEnv sampleTable sampleNoFileReq).issued = [])
    ∧ (putExcel Entity.shipments sampleEnv sampleTable sampleReplaceReq).table.rows
        = [{ sampleRow1 with file_name := Val.str "april.xlsx",
                             file_data := Val.buffer [80, 75, 7, 8],
                             updated_at := Val.date sampleNow }, sampleRow2] := by
  refine ⟨(excel_replaces_only_file Entity.shipments sampleEnv sampleTable sampleNoFileReq).1
    rfl, ?_⟩
  obtain ⟨newName, _, h2, h3, _⟩ :=
    (excel_replaces_only_file Entity.shipments sampleEnv sampleTable sampleReplaceReq).2
      sampleFile rfl rfl
  rw [h3, h2 (Or.inl rfl)]
  rfl

/-- C18 as stated fails: a file-only replace whose body carries `file_name: "renamed.xlsx"`
stores that name, not the name "april.xlsx" of the uploaded file. -/
theorem excel_file_name_not_upload_name :
    ¬ (∀ r ∈ (putExcel Entity.shipments sampleEnv sampleTable sampleRenameReq).table.rows,
        r.id = sampleRenameReq.id → r.file_name = Val.str sampleFile.originalname) := by
  intro h
  have h1 := h { sampleRow1 with file_name := Val.str "renamed.xlsx",
                                 file_data := Val.buffer [80, 75, 7, 8],
                                 updated_at := Val.date sampleNow }
    (by decide) rfl
  revert h1
  decide

/-! ## Reachable states of a document table -/

@[simp]
theorem toSql_str (s : String) : toSql (Val.str s) = Val.str s := rfl

@[simp]
theorem toSql_buffer (b : Bytes) : toSql (Val.buffer b) = Val.buffer b := rfl

@[simp]
theorem toSql_num (n : Nat) : toSql (Val.num n) = Val.num n := rfl

theorem put_row_form (e : Entity) (now : Timestamp) (req : UpdateReq) (r : DocRow) :
    applySets now (buildUpdate e req).2 (buildUpdate e req).1.sets r =
      { r with
        updated_at := Val.date now,
        updated_by := toSql (fieldVal (jsOr req.createdBy req.updatedBy)),
        name := if truthy req.name then fieldVal req.name else r.name,
        description := if truthy req.description then fieldVal req.description
          else r.description,
        status := if truthy req.status then fieldVal req.status else r.status,
        file_name := match req.file with
          | some f => Val.str f.originalname
          | none => r.file_name,
        file_data := match req.file with
          | some f => Val.buffer f.buffer
          | none => r.file_data } := by
  rcases truthy_cases req.name with ⟨hn, pn⟩ | ⟨n, hn, vn, pn⟩ <;>
  rcases truthy_cases req.description with ⟨hd, pd⟩ | ⟨d, hd, vd, pd⟩ <;>
  rcases truthy_cases req.status with ⟨hs, ps⟩ | ⟨s, hs, vs, ps⟩ <;>
  cases hf : req.file <;>
  simp [buildUpdate, Builder.run, Builder.init, Builder.addField, Builder.addFile,
    applySets, evalRhs, param, DocRow.set, hn, hd, hs, hf, *]

theorem truthy_some (x : Option String) (h : truthy x = true) : ∃ s, x = some s ∧ s ≠ "" := by
  cases x with
  | none => simp [truthy] at h
  | some s => exact ⟨s, rfl, by simpa [truthy] using h⟩

theorem truthy_false (x : Option String) (h : truthy x = false) : x = none ∨ x = some "" := by
  cases x with
  | none => exact Or.inl rfl
  | some s =>
    right
    have : s = "" := by simpa [truthy] using h
    rw [this]

theorem fault_unchanged (e : Entity) (env : Env) (t : Table) (op : DocOp) (err : DbError)
    (h : env.fault = some err) : (op.handle e env t).table = t := by
  cases op with
  | create req =>
    simp only [DocOp.handle, postDocument, poolQuery, h]
    split <;> rfl
  | update req => simp [DocOp.handle, putDocument, poolQuery, h]
  | replaceFile req =>
    simp only [DocOp.handle, putExcel, poolQuery, h]
    split <;> rfl
  | delete id => simp [DocOp.handle, deleteDocument, poolQuery, h]

/-- The table after one operation: unchanged, or one of the four effects. -/
theorem handle_cases (e : Entity) (env : Env) (t : Table) (op : DocOp) :
    (op.handle e env t).table = t
    ∨ (∃ (req : CreateReq) (n c : String) (f : UploadedFile), op = DocOp.create req ∧ req.createdBy = some c ∧ c ≠ ""
        ∧ (op.handle e env t).table =
          { nextId := t.nextId + 1,
            rows := t.rows ++ [
              { id := t.nextId, name := Val.str n, description := orNull req.description,
                status := orIncomplete req.status,
                created_at := Val.date env.now, updated_at := Val.date env.now,
                created_by := Val.str c, updated_by := Val.str c,
                file_name := Val.str f.originalname, file_data := Val.buffer f.buffer }] })
    ∨ (∃ req, op = DocOp.update req
        ∧ (op.handle e env t).table = { t with rows := t.rows.map (fun r =>
            if r.id = req.id then
              applySets env.now (buildUpdate e req).2 (buildUpdate e req).1.sets r
            else r) })
    ∨ (∃ (req : ExcelReq) (f : UploadedFile), op = DocOp.replaceFile req
        ∧ (op.handle e env t).table = { t with rows := t.rows.map (fun r =>
            if r.id = req.id then
              { r with file_name := fieldVal (jsOr req.file_name (some f.originalname)),
                       file_data := Val.buffer f.buffer, updated_at := Val.date env.now }
            else r) })
    ∨ (∃ id, op = DocOp.delete id
        ∧ (op.handle e env t).table
          = { t with rows := t.rows.filter (fun r => decide (r.id ≠ id)) }) := by
  cases hx : env.fault with
  | some err => exact Or.inl (fault_unchanged e env t op err hx)
  | none =>
    cases op with
    | create req =>
      cases hn : truthy req.name with
      | false => left; simp [DocOp.handle, post_rejected e env t req (Or.inl hn)]
      | true =>
        cases hc : truthy req.createdBy with
        | false => left; simp [DocOp.handle, post_rejected e env t req (Or.inr (Or.inl hc))]
        | true =>
          cases hf : req.file with
          | none =>
            left; simp [DocOp.handle, post_rejected e env t req (Or.inr (Or.inr hf))]
          | some f =>
            obtain ⟨n, hn0, hn1⟩ := truthy_some _ hn
            obtain ⟨c, hc0, hc1⟩ := truthy_some _ hc
            right; left
            refine ⟨req, n, c, f, rfl, hc0, hc1, ?_⟩
            simp only [DocOp.handle]
            rw [post_accepted e env t req n c f hx hn0 hn1 hc0 hc1 hf]
    | update req =>
      right; right; left
      exact ⟨req, rfl, put_table e env t req hx⟩
    | replaceFile req =>
      cases hf : req.file with
      | none => left; simp [DocOp.handle, putExcel, hf]
      | some f =>
        right; right; right; left
        exact ⟨req, f, rfl, excel_outcome e env t req f hf hx⟩
    | delete id =>
      right; right; right; right
      exact ⟨id, rfl, (delete_outcome e env t id hx).1⟩

/-- C20: starting from an empty table, after any sequence of creates, partial updates,
file-only replaces and deletes (whether or not the store executes each statement), every row
has a text in `file_name` and bytes in `file_data`; neither is `NULL`. -/
theorem attachment_never_null (e : Entity) (n : Nat) (ops : List (Env × DocOp)) :
    ∀ r ∈ (runOps e (emptyTable n) ops).rows,
      ((∃ s, r.file_name = Val.str s) ∧ (∃ b, r.file_data = Val.buffer b))
      ∧ r.file_name ≠ Val.null ∧ r.file_data ≠ Val.null := by
  have step : ∀ (env : Env) (t : Table) (op : DocOp),
      (∀ r ∈ t.rows, (∃ s, r.file_name = Val.str s) ∧ (∃ b, r.file_data = Val.buffer b)) →
      ∀ r ∈ (op.handle e env t).table.rows,
        (∃ s, r.file_name = Val.str s) ∧ (∃ b, r.file_data = Val.buffer b) := by
    intro env t op ih
    rcases handle_cases e env t op with h | ⟨req, n, c, f, _, _, _, h⟩ | ⟨req, _, h⟩ |
      ⟨req, f, _, h⟩ | ⟨id, _, h⟩ <;> rw [h]
    · exact ih
    · intro r hr
      simp only [List.mem_append, List.mem_singleton] at hr
      rcases hr with hr | hr
      · exact ih r hr
      · rw [hr]; exact ⟨⟨_, rfl⟩, ⟨_, rfl⟩⟩
    · intro r hr
      simp only [List.mem_map] at hr
      obtain ⟨r0, hr0, hr⟩ := hr
      split at hr
      · rw [← hr, put_row_form]
        cases hf : req.file with
        | none => exact ih r0 hr0
        | some f => exact ⟨⟨_, rfl⟩, ⟨_, rfl⟩⟩
      · rw [← hr]; exact ih r0 hr0
    · intro r hr
      simp only [List.mem_map] at hr
      obtain ⟨r0, hr0, hr⟩ := hr
      split at hr
      · rw [← hr]
        obtain ⟨newName, hv, _, _⟩ := excel_name req.file_name f.originalname
        exact ⟨⟨newName, hv⟩, ⟨_, rfl⟩⟩
      · rw [← hr]; exact ih r0 hr0
    · intro r hr
      exact ih r (List.mem_filter.mp hr).1
  have inv : ∀ (ops : List (Env × DocOp)) (t : Table),
      (∀ r ∈ t.rows, (∃ s, r.file_name = Val.str s) ∧ (∃ b, r.file_data = Val.buffer b)) →
      ∀ r ∈ (runOps e t ops).rows,
        (∃ s, r.file_name = Val.str s) ∧ (∃ b, r.file_data = Val.buffer b) := by
    intro ops
    induction ops with
    | nil => intro t h; exact h
    | cons a rest ih =>
      intro t h
      obtain ⟨env, op⟩ := a
      exact ih _ (step env t op h)
  intro r hr
  have h := inv ops (emptyTable n) (by intro r hr; simp [emptyTable] at hr) r hr
  obtain ⟨⟨s, hs⟩, ⟨b, hb⟩⟩ := h
  refine ⟨⟨⟨s, hs⟩, ⟨b, hb⟩⟩, ?_, ?_⟩
  · rw [hs]; exact fun h => by cases h
  · rw [hb]; exact fun h => by cases h

/-- Witness of C20: the row left by a create and a file-only replace has its attachment. -/
theorem attachment_never_null_witness :
    sampleHistoryRow ∈ (runOps Entity.shipments (emptyTable 1) sampleHistory).rows
    ∧ sampleHistoryRow.file_name ≠ Val.null ∧ sampleHistoryRow.file_data ≠ Val.null :=
  ⟨by decide,
   (attachment_never_null Entity.shipments 1 sampleHistory sampleHistoryRow (by decide)).2⟩

/-! ## The acting user in `updated_by` -/

theorem mem_rowsOf (t : Table) (r : DocRow) (h : r ∈ t.rows) : r ∈ rowsOf r.id t := by
  unfold rowsOf
  rw [List.mem_filter]
  exact ⟨h, by simp⟩

theorem mem_of_rowsOf_eq (t t1 : Table) (r : DocRow) (h : r ∈ t1.rows)
    (heq : rowsOf r.id t = rowsOf r.id t1) : r ∈ t.rows := by
  have := mem_rowsOf t1 r h
  rw [← heq] at this
  exact (List.mem_filter.mp this).1

theorem rowsOf_map_other (t : Table) (f : DocRow → DocRow) (k id : Nat) (hid : id ≠ k)
    (hf : ∀ r, (f r).id = r.id) :
    rowsOf id { t with rows := t.rows.map (fun r => if r.id = k then f r else r) }
      = rowsOf id t := by
  unfold rowsOf
  simp only
  induction t.rows with
  | nil => rfl
  | cons a l ih =>
    simp only [List.map_cons, List.filter_cons]
    by_cases ha : a.id = k
    · have hk : ¬ k = id := fun h => hid h.symm
      simp [ha, hf, hk, ih]
    · simp only [ha, if_false]
      rw [ih]

theorem tracks_step (e : Entity) (env : Env) (t : Table) (op : DocOp)
    (g : Nat → Option String) (h : TracksUser t g) :
    TracksUser (op.handle e env t).table
      (fun id => if op.writesUser = true ∧ rowsOf id t ≠ rowsOf id (op.handle e env t).table
        then op.actingUser else g id) := by
  obtain ⟨hlt, hby⟩ := h
  -- a row whose rows-of-id did not change is an old row
  have old : ∀ r ∈ (op.handle e env t).table.rows,
      rowsOf r.id t = rowsOf r.id (op.handle e env t).table →
      ∀ u, g r.id = some u → r.updated_by = Val.str u := by
    intro r hr heq u hu
    exact hby r (mem_of_rowsOf_eq t _ r hr heq) u hu
  rcases handle_cases e env t op with h | ⟨req, n, c, f, hop, hc, _, h⟩ | ⟨req, hop, h⟩ |
    ⟨req, f, hop, h⟩ | ⟨id, hop, h⟩
  · -- unchanged
    rw [h]
    refine ⟨hlt, ?_⟩
    intro r hr u hu
    simp only [ne_eq, not_true_eq_false, and_false, if_false] at hu
    exact hby r hr u hu
  · -- create
    constructor
    · rw [h]
      intro r hr
      simp only [List.mem_append, List.mem_singleton] at hr
      rcases hr with hr | hr
      · exact Nat.lt_succ_of_lt (hlt r hr)
      · rw [hr]; exact Nat.lt_succ_self _
    · intro r hr u hu
      by_cases hch : rowsOf r.id t = rowsOf r.id (op.handle e env t).table
      · simp only [hch, ne_eq, not_true_eq_false, and_false, if_false] at hu
        exact old r hr hch u hu
      · have hw : op.writesUser = true := by rw [hop]; rfl
        simp only [hw, ne_eq, hch, not_false_eq_true, and_self, if_true] at hu
        rw [hop] at hu
        simp only [DocOp.actingUser, hc] at hu
        have huc : c = u := Option.some.inj hu
        rw [h] at hr hch
        simp only [List.mem_append, List.mem_singleton] at hr
        rcases hr with hr | hr
        · exfalso
          apply hch
          have hne : ¬ t.nextId = r.id := fun h2 => absurd (hlt r hr) (by omega)
          simp [rowsOf, List.filter_append, List.filter_cons, hne]
        · rw [hr, huc]
  · -- partial update
    constructor
    · rw [h]
      intro r hr
      simp only [List.mem_map] at hr
      obtain ⟨r0, hr0, hr⟩ := hr
      split at hr
      · rw [← hr, put_keeps_id]; exact hlt r0 hr0
      · rw [← hr]; exact hlt r0 hr0
    · intro r hr u hu
      by_cases hch : rowsOf r.id t = rowsOf r.id (op.handle e env t).table
      · simp only [hch, ne_eq, not_true_eq_false, and_false, if_false] at hu
        exact old r hr hch u hu
      · have hw : op.writesUser = true := by rw [hop]; rfl
        simp only [hw, ne_eq, hch, not_false_eq_true, and_self, if_true] at hu
        rw [hop] at hu
        simp only [DocOp.actingUser] at hu
        rw [h] at hr hch
        by_cases hid : r.id = req.id
        · simp only [List.mem_map] at hr
          obtain ⟨r0, _, hr⟩ := hr
          split at hr
          · rw [← hr, put_row_form, hu]
            rfl
          · rename_i hne
            rw [← hr] at hid
            exact absurd hid hne
        · exfalso
          apply hch
          exact (rowsOf_map_other t _ req.id r.id hid (put_keeps_id e env.now req)).symm
  · -- file-only replace
    have hw : op.writesUser = false := by rw [hop]; rfl
    constructor
    · rw [h]
      intro r hr
      simp only [List.mem_map] at hr
      obtain ⟨r0, hr0, hr⟩ := hr
      split at hr
      · rw [← hr]; exact hlt r0 hr0
      · rw [← hr]; exact hlt r0 hr0
    · intro r hr u hu
      simp only [hw, Bool.false_eq_true, false_and, if_false] at hu
      rw [h] at hr
      simp only [List.mem_map] at hr
      obtain ⟨r0, hr0, hr⟩ := hr
      split at hr
      · rw [← hr] at hu ⊢
        exact hby r0 hr0 u hu
      · rw [← hr] at hu ⊢
        exact hby r0 hr0 u hu
  · -- delete
    have hw : op.writesUser = false := by rw [hop]; rfl
    constructor
    · rw [h]
      intro r hr
      exact hlt r (List.mem_filter.mp hr).1
    · intro r hr u hu
      simp only [hw, Bool.false_eq_true, false_and, if_false] at hu
      rw [h] at hr
      exact hby r (List.mem_filter.mp hr).1 u hu

theorem tracks_run (e : Entity) :
    ∀ (ops : List (Env × DocOp)) (t : Table) (g : Nat → Option String), TracksUser t g →
      TracksUser (runOps e t ops) (Spec.lastWriterFrom e t g ops) := by
  intro ops
  induction ops with
  | nil => intro t g h; exact h
  | cons a rest ih =>
    intro t g h
    obtain ⟨env, op⟩ := a
    exact ih _ _ (tracks_step e env t op g h)

/-- C19, as the code has it: starting from an empty table, after any sequence of creates,
partial updates, file-only replaces and deletes, `updated_by` of every row is the acting user
named by the most recent create or partial update that mutated the row, when that request
names one.  A file-only replace mutates the row and leaves `updated_by` as it was. -/
theorem updated_by_is_last_writer (e : Entity) (n : Nat) (ops : List (Env × DocOp)) :
    ∀ r ∈ (runOps e (emptyTable n) ops).rows, ∀ u,
      Spec.lastWriterFrom e (emptyTable n) (fun _ => none) ops r.id = some u →
      r.updated_by = Val.str u := by
  have h0 : TracksUser (emptyTable n) (fun _ => none) := by
    constructor
    · intro r hr; simp [emptyTable] at hr
    · intro r hr; simp [emptyTable] at hr
  exact (tracks_run e ops (emptyTable n) (fun _ => none) h0).2

/-- Witness of C19: after bob's create and a file-only replace, the last writer of row 1 is bob
and `updated_by` is "bob". -/
theorem updated_by_is_last_writer_witness :
    sampleHistoryRow ∈ (runOps Entity.shipments (emptyTable 1) sampleHistory).rows
    ∧ Spec.lastWriterFrom Entity.shipments (emptyTable 1) (fun _ => none) sampleHistory 1
        = some "bob"
    ∧ sampleHistoryRow.updated_by = Val.str "bob" :=
  ⟨by decide, by decide,
   updated_by_is_last_writer Entity.shipments 1 sampleHistory sampleHistoryRow (by decide)
     "bob" (by decide)⟩

/-- C19 as stated fails: after bob's create, a file-only replace is the most recent operation
that mutated row 1; its request names no acting user, and `updated_by` of the row is still
"bob". -/
theorem updated_by_not_last_mutator :
    ¬ Spec.UpdatedByIsLastMutator Entity.shipments 1 sampleHistory := by
  intro h
  have h1 := h sampleHistoryRow (by decide)
  exact absurd h1 (by decide)

/-! ## Users -/

theorem roleAllowed_iff (role : Option String) :
    roleAllowed role = true ↔
      (role = some "admin" ∨ role = some "coordinator" ∨ role = some "driver") := by
  cases role with
  | none => simp [roleAllowed]
  | some r => simp [roleAllowed]

theorem updateRole_rows (t : UserTable) (role : Val) (id : Nat) :
    execUpdateRole t [role, Val.num id] = Except.ok
      ({ rows := (t.rows.filter (fun u => decide (u.id = id))).map
            (fun u => userPublicRow { u with role := toSql role }),
         rowCount := (t.rows.filter (fun u => decide (u.id = id))).length },
       { t with rows := t.rows.map (fun u =>
          if u.id = id then { u with role := toSql role } else u) }) := by
  have h2 : param [role, Val.num id] 2 = Val.num id := rfl
  have h1 : param [role, Val.num id] 1 = toSql role := rfl
  have hd : ∀ u : UserRow, (Val.num id = Val.num u.id) = (u.id = id) := by
    intro u
    apply propext
    constructor
    · intro h; injection h with h; exact h.symm
    · intro h; rw [h]
  simp only [execUpdateRole, h1, h2, hd]

/-- C13: a role update whose role is not exactly "admin", "coordinator" or "driver" (absent, or
in another letter case) is answered 400, sends no statement and leaves the table as it was.
With one of the three roles the handler sends exactly one statement, the `UPDATE` of `role`
for the addressed id, and when the store executes it only `role` of the users with that id
changes. -/
theorem role_update_validates (env : Env) (t : UserTable) (req : RoleReq) :
    (¬ (req.role = some "admin" ∨ req.role = some "coordinator" ∨ req.role = some "driver") →
        (patchRole env t req).response = ⟨400, errorBody "Invalid role"⟩
        ∧ (patchRole env t req).issued = []
        ∧ (patchRole env t req).table = t)
    ∧ (∀ r, req.role = some r → (r = "admin" ∨ r = "coordinator" ∨ r = "driver") →
        (patchRole env t req).issued =
          [⟨"UPDATE users SET role = $1 WHERE id = $2 RETURNING id, full_name, email, role",
            [Val.str r, Val.num req.id]⟩]
        ∧ (env.fault = none →
            (patchRole env t req).table.rows = t.rows.map (fun u =>
              if u.id = req.id then { u with role := Val.str r } else u))) := by
  constructor
  · intro h
    have : roleAllowed req.role = false := by
      rw [← Bool.not_eq_true, roleAllowed_iff]
      exact h
    simp [patchRole, this]
  · intro r hr hin
    have : roleAllowed req.role = true := by
      rw [roleAllowed_iff, hr]
      rcases hin with h | h | h <;> simp [h]
    rw [hr] at this
    constructor
    · simp only [patchRole, hr, this, fieldVal, Bool.not_true, Bool.false_eq_true, if_false]
      split
      · rfl
      · split <;> rfl
    · intro hx
      simp only [patchRole, hr, this, fieldVal, guarded, hx, updateRole_rows, Bool.not_true,
        Bool.false_eq_true, if_false, toSql_str]
      split <;> rfl

/-- Witness of C13: "Admin" is refused, "driver" gives one `UPDATE`. -/
theorem role_update_validates_witness :
    ((patchRole sampleEnv sampleUserTable sampleCaseRole).response
        = ⟨400, errorBody "Invalid role"⟩
      ∧ (patchRole sampleEnv sampleUserTable sampleCaseRole).issued = []
      ∧ (patchRole sampleEnv sampleUserTable sampleCaseRole).table = sampleUserTable)
    ∧ (patchRole sampleEnv sampleUserTable sampleDriverRole).issued =
        [⟨"UPDATE users SET role = $1 WHERE id = $2 RETURNING id, full_name, email, role",
          [Val.str "driver", Val.num 1]⟩] :=
  ⟨(role_update_validates sampleEnv sampleUserTable sampleCaseRole).1 (by decide),
   ((role_update_validates sampleEnv sampleUserTable sampleDriverRole).2 "driver" rfl
      (Or.inr (Or.inr rfl))).1⟩

theorem register_conflict (hash : String → String) (env : Env) (t : UserTable)
    (req : RegisterReq) (pw : String) (hpw : req.password = some pw)
    (hthrow : guarded env (execInsertUser t [fieldVal req.email, Val.str (hash pw),
      fieldVal req.role, fieldVal req.fullName]) = Except.error uniqueViolation) :
    (register hash env t req).response = ⟨400, messageBody "Email already exists"⟩
    ∧ (register hash env t req).table = t := by
  simp only [register, hpw, fieldVal, bcryptHash]
  simp only [fieldVal] at hthrow
  rw [hthrow]
  exact ⟨rfl, rfl⟩

/-- C12, as the code has it: a registration with a password whose email a user already has, so
that the store reports the unique-constraint violation 23505, is answered with status 400 and
the body `{message: "Email already exists"}`, and the `users` table is left as it was. -/
theorem register_duplicate_email (hash : String → String) (env : Env) (t : UserTable)
    (req : RegisterReq) (pw em : String) (hpw : req.password = some pw)
    (hem : req.email = some em) (hexec : env.fault = none)
    (hdup : ∃ u ∈ t.rows, u.email = Val.str em) :
    (register hash env t req).response = ⟨400, messageBody "Email already exists"⟩
    ∧ (register hash env t req).table = t := by
  apply register_conflict hash env t req pw hpw
  have hp : param [fieldVal req.email, Val.str (hash pw), fieldVal req.role,
      fieldVal req.fullName] 1 = Val.str em := by
    simp [param, hem, fieldVal]
  simp only [guarded, hexec, execInsertUser, hp]
  rw [if_pos]
  exact ⟨fun h => (by cases h), hdup⟩

/-- Witness of C12: a second registration of admin@example.com. -/
theorem register_duplicate_email_witness :
    (register sampleHash sampleEnv sampleUserTable sampleDuplicateReg).response
      = ⟨400, messageBody "Email already exists"⟩
    ∧ (register sampleHash sampleEnv sampleUserTable sampleDuplicateReg).table
      = sampleUserTable :=
  register_duplicate_email sampleHash sampleEnv sampleUserTable sampleDuplicateReg "secret"
    "admin@example.com" rfl rfl rfl ⟨_, List.mem_cons_self _ _, rfl⟩

/-- C12 as stated fails: the second registration of an email is answered with status 400, not
409. -/
theorem register_duplicate_not_409 :
    (∃ u ∈ sampleUserTable.rows, sampleDuplicateReg.email = some "admin@example.com"
        ∧ u.email = Val.str "admin@example.com")
    ∧ (register sampleHash sampleEnv sampleUserTable sampleDuplicateReg).response.status = 400
    ∧ (register sampleHash sampleEnv sampleUserTable sampleDuplicateReg).response.status
      ≠ 409 := by
  decide

theorem getUsers_response (env : Env) (t : UserTable) :
    (getUsers env t).response =
      match env.fault with
      | some _ => ⟨500, errorBody "Failed to fetch users"⟩
      | none => ⟨200, Body.arr (t.rows.map userPublicRow)⟩ := by
  cases h : env.fault <;> simp [getUsers, guarded, h, execSelectUsers]

theorem patchRole_response (env : Env) (t : UserTable) (req : RoleReq) :
    (patchRole env t req).response =
      if !roleAllowed req.role then ⟨400, errorBody "Invalid role"⟩
      else match env.fault with
        | some _ => ⟨500, errorBody "Database error"⟩
        | none =>
          if (t.rows.filter (fun u => decide (u.id = req.id))).length = 0 then
            ⟨404, errorBody "User not found"⟩
          else ⟨200, messageBody "Role updated successfully"⟩ := by
  unfold patchRole
  split
  · rfl
  · cases h : env.fault with
    | some err => simp [guarded, h]
    | none =>
      simp only [guarded, h, updateRole_rows]
      split <;> rfl

theorem deleteUser_response (env : Env) (t : UserTable) (id : Nat) :
    (deleteUser env t id).response =
      match env.fault with
      | some _ => ⟨500, errorBody "Database error"⟩
      | none =>
        if (t.rows.filter (fun u => decide (u.id = id))).length = 0 then
          ⟨404, errorBody "User not found"⟩
        else ⟨200, messageBody "User deleted successfully"⟩ := by
  have hd : ∀ u : UserRow, (param [Val.num id] 1 = Val.num u.id) = (u.id = id) := by
    intro u
    apply propext
    constructor
    · intro h
      have h1 : Val.num id = Val.num u.id := h
      injection h1 with h1
      exact h1.symm
    · intro h; rw [h]; rfl
  cases h : env.fault with
  | some err => simp [deleteUser, guarded, h]
  | none =>
    simp only [deleteUser, guarded, h, execDeleteUser, hd]
    split <;> rfl

theorem register_response (hash : String → String) (env : Env) (t : UserTable)
    (req : RegisterReq) :
    (register hash env t req).response =
      match req.password with
      | none => ⟨500, messageBody "Server error"⟩
      | some _ =>
        match env.fault with
        | some err =>
          if err.code = some "23505" then ⟨400, messageBody "Email already exists"⟩
          else ⟨500, messageBody "Server error"⟩
        | none =>
          if toSql (fieldVal req.email) ≠ Val.null
              ∧ ∃ u ∈ t.rows, u.email = toSql (fieldVal req.email) then
            ⟨400, messageBody "Email already exists"⟩
          else
            ⟨201, Body.obj [("user", Json1.obj [("id", Val.num t.nextId),
              ("email", toSql (fieldVal req.email)), ("role", toSql (fieldVal req.role)),
              ("full_name", toSql (fieldVal req.fullName))])]⟩ := by
  cases hp : req.password with
  | none => simp [register, hp, fieldVal, bcryptHash]
  | some pw =>
    cases h : env.fault with
    | some err =>
      simp only [register, hp, fieldVal, bcryptHash, guarded, h]
      split <;> rfl
    | none =>
      have h1 : ∀ a b c d : Val, param [a, b, c, d] 1 = toSql a := fun _ _ _ _ => rfl
      have h3 : ∀ a b c d : Val, param [a, b, c, d] 3 = toSql c := fun _ _ _ _ => rfl
      have h4 : ∀ a b c d : Val, param [a, b, c, d] 4 = toSql d := fun _ _ _ _ => rfl
      have hb : bcryptHash hash (fieldVal (some pw)) = Except.ok (Val.str (hash pw)) := rfl
      by_cases hc : toSql (fieldVal req.email) ≠ Val.null
          ∧ ∃ u ∈ t.rows, u.email = toSql (fieldVal req.email)
      · simp only [register, hp, hb, guarded, h, execInsertUser, h1, h3, h4, if_pos hc]
        simp [uniqueViolation]
      · simp only [register, hp, hb, guarded, h, execInsertUser, h1, h3, h4, if_neg hc]

theorem samePublic_rows (t t2 : UserTable) (h : SamePublic t t2) :
    t.rows.map userPublicRow = t2.rows.map userPublicRow := by
  have hg : ∀ rows : List UserRow, rows.map userPublicRow
      = (rows.map publicPart).map (fun p =>
          [("id", Val.num p.1), ("full_name", p.2.2.2), ("email", p.2.1),
           ("role", p.2.2.1)]) := by
    intro rows
    simp [List.map_map, Function.comp, userPublicRow, publicPart]
  rw [hg, hg, h.2]

theorem samePublic_count (t t2 : UserTable) (h : SamePublic t t2) (id : Nat) :
    (t.rows.filter (fun u => decide (u.id = id))).length
      = (t2.rows.filter (fun u => decide (u.id = id))).length := by
  have hg : ∀ rows : List UserRow, (rows.filter (fun u => decide (u.id = id))).length
      = ((rows.map publicPart).filter (fun p => decide (p.1 = id))).length := by
    intro rows
    rw [List.filter_map, List.length_map]
    rfl
  rw [hg, hg, h.2]

theorem samePublic_email (t t2 : UserTable) (h : SamePublic t t2) (v : Val) :
    (∃ u ∈ t.rows, u.email = v) ↔ (∃ u ∈ t2.rows, u.email = v) := by
  have hg : ∀ rows : List UserRow, (∃ u ∈ rows, u.email = v)
      ↔ (∃ p ∈ rows.map publicPart, p.2.1 = v) := by
    intro rows
    simp [publicPart]
  rw [hg, hg, h.2]

theorem login_cases (verdict : String → String → Bool) (env : Env) (users : List UserRow)
    (req : LoginReq) :
    login verdict env users req = ⟨500, loginBody false "Server error" (Json1.val Val.null)⟩
    ∨ login verdict env users req
        = ⟨401, loginBody false "Invalid credentials" (Json1.val Val.null)⟩
    ∨ ∃ u ∈ users, login verdict env users req
        = ⟨200, loginBody true "Login successful" (Json1.obj [("id", Val.num u.id),
            ("email", u.email), ("role", u.role), ("fullName", u.full_name)])⟩ := by
  unfold login
  split
  · exact Or.inl rfl
  · split
    · exact Or.inr (Or.inl rfl)
    · rename_i user rest hsel
      have hmem : user ∈ users := by
        have : user ∈ selectByEmail users (fieldVal req.email) := by
          rw [hsel]; exact List.mem_cons_self _ _
        exact (List.mem_filter.mp this).1
      split
      · exact Or.inl rfl
      · split
        · exact Or.inr (Or.inl rfl)
        · exact Or.inr (Or.inr ⟨user, hmem, rfl⟩)

/-- C11: no response of `GET /api/users`, of the role update, of the user delete, of register or
of login has a key `password`; the responses of the first four are the same on any table that
differs only in the stored passwords, and the response of register does not depend on the
password of the request; a login answers 500 or 401 with `user: null`, or 200 with a user object
of exactly `id`, `email`, `role` and `fullName` of a user of the table. -/
theorem users_responses_hide_password (verdict : String → String → Bool)
    (hash : String → String) (env : Env) (t : UserTable) (roleReq : RoleReq) (id : Nat)
    (regReq : RegisterReq) (loginReq : LoginReq) :
    ("password" ∉ (getUsers env t).response.body.allKeys
      ∧ "password" ∉ (patchRole env t roleReq).response.body.allKeys
      ∧ "password" ∉ (deleteUser env t id).response.body.allKeys
      ∧ "password" ∉ (register hash env t regReq).response.body.allKeys
      ∧ "password" ∉ (login verdict env t.rows loginReq).body.allKeys)
    ∧ (∀ t2, SamePublic t t2 →
        (getUsers env t2).response = (getUsers env t).response
        ∧ (patchRole env t2 roleReq).response = (patchRole env t roleReq).response
        ∧ (deleteUser env t2 id).response = (deleteUser env t id).response
        ∧ (register hash env t2 regReq).response = (register hash env t regReq).response)
    ∧ (∀ (hash2 : String → String) (p1 p2 : String),
        (register hash env t { regReq with password := some p1 }).response
          = (register hash2 env t { regReq with password := some p2 }).response)
    ∧ (login verdict env t.rows loginReq
          = ⟨500, loginBody false "Server error" (Json1.val Val.null)⟩
        ∨ login verdict env t.rows loginReq
          = ⟨401, loginBody false "Invalid credentials" (Json1.val Val.null)⟩
        ∨ ∃ u ∈ t.rows, login verdict env t.rows loginReq
          = ⟨200, loginBody true "Login successful" (Json1.obj [("id", Val.num u.id),
              ("email", u.email), ("role", u.role), ("fullName", u.full_name)])⟩) := by
  refine ⟨⟨?_, ?_, ?_, ?_, ?_⟩, ?_, ?_, login_cases verdict env t.rows loginReq⟩
  · rw [getUsers_response]
    cases env.fault <;> simp [Body.allKeys, errorBody, userPublicRow]
  · rw [patchRole_response]
    split
    · simp [Body.allKeys, errorBody]
    · cases env.fault
      · simp only
        split <;> simp [Body.allKeys, errorBody, messageBody]
      · simp [Body.allKeys, errorBody]
  · rw [deleteUser_response]
    cases env.fault
    · simp only
      split <;> simp [Body.allKeys, errorBody, messageBody]
    · simp [Body.allKeys, errorBody]
  · rw [register_response]
    cases regReq.password
    · simp [Body.allKeys, messageBody]
    · cases env.fault
      · simp only
        split <;> simp [Body.allKeys, messageBody]
      · simp only
        split <;> simp [Body.allKeys, messageBody]
  · rcases login_cases verdict env t.rows loginReq with h | h | ⟨u, _, h⟩ <;> rw [h] <;>
      simp [Body.allKeys, loginBody]
  · intro t2 h
    refine ⟨?_, ?_, ?_, ?_⟩
    · rw [getUsers_response, getUsers_response, samePublic_rows t t2 h]
    · rw [patchRole_response, patchRole_response, samePublic_count t t2 h]
    · rw [deleteUser_response, deleteUser_response, samePublic_count t t2 h]
    · rw [register_response, register_response, h.1]
      have := samePublic_email t t2 h (toSql (fieldVal regReq.email))
      simp only [this]
  · intro hash2 p1 p2
    rw [register_response, register_response]

/-- Witness of C11: the login of the admin with the right password is answered 200 with `id`,
`email`, `role` and `fullName`, and no response of the users endpoints on the sample table has
a key `password`. -/
theorem users_responses_hide_password_witness :
    login sampleVerdict sampleEnv sampleUserTable.rows sampleGoodLogin
      = ⟨200, loginBody true "Login successful" (Json1.obj [("id", Val.num 1),
          ("email", Val.str "admin@example.com"), ("role", Val.str "admin"),
          ("fullName", Val.str "Admin User")])⟩
    ∧ "password" ∉ (getUsers sampleEnv sampleUserTable).response.body.allKeys
    ∧ "password" ∉
        (login sampleVerdict sampleEnv sampleUserTable.rows sampleGoodLogin).body.allKeys
    ∧ SamePublic sampleUserTable sampleRehashed
    ∧ (getUsers sampleEnv sampleRehashed).response
        = (getUsers sampleEnv sampleUserTable).response :=
  ⟨by decide,
   (users_responses_hide_password sampleVerdict sampleHash sampleEnv sampleUserTable
      sampleDriverRole 1 sampleDuplicateReg sampleGoodLogin).1.1,
   (users_responses_hide_password sampleVerdict sampleHash sampleEnv sampleUserTable
      sampleDriverRole 1 sampleDuplicateReg sampleGoodLogin).1.2.2.2.2,
   ⟨rfl, rfl⟩,
   ((users_responses_hide_password sampleVerdict sampleHash sampleEnv sampleUserTable
      sampleDriverRole 1 sampleDuplicateReg sampleGoodLogin).2.1 sampleRehashed
        ⟨rfl, rfl⟩).1⟩

/-! ## Vehicles, routes and drivers -/

theorem truthy_of_some (x : Option String) (s : String) (h : x = some s) (hs : s ≠ "") :
    truthy x = true := by
  rw [h]; simp [truthy, hs]

theorem postVehicle_conflict (env : Env) (rows : List VehicleRow) (req : VehicleReq)
    (hid : truthy req.id = true) (hty : truthy req.type = true)
    (hpl : truthy req.plateNumber = true)
    (hthrow : guarded env (execInsertVehicle rows [fieldVal req.id, fieldVal req.type,
      fieldVal req.plateNumber, orActive req.status]) = Except.error uniqueViolation) :
    (postVehicle env rows req).response = ⟨409, errorBody "Vehicle ID already exists"⟩
    ∧ (postVehicle env rows req).table = rows := by
  simp only [postVehicle, hid, hty, hpl, hthrow]
  exact ⟨rfl, rfl⟩

theorem postRoute_conflict (env : Env) (rows : List RouteRow) (req : RouteReq)
    (hid : truthy req.id = true) (had : truthy req.address = true)
    (hdp : truthy req.dropPoint = true)
    (hthrow : guarded env (execInsertRoute rows [fieldVal req.id, fieldVal req.address,
      fieldVal req.dropPoint]) = Except.error uniqueViolation) :
    (postRoute env rows req).response = ⟨409, errorBody "Route code already exists"⟩
    ∧ (postRoute env rows req).table = rows := by
  simp only [postRoute, hid, had, hdp, hthrow]
  exact ⟨rfl, rfl⟩

/-- C14: a create of a vehicle, or of a route, that passes the validation and whose id a row
already has, so that the store reports the unique-constraint violation 23505, is answered 409
with a JSON `error` body, and the table is left as it was. -/
theorem duplicate_id_is_conflict (env : Env) (hexec : env.fault = none) :
    (∀ (rows : List VehicleRow) (req : VehicleReq) (id ty pl : String),
        req.id = some id → id ≠ "" → req.type = some ty → ty ≠ "" →
        req.plateNumber = some pl → pl ≠ "" →
        (∃ v ∈ rows, v.id = Val.str id) →
        (postVehicle env rows req).response = ⟨409, errorBody "Vehicle ID already exists"⟩
        ∧ (postVehicle env rows req).table = rows)
    ∧ (∀ (rows : List RouteRow) (req : RouteReq) (id ad dp : String),
        req.id = some id → id ≠ "" → req.address = some ad → ad ≠ "" →
        req.dropPoint = some dp → dp ≠ "" →
        (∃ v ∈ rows, v.id = Val.str id) →
        (postRoute env rows req).response = ⟨409, errorBody "Route code already exists"⟩
        ∧ (postRoute env rows req).table = rows) := by
  constructor
  · intro rows req id ty pl hid hid1 hty hty1 hpl hpl1 hdup
    apply postVehicle_conflict env rows req (truthy_of_some _ _ hid hid1)
      (truthy_of_some _ _ hty hty1) (truthy_of_some _ _ hpl hpl1)
    have hp : param [fieldVal req.id, fieldVal req.type, fieldVal req.plateNumber,
        orActive req.status] 1 = Val.str id := by
      simp [param, hid, fieldVal]
    simp only [guarded, hexec, execInsertVehicle, hp]
    rw [if_pos hdup]
  · intro rows req id ad dp hid hid1 had had1 hdp hdp1 hdup
    apply postRoute_conflict env rows req (truthy_of_some _ _ hid hid1)
      (truthy_of_some _ _ had had1) (truthy_of_some _ _ hdp hdp1)
    have hp : param [fieldVal req.id, fieldVal req.address, fieldVal req.dropPoint] 1
        = Val.str id := by
      simp [param, hid, fieldVal]
    simp only [guarded, hexec, execInsertRoute, hp]
    rw [if_pos hdup]

/-- Witness of C14: a second vehicle "V1" and a second route "R1". -/
theorem duplicate_id_is_conflict_witness :
    ((postVehicle sampleEnv sampleVehicles sampleVehicleReq).response
        = ⟨409, errorBody "Vehicle ID already exists"⟩
      ∧ (postVehicle sampleEnv sampleVehicles sampleVehicleReq).table = sampleVehicles)
    ∧ ((postRoute sampleEnv sampleRoutes sampleRouteReq).response
        = ⟨409, errorBody "Route code already exists"⟩
      ∧ (postRoute sampleEnv sampleRoutes sampleRouteReq).table = sampleRoutes) :=
  ⟨(duplicate_id_is_conflict sampleEnv rfl).1 sampleVehicles sampleVehicleReq "V1" "Van"
      "XYZ-5678" rfl (by decide) rfl (by decide) rfl (by decide)
      ⟨_, List.mem_cons_self _ _, rfl⟩,
   (duplicate_id_is_conflict sampleEnv rfl).2 sampleRoutes sampleRouteReq "R1" "7 Mill Lane"
      "Bay 2" rfl (by decide) rfl (by decide) rfl (by decide)
      ⟨_, List.mem_cons_self _ _, rfl⟩⟩

/-- The creates of vehicles and routes validate: a request that lacks `id`, `type` or
`plateNumber` (vehicle), or `id`, `address` or `dropPoint` (route), is answered 400, sends no
statement and leaves the table as it was. -/
theorem vehicle_route_create_validates (env : Env) :
    (∀ (rows : List VehicleRow) (req : VehicleReq),
        (truthy req.id = false ∨ truthy req.type = false ∨ truthy req.plateNumber = false) →
        (postVehicle env rows req).response = ⟨400, errorBody "Missing required fields"⟩
        ∧ (postVehicle env rows req).issued = []
        ∧ (postVehicle env rows req).table = rows)
    ∧ (∀ (rows : List RouteRow) (req : RouteReq),
        (truthy req.id = false ∨ truthy req.address = false ∨ truthy req.dropPoint = false) →
        (postRoute env rows req).response = ⟨400, errorBody "Missing required fields"⟩
        ∧ (postRoute env rows req).issued = []
        ∧ (postRoute env rows req).table = rows) := by
  constructor
  · intro rows req h
    have hc : (!truthy req.id || !truthy req.type || !truthy req.plateNumber) = true := by
      rcases h with h | h | h <;> simp [h]
    simp [postVehicle, hc]
  · intro rows req h
    have hc : (!truthy req.id || !truthy req.address || !truthy req.dropPoint) = true := by
      rcases h with h | h | h <;> simp [h]
    simp [postRoute, hc]

/-- C15, evaluated at a driver without any field: `POST /api/drivers` with the body `{}` is not
answered 400.  The handler sends the `INSERT` with four `undefined` values, the store executes
it, a row of `NULL`s is written and the answer is 201. -/
theorem driver_create_without_fields_writes :
    (postDriver sampleEnv sampleDrivers sampleEmptyDriverReq).response.status = 201
    ∧ ((postDriver sampleEnv sampleDrivers sampleEmptyDriverReq).issued.map Sent.values)
        = [[Val.undefined, Val.undefined, Val.undefined, Val.undefined]]
    ∧ (postDriver sampleEnv sampleDrivers sampleEmptyDriverReq).table.rows
        = sampleDrivers.rows ++
            [{ id := 2, name := Val.null, license_number := Val.null,
               vehicle_assigned := Val.null, status := Val.null }] := by
  decide

theorem postDriver_outcome (env : Env) (t : DriverTable) (req : DriverReq)
    (hexec : env.fault = none) :
    (postDriver env t req).response = ⟨201, rowBody (driverRow
        { id := t.nextId, name := toSql (fieldVal req.name),
          license_number := toSql (fieldVal req.licenseNumber),
          vehicle_assigned := toSql (fieldVal req.vehicleAssigned),
          status := toSql (fieldVal req.status) })⟩
    ∧ (postDriver env t req).table =
        { nextId := t.nextId + 1,
          rows := t.rows ++ [
            { id := t.nextId, name := toSql (fieldVal req.name),
              license_number := toSql (fieldVal req.licenseNumber),
              vehicle_assigned := toSql (fieldVal req.vehicleAssigned),
              status := toSql (fieldVal req.status) }] } := by
  have h1 : ∀ a b c d : Val, param [a, b, c, d] 1 = toSql a := fun _ _ _ _ => rfl
  have h2 : ∀ a b c d : Val, param [a, b, c, d] 2 = toSql b := fun _ _ _ _ => rfl
  have h3 : ∀ a b c d : Val, param [a, b, c, d] 3 = toSql c := fun _ _ _ _ => rfl
  have h4 : ∀ a b c d : Val, param [a, b, c, d] 4 = toSql d := fun _ _ _ _ => rfl
  simp [postDriver, guarded, hexec, execInsertDriver, h1, h2, h3, h4]

theorem getDrivers_response (env : Env) (t : DriverTable) (hexec : env.fault = none) :
    (getDrivers env t).response
      = ⟨200, Body.arr ((t.rows.insertionSort driverIdAsc).map driverRow)⟩ := by
  simp [getDrivers, guarded, hexec, execSelectDrivers]

/-- C16: a driver create with the four fields that the store executes is answered 201 with
`name`, `licenseNumber`, `vehicleAssigned` and `status` of the request and the `id` that the
sequence generated; a subsequent `GET /api/drivers` that the store executes answers with the
rows of the table, each once, the created row among them, in ascending order of `id`. -/
theorem driver_create_then_list (env env2 : Env) (t : DriverTable) (req : DriverReq)
    (n l v s : String) (hexec : env.fault = none) (hexec2 : env2.fault = none)
    (hn : req.name = some n) (hl : req.licenseNumber = some l)
    (hv : req.vehicleAssigned = some v) (hs : req.status = some s) :
    (postDriver env t req).response = ⟨201, Body.obj
        [("id", Json1.val (Val.num t.nextId)), ("name", Json1.val (Val.str n)),
         ("licenseNumber", Json1.val (Val.str l)), ("vehicleAssigned", Json1.val (Val.str v)),
         ("status", Json1.val (Val.str s))]⟩
    ∧ ∃ listed : List DriverRow,
        (getDrivers env2 (postDriver env t req).table).response
          = ⟨200, Body.arr (listed.map driverRow)⟩
        ∧ listed.Perm (t.rows ++
            [{ id := t.nextId, name := Val.str n, license_number := Val.str l,
               vehicle_assigned := Val.str v, status := Val.str s }])
        ∧ listed.Pairwise (fun a b => a.id ≤ b.id)
        ∧ [("id", Val.num t.nextId), ("name", Val.str n), ("licenseNumber", Val.str l),
           ("vehicleAssigned", Val.str v), ("status", Val.str s)] ∈ listed.map driverRow := by
  obtain ⟨hr, ht⟩ := postDriver_outcome env t req hexec
  simp only [hn, hl, hv, hs, fieldVal, toSql_str] at hr ht
  refine ⟨hr, (((postDriver env t req).table).rows.insertionSort driverIdAsc), ?_, ?_, ?_, ?_⟩
  · exact getDrivers_response env2 _ hexec2
  · have := List.perm_insertionSort driverIdAsc (postDriver env t req).table.rows
    rw [ht] at this
    rw [ht]
    exact this
  · haveI : IsTotal DriverRow driverIdAsc := ⟨fun a b => Nat.le_total a.id b.id⟩
    haveI : IsTrans DriverRow driverIdAsc := ⟨fun a b c hab hbc => Nat.le_trans hab hbc⟩
    exact List.sorted_insertionSort driverIdAsc _
  · rw [List.mem_map]
    refine ⟨{ id := t.nextId, name := Val.str n, license_number := Val.str l,
              vehicle_assigned := Val.str v, status := Val.str s }, ?_, rfl⟩
    rw [(List.perm_insertionSort driverIdAsc _).mem_iff, ht]
    simp

/-- Witness of C16: the end-to-end scenario of the specification on the sample table. -/
theorem driver_create_then_list_witness :
    (postDriver sampleEnv sampleDrivers sampleDriverReq).response = ⟨201, Body.obj
        [("id", Json1.val (Val.num 2)), ("name", Json1.val (Val.str "Alex Turner")),
         ("licenseNumber", Json1.val (Val.str "D12345")),
         ("vehicleAssigned", Json1.val (Val.str "Truck 1")),
         ("status", Json1.val (Val.str "Active"))]⟩
    ∧ ∃ listed : List DriverRow,
        (getDrivers sampleEnv (postDriver sampleEnv sampleDrivers sampleDriverReq).table).response
          = ⟨200, Body.arr (listed.map driverRow)⟩
        ∧ listed.Pairwise (fun a b => a.id ≤ b.id)
        ∧ [("id", Val.num 2), ("name", Val.str "Alex Turner"),
           ("licenseNumber", Val.str "D12345"), ("vehicleAssigned", Val.str "Truck 1"),
           ("status", Val.str "Active")] ∈ listed.map driverRow := by
  obtain ⟨h1, listed, h2, _, h4, h5⟩ :=
    driver_create_then_list sampleEnv sampleEnv sampleDrivers sampleDriverReq "Alex Turner"
      "D12345" "Truck 1" "Active" rfl rfl rfl rfl rfl rfl
  exact ⟨h1, listed, h2, h4, h5⟩

/-! ## The list of a document entity -/

theorem digitChar_isDigit (d : Nat) (h : d < 10) : (Nat.digitChar d).isDigit = true := by
  interval_cases d <;> decide

theorem toDigitsCore_isDigit :
    ∀ (fuel n : Nat) (ds : List Char), (∀ c ∈ ds, c.isDigit = true) →
      ∀ c ∈ Nat.toDigitsCore 10 fuel n ds, c.isDigit = true := by
  intro fuel
  induction fuel with
  | zero => intro n ds h; simpa [Nat.toDigitsCore] using h
  | succ f ih =>
    intro n ds h
    have hd : (Nat.digitChar (n % 10)).isDigit = true :=
      digitChar_isDigit _ (Nat.mod_lt n (by decide))
    have hcons : ∀ c ∈ Nat.digitChar (n % 10) :: ds, c.isDigit = true := by
      intro c hc
      rcases List.mem_cons.mp hc with hc | hc
      · rw [hc]; exact hd
      · exact h c hc
    simp only [Nat.toDigitsCore]
    split
    · exact hcons
    · exact ih _ _ hcons

theorem toString_isDigit (n : Nat) : ∀ c ∈ (toString n).data, c.isDigit = true := by
  have : (toString n).data = Nat.toDigits 10 n := rfl
  rw [this]
  exact toDigitsCore_isDigit _ _ _ (by intro c hc; cases hc)

theorem padZero_length (w n : Nat) (hw : 0 < w) (h : n < 10 ^ w) :
    (padZero w n).length = w := by
  have hl : (toString n).length ≤ w := Nat.repr_length n w hw h
  simp only [padZero, String.length_append, String.length_mk, List.length_replicate]
  omega

theorem padZero_isDigit (w n : Nat) : ∀ c ∈ (padZero w n).data, c.isDigit = true := by
  intro c hc
  simp only [padZero, String.data_append, List.mem_append] at hc
  rcases hc with hc | hc
  · have : c = '0' := List.eq_of_mem_replicate hc
    rw [this]; decide
  · exact toString_isDigit n c hc

theorem toCharDate_text (ts : Timestamp) (hy : ts.year < 10000) (hm : ts.month < 13)
    (hd : ts.day < 32) :
    ∃ s, toCharDate (Val.date ts) = Val.str s ∧ Spec.IsDateText s := by
  refine ⟨_, rfl, padZero 4 ts.year, padZero 2 ts.month, padZero 2 ts.day, rfl,
    padZero_length 4 _ (by decide) (by omega), padZero_length 2 _ (by decide) (by omega),
    padZero_length 2 _ (by decide) (by omega), ?_⟩
  intro c hc
  simp only [List.mem_append] at hc
  rcases hc with (hc | hc) | hc
  · exact padZero_isDigit _ _ c hc
  · exact padZero_isDigit _ _ c hc
  · exact padZero_isDigit _ _ c hc

/-- C17: when the store executes the statement and the ids of the table are pairwise distinct (`id`
is the key), the list answers 200 with the rows of the table, each exactly once, in strictly
descending order of `id`.  In each listed row `createdAt` and `updatedAt` are the renderings
of `created_at` and `updated_at`; for a timestamp of a year below 10000 the rendering is a
text `YYYY-MM-DD`, and it is the same for every time of day. -/
theorem list_all_rows_desc_dates (e : Entity) (env : Env) (t : Table)
    (hexec : env.fault = none) (hkey : (t.rows.map DocRow.id).Nodup) :
    ∃ listed : List DocRow,
      (listDocuments e env t).response = ⟨200, Body.arr (listed.map listRow)⟩
      ∧ listed.Perm t.rows
      ∧ listed.Pairwise (fun a b => b.id < a.id)
      ∧ (∀ r ∈ listed,
          ("createdAt", toCharDate r.created_at) ∈ listRow r
          ∧ ("updatedAt", toCharDate r.updated_at) ∈ listRow r
          ∧ ("created_at", r.created_at) ∉ listRow r
          ∧ ("updated_at", r.updated_at) ∉ listRow r)
      ∧ (∀ ts : Timestamp, ts.year < 10000 → ts.month < 13 → ts.day < 32 →
          (∃ s, toCharDate (Val.date ts) = Val.str s ∧ Spec.IsDateText s)
          ∧ ∀ sec, toCharDate (Val.date { ts with secondOfDay := sec })
              = toCharDate (Val.date ts)) := by
  refine ⟨t.rows.insertionSort idDesc, list_response e env t hexec,
    List.perm_insertionSort idDesc t.rows, ?_, ?_, ?_⟩
  · haveI : IsTotal DocRow idDesc := ⟨fun a b => Nat.le_total b.id a.id⟩
    haveI : IsTrans DocRow idDesc := ⟨fun a b c hab hbc => Nat.le_trans hbc hab⟩
    have hs : (t.rows.insertionSort idDesc).Pairwise idDesc :=
      List.sorted_insertionSort idDesc t.rows
    have hn : ((t.rows.insertionSort idDesc).map DocRow.id).Nodup :=
      ((List.perm_insertionSort idDesc t.rows).map DocRow.id).nodup_iff.mpr hkey
    have hne : (t.rows.insertionSort idDesc).Pairwise (fun a b => a.id ≠ b.id) := by
      rw [List.Nodup, List.pairwise_map] at hn
      exact hn
    exact (hs.and hne).imp (fun ⟨h1, h2⟩ => Nat.lt_of_le_of_ne h1 (fun h => h2 h.symm))
  · intro r _
    refine ⟨by simp [listRow], by simp [listRow], by simp [listRow], by simp [listRow]⟩
  · intro ts hy hm hd
    exact ⟨toCharDate_text ts hy hm hd, fun _ => rfl⟩

/-- Witness of C17 on the sample table: row 2 is listed before row 1, with `2025-03-07` as
`createdAt`. -/
theorem list_all_rows_desc_dates_witness :
    (listDocuments Entity.shipments sampleEnv sampleTable).response
      = ⟨200, Body.arr [listRow sampleRow2, listRow sampleRow1]⟩
    ∧ ("createdAt", Val.str "2025-03-07") ∈ listRow sampleRow2
    ∧ ∃ listed : List DocRow,
        (listDocuments Entity.shipments sampleEnv sampleTable).response
          = ⟨200, Body.arr (listed.map listRow)⟩
        ∧ listed.Perm sampleTable.rows
        ∧ listed.Pairwise (fun a b => b.id < a.id) := by
  obtain ⟨listed, h1, h2, h3, _⟩ :=
    list_all_rows_desc_dates Entity.shipments sampleEnv sampleTable rfl (by decide)
  exact ⟨by decide, by decide, listed, h1, h2, h3⟩

/-! ## Active vehicles -/

/-- C24: when the store executes the statement, `GET /api/vehicles-drivers` answers 200 with
`id`, `type` and `plate_number` of exactly the vehicles whose `status` is "Active", in the
order of the table: every such vehicle is listed, and every listed row comes from such a
vehicle. -/
theorem active_vehicles_only (env : Env) (rows : List VehicleRow) (hexec : env.fault = none) :
    (getVehiclesDrivers env rows).response = ⟨200, Body.arr
        ((rows.filter (fun v => decide (v.status = Val.str "Active"))).map (fun v =>
          [("id", v.id), ("type", v.type), ("plate_number", v.plate_number)]))⟩
    ∧ ∃ listed, (getVehiclesDrivers env rows).response = ⟨200, Body.arr listed⟩
        ∧ (∀ v ∈ rows, v.status = Val.str "Active" →
            [("id", v.id), ("type", v.type), ("plate_number", v.plate_number)] ∈ listed)
        ∧ (∀ row ∈ listed, ∃ v ∈ rows, v.status = Val.str "Active"
            ∧ row = [("id", v.id), ("type", v.type), ("plate_number", v.plate_number)]) := by
  have hp : param [Val.str "Active"] 1 = Val.str "Active" := rfl
  have hf : (fun v : VehicleRow => decide (Val.str "Active" ≠ Val.null
      ∧ v.status = Val.str "Active")) = (fun v => decide (v.status = Val.str "Active")) := by
    funext v
    have : Val.str "Active" ≠ Val.null := fun h => by cases h
    simp [this]
  have hr : (getVehiclesDrivers env rows).response = ⟨200, Body.arr
      ((rows.filter (fun v => decide (v.status = Val.str "Active"))).map (fun v =>
        [("id", v.id), ("type", v.type), ("plate_number", v.plate_number)]))⟩ := by
    simp only [getVehiclesDrivers, guarded, hexec, execSelectByStatus, hp, hf]
  refine ⟨hr, _, hr, ?_, ?_⟩
  · intro v hv hs
    rw [List.mem_map]
    exact ⟨v, List.mem_filter.mpr ⟨hv, by simp [hs]⟩, rfl⟩
  · intro row hrow
    rw [List.mem_map] at hrow
    obtain ⟨v, hv, hrow⟩ := hrow
    rw [List.mem_filter] at hv
    exact ⟨v, hv.1, by simpa using hv.2, hrow.symm⟩

/-- Witness of C24: of the three sample vehicles only "V1" is "Active". -/
theorem active_vehicles_only_witness :
    (getVehiclesDrivers sampleEnv sampleFleet).response = ⟨200, Body.arr
      [[("id", Val.str "V1"), ("type", Val.str "Truck"),
        ("plate_number", Val.str "ABC-1234")]]⟩ :=
  (active_vehicles_only sampleEnv sampleFleet rfl).1

/-! ## The acting user and the time of a partial update -/

/-- C26: after a partial update that the store executes, every row of the addressed id has
`updated_at = NOW()` and `updated_by` = the `createdBy` of the request when that is a non-empty
string, and otherwise the `updatedBy` of the request (`NULL` when the request has none),
whatever optional fields the request carries; and the update of an existing row is answered
200. -/
theorem put_sets_actor_and_time (e : Entity) (env : Env) (t : Table) (req : UpdateReq)
    (hexec : env.fault = none) :
    (∀ r ∈ (putDocument e env t req).table.rows, r.id = req.id →
        r.updated_at = Val.date env.now
        ∧ (∀ c, req.createdBy = some c → c ≠ "" → r.updated_by = Val.str c)
        ∧ ((req.createdBy = none ∨ req.createdBy = some "") →
            (∀ u, req.updatedBy = some u → r.updated_by = Val.str u)
            ∧ (req.updatedBy = none → r.updated_by = Val.null)))
    ∧ ((∃ r ∈ t.rows, r.id = req.id) → (putDocument e env t req).response.status = 200) := by
  constructor
  · intro r hr hid
    rw [put_table e env t req hexec] at hr
    simp only [List.mem_map] at hr
    obtain ⟨r0, _, hr0⟩ := hr
    split at hr0
    · rw [← hr0, put_row_form]
      refine ⟨rfl, ?_, ?_⟩
      · intro c hc hc1
        simp [jsOr, hc, truthy, hc1, fieldVal]
      · intro h
        have hj : jsOr req.createdBy req.updatedBy = req.updatedBy := by
          rcases h with h | h <;> simp [jsOr, h, truthy]
        constructor
        · intro u hu
          show toSql (fieldVal (jsOr req.createdBy req.updatedBy)) = Val.str u
          rw [hj, hu]
          rfl
        · intro hu
          show toSql (fieldVal (jsOr req.createdBy req.updatedBy)) = Val.null
          rw [hj, hu]
          rfl
    · rename_i hne
      rw [← hr0] at hid
      exact absurd hid hne
  · intro h
    obtain ⟨a, l, hfl, _, _⟩ := filter_id_ne_nil t.rows req.id h
    rw [put_response e env t req hexec, hfl]

/-- Witness of C26: the sample update names bob in `updatedBy` only. -/
theorem put_sets_actor_and_time_witness :
    ({ sampleRow1 with status := Val.str "completed", updated_at := Val.date sampleNow,
                       updated_by := Val.str "bob" } : DocRow)
      ∈ (putDocument Entity.shipments sampleEnv sampleTable sampleStatusReq).table.rows
    ∧ (putDocument Entity.shipments sampleEnv sampleTable sampleStatusReq).response.status = 200
    ∧ (∀ r ∈ (putDocument Entity.shipments sampleEnv sampleTable sampleStatusReq).table.rows,
        r.id = 1 → r.updated_at = Val.date sampleNow ∧ r.updated_by = Val.str "bob") :=
  ⟨by decide,
   (put_sets_actor_and_time Entity.shipments sampleEnv sampleTable sampleStatusReq rfl).2
     ⟨sampleRow1, List.mem_cons_self _ _, rfl⟩,
   fun r hr hid =>
     ⟨((put_sets_actor_and_time Entity.shipments sampleEnv sampleTable sampleStatusReq rfl).1
        r hr hid).1,
      (((put_sets_actor_and_time Entity.shipments sampleEnv sampleTable sampleStatusReq rfl).1
        r hr hid).2.2 (Or.inl rfl)).1 "bob" rfl⟩⟩

/-! ## The text of the built statement -/

theorem run_same_parts (e1 e2 : Entity) (req : UpdateReq) :
    (Builder.run e1 req).sets = (Builder.run e2 req).sets
    ∧ (Builder.run e1 req).values = (Builder.run e2 req).values
    ∧ (Builder.run e1 req).paramCounter = (Builder.run e2 req).paramCounter := by
  unfold Builder.run
  cases req.file <;> cases truthy req.name <;> cases truthy req.description <;>
    cases truthy req.status <;>
    simp [Builder.init, Builder.addField, Builder.addFile]

theorem build_pattern (e : Entity) (req : UpdateReq) :
    (buildUpdate e req).1.text
        = (buildUpdate e (patternReq (truthy req.name) (truthy req.description)
            (truthy req.status) req.file.isSome)).1.text
    ∧ (buildUpdate e req).1.sets
        = (buildUpdate e (patternReq (truthy req.name) (truthy req.description)
            (truthy req.status) req.file.isSome)).1.sets
    ∧ (buildUpdate e req).1.whereParam
        = (buildUpdate e (patternReq (truthy req.name) (truthy req.description)
            (truthy req.status) req.file.isSome)).1.whereParam
    ∧ (buildUpdate e req).2.length
        = (buildUpdate e (patternReq (truthy req.name) (truthy req.description)
            (truthy req.status) req.file.isSome)).2.length := by
  have t0 : truthy none = false := rfl
  have t1 : truthy (some "n") = true := by decide
  have t2 : truthy (some "d") = true := by decide
  have t3 : truthy (some "s") = true := by decide
  cases hf : req.file <;> cases hn : truthy req.name <;> cases hd : truthy req.description <;>
    cases hs : truthy req.status <;>
    simp [buildUpdate, Builder.run, Builder.init, Builder.addField, Builder.addFile,
      patternReq, hf, hn, hd, hs, t0, t1, t2, t3]

theorem pattern_text (e : Entity) (n d s f : Bool) :
    placeholders (buildUpdate e (patternReq n d s f)).1.text
        = List.range' 1 (buildUpdate e (patternReq n d s f)).2.length
    ∧ boundColumns (sqlWords (buildUpdate e (patternReq n d s f)).1.text)
        = setPairs (buildUpdate e (patternReq n d s f)).1.sets
            ++ [("id", (buildUpdate e (patternReq n d s f)).1.whereParam)] := by
  cases e <;> cases n <;> cases d <;> cases s <;> cases f <;> decide

/-- C28: the text of the statement of a partial update depends only on which of name,
description and status are non-empty and on whether a file is attached: two requests with the
same pattern give the same text, whatever their contents, ids and acting users are.  The
contents are sent as the bound values. -/
theorem text_depends_on_presence_only (e : Entity) (req1 req2 : UpdateReq)
    (hn : truthy req1.name = truthy req2.name)
    (hd : truthy req1.description = truthy req2.description)
    (hs : truthy req1.status = truthy req2.status)
    (hf : req1.file.isSome = req2.file.isSome) :
    (buildUpdate e req1).1.text = (buildUpdate e req2).1.text := by
  rw [(build_pattern e req1).1, (build_pattern e req2).1, hn, hd, hs, hf]

/-- Witness of C28: two updates of different rows by different users with different statuses. -/
theorem text_depends_on_presence_only_witness :
    (buildUpdate Entity.shipments sampleStatusReq).1.text
      = (buildUpdate Entity.shipments
          { sampleMissingReq with status := some "cancelled", createdBy := some "eve" }).1.text :=
  text_depends_on_presence_only Entity.shipments sampleStatusReq
    { sampleMissingReq with status := some "cancelled", createdBy := some "eve" }
    rfl rfl (by decide) rfl

/-- C25: for one request the seven partial-update handlers build texts that are
`"\n      UPDATE "`, the table name of the entity, and a rest that is the same for all
entities; they bind the same values; and on the same store they answer with the same status,
which is 500 when the store throws, 404 when the result has no row and 200 otherwise, and
leave the same table. -/
theorem partial_update_same_up_to_table (env : Env) (t : Table) (req : UpdateReq) :
    (∃ rest : String, ∀ e : Entity,
        (buildUpdate e req).1.text = "\n      UPDATE " ++ e.table ++ rest)
    ∧ (∀ e1 e2 : Entity, (buildUpdate e1 req).2 = (buildUpdate e2 req).2)
    ∧ (∀ e : Entity, (putDocument e env t req).response.status =
        match poolQuery env t (Stmt.update (buildUpdate e req).1 (buildUpdate e req).2) with
        | Except.error _ => 500
        | Except.ok (result, _) => if result.rows.length = 0 then 404 else 200)
    ∧ (∀ e1 e2 : Entity,
        (putDocument e1 env t req).response.status = (putDocument e2 env t req).response.status
        ∧ (putDocument e1 env t req).table = (putDocument e2 env t req).table) := by
  refine ⟨?_, ?_, ?_, ?_⟩
  · cases hf : req.file <;> cases hn : truthy req.name <;>
      cases hd : truthy req.description <;> cases hs : truthy req.status <;>
      exact ⟨_, fun e => by
        simp only [buildUpdate, Builder.run, Builder.init, Builder.addField, Builder.addFile,
          hf, hn, hd, hs, String.append_assoc, Bool.false_eq_true, if_false, if_true]
        rfl⟩
  · intro e1 e2
    simp only [buildUpdate, (run_same_parts e1 e2 req).2.1]
  · intro e
    simp only [putDocument]
    split
    · rfl
    · rename_i result t1 _
      cases h : result.rows <;> simp
  · intro e1 e2
    have hq : poolQuery env t (Stmt.update (buildUpdate e1 req).1 (buildUpdate e1 req).2)
        = poolQuery env t (Stmt.update (buildUpdate e2 req).1 (buildUpdate e2 req).2) := by
      obtain ⟨h1, h2, h3⟩ := run_same_parts e1 e2 req
      cases hx : env.fault with
      | some err => simp [poolQuery, hx]
      | none =>
        simp only [poolQuery, hx, exec, execUpdate, buildUpdate, h1, h2, h3]
    simp only [putDocument, hq]
    split
    · exact ⟨rfl, rfl⟩
    · split <;> exact ⟨rfl, rfl⟩

theorem pairs_values (e : Entity) (req : UpdateReq) :
    ∀ p ∈ setPairs (buildUpdate e req).1.sets ++ [("id", (buildUpdate e req).1.whereParam)],
      (buildUpdate e req).2[p.2 - 1]? = some (Spec.inputFor req p.1) := by
  cases hf : req.file <;> cases hn : truthy req.name <;> cases hd : truthy req.description <;>
    cases hs : truthy req.status <;>
    simp [buildUpdate, Builder.run, Builder.init, Builder.addField, Builder.addFile,
      setPairs, Col.key, Spec.inputFor, hf, hn, hd, hs]

theorem values_length (e : Entity) (req : UpdateReq) :
    2 ≤ (buildUpdate e req).2.length ∧ (buildUpdate e req).2.length ≤ 7
    ∧ (buildUpdate e req).1.whereParam = (buildUpdate e req).2.length := by
  cases hf : req.file <;> cases hn : truthy req.name <;> cases hd : truthy req.description <;>
    cases hs : truthy req.status <;>
    simp [buildUpdate, Builder.run, Builder.init, Builder.addField, Builder.addFile,
      hf, hn, hd, hs]

/-- C27: in the text of the statement of a partial update the placeholders are `$1`, ..., `$n`,
each once and in increasing order, where `n` is the number of bound values and lies between 2
and 7; every pair `column = $k` of the text has as `k`-th bound value the input of the request
that belongs to the column; these pairs are those of the `SET` clause followed by `id = $n`,
and the `n`-th bound value is the id of the request. -/
theorem text_and_values_agree (e : Entity) (req : UpdateReq) :
    placeholders (buildUpdate e req).1.text = List.range' 1 (buildUpdate e req).2.length
    ∧ 2 ≤ (buildUpdate e req).2.length ∧ (buildUpdate e req).2.length ≤ 7
    ∧ (∀ p ∈ boundColumns (sqlWords (buildUpdate e req).1.text),
        (buildUpdate e req).2[p.2 - 1]? = some (Spec.inputFor req p.1))
    ∧ boundColumns (sqlWords (buildUpdate e req).1.text)
        = setPairs (buildUpdate e req).1.sets ++ [("id", (buildUpdate e req).2.length)]
    ∧ (buildUpdate e req).2[(buildUpdate e req).2.length - 1]? = some (Val.num req.id) := by
  obtain ⟨ht, hsets, hw, hl⟩ := build_pattern e req
  obtain ⟨hp1, hp2⟩ := pattern_text e (truthy req.name) (truthy req.description)
    (truthy req.status) req.file.isSome
  obtain ⟨h2, h7, hwl⟩ := values_length e req
  have hb : boundColumns (sqlWords (buildUpdate e req).1.text)
      = setPairs (buildUpdate e req).1.sets ++ [("id", (buildUpdate e req).1.whereParam)] := by
    rw [ht, hsets, hw]
    exact hp2
  refine ⟨?_, h2, h7, ?_, ?_, ?_⟩
  · rw [ht, hl]
    exact hp1
  · rw [hb]
    exact pairs_values e req
  · rw [hb, hwl]
  · have := pairs_values e req ("id", (buildUpdate e req).1.whereParam) (by simp)
    rw [hwl] at this
    simpa [Spec.inputFor] using this

/-- Witness of C27: the statement of the sample update has `$1`, `$2`, `$3`, with `updated_by`,
`status` and `id` attached to them. -/
theorem text_and_values_agree_witness :
    placeholders (buildUpdate Entity.shipments sampleStatusReq).1.text = [1, 2, 3]
    ∧ boundColumns (sqlWords (buildUpdate Entity.shipments sampleStatusReq).1.text)
        = [("updated_by", 1), ("status", 2), ("id", 3)]
    ∧ (buildUpdate Entity.shipments sampleStatusReq).2
        = [Val.str "bob", Val.str "completed", Val.num 1]
    ∧ (buildUpdate Entity.shipments sampleStatusReq).2[2 - 1]?
        = some (Spec.inputFor sampleStatusReq "status") :=
  ⟨(text_and_values_agree Entity.shipments sampleStatusReq).1,
   (text_and_values_agree Entity.shipments sampleStatusReq).2.2.2.2.1,
   rfl,
   (text_and_values_agree Entity.shipments sampleStatusReq).2.2.2.1 ("status", 2)
     (by decide)⟩

/-! ## Register, then login -/

theorem register_created (hash : String → String) (env : Env) (t : UserTable)
    (req : RegisterReq) (em pw : String) (hem : req.email = some em)
    (hpw : req.password = some pw)
    (hok : (register hash env t req).response.status = 201) :
    env.fault = none
    ∧ (∀ u ∈ t.rows, u.email ≠ Val.str em)
    ∧ (register hash env t req).response = ⟨201, Body.obj [("user", Json1.obj
        [("id", Val.num t.nextId), ("email", Val.str em),
         ("role", toSql (fieldVal req.role)),
         ("full_name", toSql (fieldVal req.fullName))])]⟩
    ∧ (register hash env t req).table.rows = t.rows ++
        [{ id := t.nextId, email := Val.str em, password := Val.str (hash pw),
           role := toSql (fieldVal req.role), full_name := toSql (fieldVal req.fullName) }] := by
  have hresp := register_response hash env t req
  have hv : toSql (fieldVal req.email) = Val.str em := by rw [hem]; rfl
  rw [hpw, hv] at hresp
  simp only at hresp
  cases hx : env.fault with
  | some err =>
    rw [hx] at hresp
    simp only at hresp
    rw [hresp] at hok
    split at hok <;> simp at hok
  | none =>
    rw [hx] at hresp
    simp only at hresp
    by_cases hdup : Val.str em ≠ Val.null ∧ ∃ u ∈ t.rows, u.email = Val.str em
    · rw [if_pos hdup] at hresp
      rw [hresp] at hok
      simp at hok
    · rw [if_neg hdup] at hresp
      have hnone : ∀ u ∈ t.rows, u.email ≠ Val.str em := by
        intro u hu he
        exact hdup ⟨fun h => (by cases h), u, hu, he⟩
      refine ⟨rfl, hnone, hresp, ?_⟩
      have h1 : ∀ a b c d : Val, param [a, b, c, d] 1 = toSql a := fun _ _ _ _ => rfl
      have h2 : ∀ a b c d : Val, param [a, b, c, d] 2 = toSql b := fun _ _ _ _ => rfl
      have h3 : ∀ a b c d : Val, param [a, b, c, d] 3 = toSql c := fun _ _ _ _ => rfl
      have h4 : ∀ a b c d : Val, param [a, b, c, d] 4 = toSql d := fun _ _ _ _ => rfl
      have hb : bcryptHash hash (fieldVal (some pw)) = Except.ok (Val.str (hash pw)) := rfl
      simp only [register, hpw, hb, guarded, hx, execInsertUser, h1, h2, h3, h4, hv,
        if_neg hdup, toSql_str]

theorem select_new_user (rows : List UserRow) (new : UserRow) (em : String)
    (hnone : ∀ u ∈ rows, u.email ≠ Val.str em) (hnew : new.email = Val.str em) :
    selectByEmail (rows ++ [new]) (fieldVal (some em)) = [new] := by
  have hv : toSql (fieldVal (some em)) = Val.str em := rfl
  have hnn : Val.str em ≠ Val.null := fun h => by cases h
  unfold selectByEmail
  rw [List.filter_append, hv]
  have h1 : rows.filter (fun u => decide (Val.str em ≠ Val.null ∧ Val.str em = u.email))
      = [] := by
    rw [List.filter_eq_nil_iff]
    intro u hu
    have := hnone u hu
    simp only [decide_eq_true_eq, not_and]
    intro _ h
    exact this h.symm
  rw [h1]
  simp [hnew, hnn]

/-- C29: when the hashing library accepts a password against its own hash, and a register with
an email and a password is answered 201, then a login with that email and password on the
table that the register left is answered 200 with `success: true` and a user whose `id`,
`email`, `role` and `fullName` are the `id`, `email`, `role` and `full_name` of the user that
the register returned; and a login with that email and a password that the library rejects
against the stored hash is answered 401. -/
theorem register_then_login (verdict : String → String → Bool) (hash : String → String)
    (env env2 : Env) (t : UserTable) (req : RegisterReq) (em pw : String)
    (haccept : verdict pw (hash pw) = true)
    (hem : req.email = some em) (hpw : req.password = some pw)
    (hok : (register hash env t req).response.status = 201)
    (hexec2 : env2.fault = none) :
    (∃ id role fullName : Val,
        (register hash env t req).response = ⟨201, Body.obj [("user", Json1.obj
          [("id", id), ("email", Val.str em), ("role", role), ("full_name", fullName)])]⟩
        ∧ login verdict env2 (register hash env t req).table.rows
            { email := some em, password := some pw }
          = ⟨200, loginBody true "Login successful" (Json1.obj
              [("id", id), ("email", Val.str em), ("role", role), ("fullName", fullName)])⟩)
    ∧ ∀ other, verdict other (hash pw) = false →
        login verdict env2 (register hash env t req).table.rows
            { email := some em, password := some other }
          = ⟨401, loginBody false "Invalid credentials" (Json1.val Val.null)⟩ := by
  obtain ⟨_, hnone, hresp, hrows⟩ := register_created hash env t req em pw hem hpw hok
  have hsel := select_new_user t.rows
    { id := t.nextId, email := Val.str em, password := Val.str (hash pw),
      role := toSql (fieldVal req.role), full_name := toSql (fieldVal req.fullName) }
    em hnone rfl
  constructor
  · refine ⟨Val.num t.nextId, toSql (fieldVal req.role), toSql (fieldVal req.fullName),
      hresp, ?_⟩
    rw [hrows]
    simp only [login, hexec2, hsel]
    simp [fieldVal, bcryptCompare, haccept]
  · intro other hrej
    rw [hrows]
    simp only [login, hexec2, hsel]
    simp [fieldVal, bcryptCompare, hrej]

/-- Witness of C29: Dana registers and logs in; "guess" is rejected. -/
theorem register_then_login_witness :
    (register sampleHash sampleEnv sampleUserTable sampleNewReg).response.status = 201
    ∧ login sampleVerdict sampleEnv
        (register sampleHash sampleEnv sampleUserTable sampleNewReg).table.rows
        { email := some "dana@example.com", password := some "s3cret" }
      = ⟨200, loginBody true "Login successful" (Json1.obj
          [("id", Val.num 2), ("email", Val.str "dana@example.com"),
           ("role", Val.str "driver"), ("fullName", Val.str "Dana Cruz")])⟩
    ∧ login sampleVerdict sampleEnv
        (register sampleHash sampleEnv sampleUserTable sampleNewReg).table.rows
        { email := some "dana@example.com", password := some "guess" }
      = ⟨401, loginBody false "Invalid credentials" (Json1.val Val.null)⟩ := by
  have h := register_then_login sampleVerdict sampleHash sampleEnv sampleEnv sampleUserTable
    sampleNewReg "dana@example.com" "s3cret" (by decide) rfl rfl (by decide) rfl
  exact ⟨by decide, by decide, h.2 "guess" (by decide)⟩

/-! ## The closed set of roles -/

/-- C23, evaluated at a registration with the role "superuser": starting from an empty `users`
table, whose roles are trivially in the closed set, the register is answered 201 and stores
the role as given, so the reached table has a role outside admin, coordinator, driver. -/
theorem register_stores_any_role :
    Spec.RolesClosed { rows := [], nextId := 1 }
    ∧ (register sampleHash sampleEnv { rows := [], nextId := 1 } sampleRootReg).response.status
        = 201
    ∧ (register sampleHash sampleEnv { rows := [], nextId := 1 } sampleRootReg).table.rows
        = [{ id := 1, email := Val.str "mallory@example.com", password := Val.str "hash:pw",
             role := Val.str "superuser", full_name := Val.str "Mallory" }]
    ∧ ¬ Spec.RolesClosed
        (register sampleHash sampleEnv { rows := [], nextId := 1 } sampleRootReg).table := by
  refine ⟨?_, by decide, by decide, ?_⟩
  · intro u hu
    cases hu
  · intro h
    have h1 := h { id := 1, email := Val.str "mallory@example.com",
                   password := Val.str "hash:pw", role := Val.str "superuser",
                   full_name := Val.str "Mallory" } (by decide)
    revert h1
    decide

theorem patchRole_rows (env : Env) (t : UserTable) (req : RoleReq) (r : String)
    (hr : req.role = some r) (hin : r = "admin" ∨ r = "coordinator" ∨ r = "driver")
    (hx : env.fault = none) :
    (patchRole env t req).table.rows = t.rows.map (fun u =>
      if u.id = req.id then { u with role := Val.str r } else u) := by
  have : roleAllowed (some r) = true := by
    rw [roleAllowed_iff]
    rcases hin with h | h | h <;> simp [h]
  simp only [patchRole, hr, this, fieldVal, guarded, hx, updateRole_rows, Bool.not_true,
    Bool.false_eq_true, if_false, toSql_str]
  split <;> rfl

/-- The role update and the user delete keep the roles in the closed set. -/
theorem roles_closed_kept (env : Env) (t : UserTable) (h : Spec.RolesClosed t) :
    (∀ req, Spec.RolesClosed (patchRole env t req).table)
    ∧ (∀ id, Spec.RolesClosed (deleteUser env t id).table) := by
  constructor
  · intro req
    by_cases hr : req.role = some "admin" ∨ req.role = some "coordinator"
        ∨ req.role = some "driver"
    · cases hx : env.fault with
      | some err =>
        have : (patchRole env t req).table = t := by
          simp only [patchRole, guarded, hx]
          split <;> rfl
        rw [this]; exact h
      | none =>
        obtain ⟨r, hrr⟩ : ∃ r, req.role = some r := by
          rcases hr with hr | hr | hr <;> exact ⟨_, hr⟩
        have hin : r = "admin" ∨ r = "coordinator" ∨ r = "driver" := by
          rw [hrr] at hr
          rcases hr with hr | hr | hr
          · exact Or.inl (Option.some.inj hr)
          · exact Or.inr (Or.inl (Option.some.inj hr))
          · exact Or.inr (Or.inr (Option.some.inj hr))
        intro u hu
        rw [patchRole_rows env t req r hrr hin hx] at hu
        simp only [List.mem_map] at hu
        obtain ⟨u0, hu0, hu⟩ := hu
        split at hu
        · rw [← hu]
          rcases hin with hin | hin | hin <;> simp [hin]
        · rw [← hu]; exact h u0 hu0
    · have : (patchRole env t req).table = t := by
        have hf : roleAllowed req.role = false := by
          rw [← Bool.not_eq_true, roleAllowed_iff]
          exact hr
        simp [patchRole, hf]
      rw [this]; exact h
  · intro id
    cases hx : env.fault with
    | some err =>
      have : (deleteUser env t id).table = t := by
        simp [deleteUser, guarded, hx]
      rw [this]; exact h
    | none =>
      intro u hu
      have hsub : u ∈ t.rows := by
        simp only [deleteUser, guarded, hx, execDeleteUser] at hu
        split at hu <;> exact (List.mem_filter.mp hu).1
      exact h u hsub

/-! ## An identifier that matches no row -/

theorem excel_no_match (e : Entity) (env : Env) (t : Table) (req : ExcelReq)
    (f : UploadedFile) (hf : req.file = some f) (hexec : env.fault = none)
    (hno : ∀ r ∈ t.rows, r.id ≠ req.id) :
    (putExcel e env t req).response = ⟨200, Body.empty⟩ := by
  have hm : ∀ r : DocRow, matchesId [fieldVal (jsOr req.file_name (some f.originalname)),
      Val.buffer f.buffer, Val.num req.id] 3 r = decide (r.id = req.id) := by
    intro r
    unfold matchesId
    have : param [fieldVal (jsOr req.file_name (some f.originalname)),
      Val.buffer f.buffer, Val.num req.id] 3 = Val.num req.id := rfl
    rw [this]
    by_cases h : r.id = req.id
    · simp [h]
    · have : ¬ req.id = r.id := fun h2 => h h2.symm
      simp [h, this]
  have hmf : matchesId [fieldVal (jsOr req.file_name (some f.originalname)),
      Val.buffer f.buffer, Val.num req.id] 3 = fun r => decide (r.id = req.id) := funext hm
  have hw : (excelStmt e).whereParam = 3 := rfl
  have hfl := filter_id_nil t.rows req.id hno
  simp only [putExcel, hf, poolQuery, hexec, exec, execUpdate, hw, hmf, hfl]
  rfl

/-- C22, evaluated at a file-only replace of an id that no row has: the partial update of the
same id is answered 404 with "Shipment not found", the file-only replace is answered 200
without a body, and the table is as it was. -/
theorem excel_unknown_id_not_404 :
    (∀ r ∈ sampleTable.rows, r.id ≠ sampleLostReplaceReq.id)
    ∧ (putExcel Entity.shipments sampleEnv sampleTable sampleLostReplaceReq).response
        = ⟨200, Body.empty⟩
    ∧ (putExcel Entity.shipments sampleEnv sampleTable sampleLostReplaceReq).table = sampleTable
    ∧ (putDocument Entity.shipments sampleEnv sampleTable sampleMissingReq).response
        = ⟨404, errorBody "Shipment not found"⟩ := by
  decide

theorem num_eq_iff (a b : Nat) : (Val.num a = Val.num b) = (b = a) := by
  apply propext
  constructor
  · intro h; injection h with h; exact h.symm
  · intro h; rw [h]

/-- The other operations that address a row by identifier answer 404 with a not-found `error`
body when the store executes the statement and no row has the identifier (the partial update
and the delete of a document entity are C4 and C9). -/
theorem not_found_elsewhere (env : Env) (hexec : env.fault = none) :
    (∀ (t : UserTable) (req : RoleReq), roleAllowed req.role = true →
        (∀ u ∈ t.rows, u.id ≠ req.id) →
        (patchRole env t req).response = ⟨404, errorBody "User not found"⟩)
    ∧ (∀ (t : UserTable) (id : Nat), (∀ u ∈ t.rows, u.id ≠ id) →
        (deleteUser env t id).response = ⟨404, errorBody "User not found"⟩)
    ∧ (∀ (t : DriverTable) (req : DriverPutReq), (∀ d ∈ t.rows, d.id ≠ req.id) →
        (putDriver env t req).response = ⟨404, errorBody "Driver not found"⟩)
    ∧ (∀ (t : DriverTable) (id : Nat), (∀ d ∈ t.rows, d.id ≠ id) →
        (deleteDriver env t id).response = ⟨404, errorBody "Driver not found"⟩)
    ∧ (∀ (rows : List VehicleRow) (req : VehiclePutReq),
        truthy req.type = true → truthy req.plateNumber = true → truthy req.status = true →
        (∀ v ∈ rows, v.id ≠ Val.str req.id) →
        (putVehicle env rows req).response = ⟨404, errorBody "Vehicle not found"⟩)
    ∧ (∀ (rows : List VehicleRow) (id : String), (∀ v ∈ rows, v.id ≠ Val.str id) →
        (deleteVehicle env rows id).response = ⟨404, errorBody "Vehicle not found"⟩)
    ∧ (∀ (rows : List RouteRow) (req : RoutePutReq),
        truthy req.address = true → truthy req.dropPoint = true →
        (∀ v ∈ rows, v.id ≠ Val.str req.id) →
        (putRoute env rows req).response = ⟨404, errorBody "Route not found"⟩)
    ∧ (∀ (rows : List RouteRow) (id : String), (∀ v ∈ rows, v.id ≠ Val.str id) →
        (deleteRoute env rows id).response = ⟨404, errorBody "Route not found"⟩) := by
  refine ⟨?_, ?_, ?_, ?_, ?_, ?_, ?_, ?_⟩
  · intro t req hr hno
    have hfl : t.rows.filter (fun u => decide (u.id = req.id)) = [] := by
      rw [List.filter_eq_nil_iff]; intro u hu; simpa using hno u hu
    rw [patchRole_response, hr, hexec, hfl]
    rfl
  · intro t id hno
    have hfl : t.rows.filter (fun u => decide (u.id = id)) = [] := by
      rw [List.filter_eq_nil_iff]; intro u hu; simpa using hno u hu
    rw [deleteUser_response, hexec, hfl]
    rfl
  · intro t req hno
    have hp : ∀ a b c d : Val, param [a, b, c, d, Val.num req.id] 5 = Val.num req.id :=
      fun _ _ _ _ => rfl
    have hfl : t.rows.filter (fun d => decide (Val.num req.id = Val.num d.id)) = [] := by
      rw [List.filter_eq_nil_iff]; intro d hd
      simp only [num_eq_iff, decide_eq_true_eq]
      exact hno d hd
    simp only [putDriver, guarded, hexec, execUpdateDriver, hp, hfl]
    rfl
  · intro t id hno
    have hp : param [Val.num id] 1 = Val.num id := rfl
    have hfl : t.rows.filter (fun d => decide (Val.num id = Val.num d.id)) = [] := by
      rw [List.filter_eq_nil_iff]; intro d hd
      simp only [num_eq_iff, decide_eq_true_eq]
      exact hno d hd
    simp only [deleteDriver, guarded, hexec, execDeleteDriver, hp, hfl]
    rfl
  · intro rows req h1 h2 h3 hno
    have hp : ∀ a b c : Val, param [a, b, c, Val.str req.id] 4 = Val.str req.id :=
      fun _ _ _ => rfl
    have hfl : rows.filter (fun v => decide (v.id = Val.str req.id)) = [] := by
      rw [List.filter_eq_nil_iff]; intro v hv; simpa using hno v hv
    simp only [putVehicle, h1, h2, h3, guarded, hexec, execUpdateVehicle, hp, hfl]
    rfl
  · intro rows id hno
    have hp : param [Val.str id] 1 = Val.str id := rfl
    have hfl : rows.filter (fun v => decide (v.id = Val.str id)) = [] := by
      rw [List.filter_eq_nil_iff]; intro v hv; simpa using hno v hv
    simp only [deleteVehicle, guarded, hexec, execDeleteVehicle, hp, hfl]
    rfl
  · intro rows req h1 h2 hno
    have hp : ∀ a b : Val, param [a, b, Val.str req.id] 3 = Val.str req.id :=
      fun _ _ => rfl
    have hfl : rows.filter (fun v => decide (v.id = Val.str req.id)) = [] := by
      rw [List.filter_eq_nil_iff]; intro v hv; simpa using hno v hv
    simp only [putRoute, h1, h2, guarded, hexec, execUpdateRoute, hp, hfl]
    rfl
  · intro rows id hno
    have hp : param [Val.str id] 1 = Val.str id := rfl
    have hfl : rows.filter (fun v => decide (v.id = Val.str id)) = [] := by
      rw [List.filter_eq_nil_iff]; intro v hv; simpa using hno v hv
    simp only [deleteRoute, guarded, hexec, execDeleteRoute, hp, hfl]
    rfl

/-! ## Failures and their answers -/

theorem failure_body_error (s : String) : Spec.IsFailureBody (errorBody s) :=
  ⟨s, Or.inl rfl⟩

theorem failure_body_message (s : String) : Spec.IsFailureBody (messageBody s) :=
  ⟨s, Or.inr (Or.inl rfl)⟩

theorem failure_body_login (s : String) :
    Spec.IsFailureBody (loginBody false s (Json1.val Val.null)) :=
  ⟨s, Or.inr (Or.inr rfl)⟩

/-- When the store throws, every route answers with a status of 400 or above and a failure
body; the status is 500 unless the error has the code 23505 or the handler refused the request
with 400 before it reached the store. -/
theorem thrown_error_answered (verdict : String → String → Bool) (hash : String → String)
    (env : Env) (db : Db) (call : Call) (err : DbError) (h : env.fault = some err) :
    400 ≤ (answer verdict hash env db call).status
    ∧ Spec.IsFailureBody (answer verdict hash env db call).body
    ∧ (err.code ≠ some "23505" →
        (answer verdict hash env db call).status = 500
        ∨ (answer verdict hash env db call).status = 400) := by
  cases call <;>
    simp only [answer, getUsers, patchRole, deleteUser, login, register, getDrivers,
      postDriver, putDriver, deleteDriver, getVehiclesDrivers, getVehicles, postVehicle,
      putVehicle, deleteVehicle, getRoutes, postRoute, putRoute, deleteRoute, listDocuments,
      postDocument, putDocument, putExcel, deleteDocument, guarded, poolQuery, h] <;>
    (repeat' split) <;>
    (refine ⟨by simp, ?_, ?_⟩) <;>
    first
      | exact failure_body_error _
      | exact failure_body_message _
      | exact failure_body_login _
      | (intro hne; simp_all)

/-- Every answer with a status of 400 or above has a failure body: a validation failure, an
identifier without a row, a conflict, a failed login and a thrown error are all answered with
an `error` or a `message` text. -/
theorem failure_status_has_text (verdict : String → String → Bool) (hash : String → String)
    (env : Env) (db : Db) (call : Call)
    (h : 400 ≤ (answer verdict hash env db call).status) :
    Spec.IsFailureBody (answer verdict hash env db call).body := by
  revert h
  cases call <;>
    simp only [answer, getUsers, patchRole, deleteUser, login, register, getDrivers,
      postDriver, putDriver, deleteDriver, getVehiclesDrivers, getVehicles, postVehicle,
      putVehicle, deleteVehicle, getRoutes, postRoute, putRoute, deleteRoute, listDocuments,
      postDocument, putDocument, putExcel, deleteDocument] <;>
    (repeat' split) <;>
    intro h <;>
    first
      | exact failure_body_error _
      | exact failure_body_message _
      | exact failure_body_login _
      | (exfalso; simp at h)

/-- The answer to a thrown error does not depend on the error beyond the test of its code
against 23505: message, stack and any other code leave the answer as it is. -/
theorem answer_ignores_error_text (verdict : String → String → Bool) (hash : String → String)
    (now : Timestamp) (db : Db) (call : Call) (err1 err2 : DbError)
    (hclass : err1.code = some "23505" ↔ err2.code = some "23505") :
    answer verdict hash { now := now, fault := some err1 } db call
      = answer verdict hash { now := now, fault := some err2 } db call := by
  by_cases h1 : err1.code = some "23505"
  · have h2 := hclass.mp h1
    cases call <;>
      simp only [answer, getUsers, patchRole, deleteUser, login, register, getDrivers,
        postDriver, putDriver, deleteDriver, getVehiclesDrivers, getVehicles, postVehicle,
        putVehicle, deleteVehicle, getRoutes, postRoute, putRoute, deleteRoute,
        listDocuments, postDocument, putDocument, putExcel, deleteDocument, guarded,
        poolQuery, h1, h2]
  · have h2 : ¬ err2.code = some "23505" := fun h => h1 (hclass.mpr h)
    cases call <;>
      simp only [answer, getUsers, patchRole, deleteUser, login, register, getDrivers,
        postDriver, putDriver, deleteDriver, getVehiclesDrivers, getVehicles, postVehicle,
        putVehicle, deleteVehicle, getRoutes, postRoute, putRoute, deleteRoute,
        listDocuments, postDocument, putDocument, putExcel, deleteDocument, guarded,
        poolQuery, h1, h2]

/-- A throw of the hashing library is answered 500 with a fixed `message`: a register without a
password, and a login without a password for an email that a user has. -/
theorem hashing_error_answered (verdict : String → String → Bool) (hash : String → String)
    (env : Env) (t : UserTable) :
    (∀ req : RegisterReq, req.password = none →
        (register hash env t req).response = ⟨500, messageBody "Server error"⟩)
    ∧ (∀ (req : LoginReq) (user : UserRow) (rest : List UserRow), env.fault = none →
        selectByEmail t.rows (fieldVal req.email) = user :: rest →
        bcryptCompare verdict (fieldVal req.password) user.password = Except.error () →
        login verdict env t.rows req
          = ⟨500, loginBody false "Server error" (Json1.val Val.null)⟩) := by
  constructor
  · intro req hp
    rw [register_response, hp]
  · intro req user rest hx hsel hthrow
    simp only [login, hx, hsel, hthrow]

/-- With the store down, the list of users is answered 500 with a fixed text; nothing of the
connection error is in the answer. -/
theorem store_down_answer :
    answer sampleVerdict sampleHash sampleDown sampleDb Call.getUsers
      = ⟨500, errorBody "Failed to fetch users"⟩ := by
  decide

/-- C21, evaluated at a file-only replace of an identifier that no row has: the request
`PUT /api/customers/7/excel` with a file, on a customers table without a row 7, fails for want of
a matching row, yet the handler answers 200 with an empty body, which is neither a status of 400
or above nor a body with an `error` or a `message` field. -/
theorem excel_unknown_id_no_failure_answer :
    (∀ r ∈ (sampleDb.docs Entity.customers).rows, r.id ≠ sampleCustomerReplace.id)
    ∧ answer sampleVerdict sampleHash sampleEnv sampleDb
        (Call.putExcel Entity.customers sampleCustomerReplace) = ⟨200, Body.empty⟩
    ∧ ¬ 400 ≤ (answer sampleVerdict sampleHash sampleEnv sampleDb
        (Call.putExcel Entity.customers sampleCustomerReplace)).status
    ∧ ¬ Spec.IsFailureBody (answer sampleVerdict sampleHash sampleEnv sampleDb
        (Call.putExcel Entity.customers sampleCustomerReplace)).body := by
  have hans : answer sampleVerdict sampleHash sampleEnv sampleDb
      (Call.putExcel Entity.customers sampleCustomerReplace) = ⟨200, Body.empty⟩ := by
    decide
  refine ⟨by decide, hans, ?_, ?_⟩
  · rw [hans]; decide
  · rw [hans]
    rintro ⟨s, h | h | h⟩ <;> cases h

/-! ## Login without a password -/

/-- A login without a password, on a store that executes the statement: it is answered 401 when
the select finds no user and 500 when it finds one, since the hashing library throws on the
missing password. -/
theorem login_without_password (verdict : String → String → Bool) (env : Env)
    (users : List UserRow) (req : LoginReq) (hexec : env.fault = none)
    (hpw : req.password = none) :
    (selectByEmail users (fieldVal req.email) = [] →
        login verdict env users req
          = ⟨401, loginBody false "Invalid credentials" (Json1.val Val.null)⟩)
    ∧ (selectByEmail users (fieldVal req.email) ≠ [] →
        login verdict env users req
          = ⟨500, loginBody false "Server error" (Json1.val Val.null)⟩) := by
  constructor
  · intro hsel
    simp only [login, hexec, hsel]
  · intro hsel
    cases hrows : selectByEmail users (fieldVal req.email) with
    | nil => exact absurd hrows hsel
    | cons user rest =>
      have hcmp : bcryptCompare verdict (fieldVal req.password) user.password
          = Except.error () := by
        rw [hpw]; rfl
      simp only [login, hexec, hrows, hcmp]

/-- C10, evaluated at two logins without a password: no user has the email
`nobody@example.com` and the login is answered 401 with "Invalid credentials"; a user has the
email `admin@example.com`, the missing password does not match the stored hash, and the login is
answered 500 with "Server error"; the two responses differ, so the response tells whether the
email has a user. A login with neither email nor password is answered 401. -/
theorem login_without_password_tells_email :
    (∀ u ∈ sampleUsers, u.email ≠ fieldVal sampleUnknownNoPassword.email)
    ∧ (∃ u ∈ sampleUsers, u.email = fieldVal sampleKnownNoPassword.email)
    ∧ login sampleVerdict sampleEnv sampleUsers sampleUnknownNoPassword
        = ⟨401, loginBody false "Invalid credentials" (Json1.val Val.null)⟩
    ∧ login sampleVerdict sampleEnv sampleUsers sampleKnownNoPassword
        = ⟨500, loginBody false "Server error" (Json1.val Val.null)⟩
    ∧ login sampleVerdict sampleEnv sampleUsers sampleUnknownNoPassword
        ≠ login sampleVerdict sampleEnv sampleUsers sampleKnownNoPassword
    ∧ login sampleVerdict sampleEnv sampleUsers { email := none, password := none }
        = ⟨401, loginBody false "Invalid credentials" (Json1.val Val.null)⟩ := by
  refine ⟨by decide, ⟨_, List.mem_cons_self _ _, rfl⟩, by decide, by decide, by decide,
    by decide⟩

end LogiTrack
